import Mathlib

/-!
# SPML geodesy: an embedding of `geodesy.cpp` over the real numbers

The C++ functions of `src/program/spml/src/geodesy.cpp` are translated into
functions over `ℝ`.  Conventions of the embedding:

* a `double` is a real number and, outside the section on binary64 arithmetic,
  rounding is not modelled; in that section every operation is rounded to the
  nearest `double`;
* `std::sin`, `std::cos`, `std::tan`, `std::atan`, `std::asin`, `std::acos`,
  `std::sqrt`, `std::abs` are `Real.sin`, `Real.cos`, `Real.tan`, `Real.arctan`,
  `Real.arcsin`, `Real.arccos`, `Real.sqrt` and `|·|`;
* `std::atan2 (y, x)` is the argument of the complex number `x + y i`, which lies
  in `(-π, π]` and is `0` at the origin;
* `std::hypot (x, y)` is `sqrt (x * x + y * y)`;
* functions with output parameters return a structure with those outputs;
* a failed `assert` is the result `none`;
* the header `geodesy.h` and the headers it includes (`compare.h`, `convert.h`,
  `units.h`, `consts.h`) are not part of the sources: what the functions use
  from them is either a parameter (the tolerance `eps` of the `Compare`
  helpers) or modelled from the specification, and marked so.
-/

/-! The generated size and injectivity lemmas of the structures are not used,
except the injectivity of `XYZ`, `ENU` and `InverseVars`. -/
set_option genSizeOf false
set_option genSizeOfSpec false
set_option genInjectivity false
set_option linter.all false

namespace SPML

/-! ## Units, constants and comparison helpers (declared in the absent headers) -/

namespace Units

/-- The angle unit tag of a call, `Units::TAngleUnit`. -/
inductive TAngleUnit
  | AU_Radian
  | AU_Degree
  deriving DecidableEq

/-- The range unit tag of a call, `Units::TRangeUnit`. -/
inductive TRangeUnit
  | RU_Meter
  | RU_Kilometer
  deriving DecidableEq

end Units

open Units

namespace Convert

/-- Modelled from the spec: the constant `Convert::DgToRdD` is declared in the
absent header `convert.h`; the specification gives the degree to radian factor
as `π/180`. -/
noncomputable def DgToRdD : ℝ := Real.pi / 180

/-- Modelled from the spec: the constant `Convert::RdToDgD` is declared in the
absent header `convert.h`; it is the radian to degree factor `180/π`. -/
noncomputable def RdToDgD : ℝ := 180 / Real.pi

/-- The period of an angle in the given unit: `2π` radians or `360` degrees. -/
noncomputable def fullTurn : TAngleUnit → ℝ
  | TAngleUnit.AU_Radian => 2 * Real.pi
  | TAngleUnit.AU_Degree => 360

/-- Modelled from the spec: `Convert::AngleTo360` is defined in the absent header
`convert.h`; the specification describes it as the modulo wrap of an angle into
`[0°, 360°)`, equivalently `[0, 2π)`, that never leaves the result negative. -/
noncomputable def AngleTo360 (angle : ℝ) (au : TAngleUnit) : ℝ :=
  angle - fullTurn au * (⌊angle / fullTurn au⌋ : ℝ)

end Convert

namespace Compare

/-- Modelled from the spec: `Compare::IsZeroAbs` is defined in the absent header
`compare.h`.  It is the test "the value is zero" up to an absolute tolerance; the
tolerance `eps` (a default argument in the header) is a parameter of the
embedding, and `eps = 0` is the exact test the specification words describe. -/
def IsZeroAbs (eps value : ℝ) : Prop := |value| ≤ eps

/-- Modelled from the spec: `Compare::AreEqualAbs` is defined in the absent header
`compare.h`.  It is the test `first == second` up to the absolute tolerance `eps`. -/
def AreEqualAbs (eps first second : ℝ) : Prop := |first - second| ≤ eps

noncomputable instance (eps value : ℝ) : Decidable (IsZeroAbs eps value) := by
  unfold IsZeroAbs; infer_instance

noncomputable instance (eps first second : ℝ) : Decidable (AreEqualAbs eps first second) := by
  unfold AreEqualAbs; infer_instance

end Compare

/-- The library call `std::atan2 (y, x)`: the angle of the point `(x, y)`, in
`(-π, π]`, and `0` when `x = y = 0`. -/
noncomputable def atan2 (y x : ℝ) : ℝ := Complex.arg ⟨x, y⟩

/-- The library call `std::hypot (x, y)`. -/
noncomputable def hypot (x y : ℝ) : ℝ := Real.sqrt (x * x + y * y)

namespace Geodesy

open Compare Convert

/-! ## Data model -/

/-- A `double` constructor argument that may be an IEEE infinity
(`std::isinf` is tested on the inverse flattening). -/
inductive DoubleArg
  | finite (v : ℝ)
  | posInf
  | negInf

/-- The test `std::isinf`. -/
def DoubleArg.isinf : DoubleArg → Bool
  | DoubleArg.finite _ => false
  | DoubleArg.posInf => true
  | DoubleArg.negInf => true

/-- The quotient `1.0 / x`: `1 / v` for a finite `v` and (signed) zero for an
infinity.  For `v = 0` the IEEE result is an infinity; the embedding has the
real-number convention `1 / 0 = 0` there. -/
noncomputable def DoubleArg.recip : DoubleArg → ℝ
  | DoubleArg.finite v => 1.0 / v
  | DoubleArg.posInf => 0
  | DoubleArg.negInf => 0

/-- The test `Compare::IsZeroAbs` on a constructor argument; an infinity is not
within any tolerance of zero. -/
def DoubleArg.IsZeroAbs (eps : ℝ) : DoubleArg → Prop
  | DoubleArg.finite v => Compare.IsZeroAbs eps v
  | DoubleArg.posInf => False
  | DoubleArg.negInf => False

noncomputable instance (eps : ℝ) (x : DoubleArg) : Decidable (DoubleArg.IsZeroAbs eps x) := by
  cases x <;> unfold DoubleArg.IsZeroAbs <;> infer_instance

/-- The class `CEllipsoid`: name, semi-major axis `a`, semi-minor axis `b`,
flattening `f` and inverse flattening `invf`. -/
structure CEllipsoid where
  name : String
  a : ℝ
  b : ℝ
  f : ℝ
  invf : DoubleArg

/-- The constructor `CEllipsoid::CEllipsoid (ellipsoidName, semiMajorAxis,
semiMinorAxis, inverseFlattening, isInvfDef)` (named `ctor` here, the class name
being taken by the structure). -/
noncomputable def CEllipsoid.ctor (eps : ℝ) (ellipsoidName : String)
    (semiMajorAxis semiMinorAxis : ℝ) (inverseFlattening : DoubleArg) (isInvfDef : Bool) :
    CEllipsoid :=
  if isInvfDef = true ∧ (DoubleArg.IsZeroAbs eps inverseFlattening ∨
      inverseFlattening.isinf = true) then
    { name := ellipsoidName, a := semiMajorAxis, invf := inverseFlattening,
      b := semiMajorAxis, f := 0.0 }
  else if isInvfDef = true then
    { name := ellipsoidName, a := semiMajorAxis, invf := inverseFlattening,
      b := (1.0 - inverseFlattening.recip) * semiMajorAxis, f := inverseFlattening.recip }
  else
    { name := ellipsoidName, a := semiMajorAxis, invf := inverseFlattening,
      b := semiMinorAxis, f := inverseFlattening.recip }

/-- The accessor `CEllipsoid::A`. -/
def CEllipsoid.A (e : CEllipsoid) : ℝ := e.a

/-- The accessor `CEllipsoid::B`. -/
def CEllipsoid.B (e : CEllipsoid) : ℝ := e.b

/-- The accessor `CEllipsoid::F`. -/
def CEllipsoid.F (e : CEllipsoid) : ℝ := e.f

/-- Modelled from the spec: the accessor `CEllipsoid::EccentricityFirstSquared` is
defined in the absent header `geodesy.h`; the specification gives the first
eccentricity squared as `e² = 1 − b²/a²`. -/
noncomputable def CEllipsoid.EccentricityFirstSquared (e : CEllipsoid) : ℝ :=
  1 - (e.b * e.b) / (e.a * e.a)

/-- Result of `GEOtoRAD`: range, azimuth at the start point, azimuth at the end
point (`struct RAD`). -/
structure RAD where
  R : ℝ
  Az : ℝ
  AzEnd : ℝ

/-- Geographic coordinates (`struct Geographic`). -/
structure Geographic where
  Lat : ℝ
  Lon : ℝ

/-- Geodetic coordinates (`struct Geodetic`). -/
structure Geodetic where
  Lat : ℝ
  Lon : ℝ
  Height : ℝ

set_option genInjectivity true in
/-- ECEF coordinates (`struct XYZ`). -/
structure XYZ where
  X : ℝ
  Y : ℝ
  Z : ℝ

set_option genInjectivity true in
/-- Local east-north-up coordinates (`struct ENU`). -/
structure ENU where
  E : ℝ
  N : ℝ
  U : ℝ

/-- Local azimuth-elevation-range coordinates (`struct AER`). -/
structure AER where
  A : ℝ
  E : ℝ
  R : ℝ

/-! ## Unit normalisation switches

Every function repeats the same `switch` statements on the unit tags; the four
helpers below are those statements.  Both enumerations have exactly two tags, so
the `default: assert( false )` branches cannot be reached. -/

/-- The input switch on the angle unit: `x *= Convert::DgToRdD` for degrees. -/
noncomputable def toRadian : TAngleUnit → ℝ → ℝ
  | TAngleUnit.AU_Radian, x => x
  | TAngleUnit.AU_Degree, x => x * DgToRdD

/-- The output switch on the angle unit: `x *= Convert::RdToDgD` for degrees. -/
noncomputable def fromRadian : TAngleUnit → ℝ → ℝ
  | TAngleUnit.AU_Radian, x => x
  | TAngleUnit.AU_Degree, x => x * RdToDgD

/-- The input switch on the range unit: `x *= 1000.0` for kilometres. -/
noncomputable def toMeter : TRangeUnit → ℝ → ℝ
  | TRangeUnit.RU_Meter, x => x
  | TRangeUnit.RU_Kilometer, x => x * 1000.0

/-- The output switch on the range unit: `x *= 0.001` for kilometres. -/
noncomputable def fromMeter : TRangeUnit → ℝ → ℝ
  | TRangeUnit.RU_Meter, x => x
  | TRangeUnit.RU_Kilometer, x => x * 0.001

/-! ## Inverse geodesic problem: `GEOtoRAD` -/

set_option genInjectivity true in
/-- The local variables of the Vincenty loop of `GEOtoRAD` at the end of a pass. -/
structure InverseVars where
  lambda : ℝ
  lambda_new : ℝ
  sinSigma : ℝ
  cosSigma : ℝ
  sigma : ℝ
  sinAlpha : ℝ
  cosSqAlpha : ℝ
  cos2SigmaM : ℝ
  c : ℝ
  sinLambda : ℝ
  cosLambda : ℝ

/-- How the `do ... while` loop of `GEOtoRAD` was left, with the number of passes
through its body that were started: by the `return` of the co-incident points
test, or by the loop condition becoming false. -/
inductive InverseExit
  | coincident (passes : ℕ)
  | finished (v : InverseVars) (passes : ℕ)

/-- The value `sinSigma` of eq. 14, computed at the start of a pass. -/
noncomputable def inverseSinSigma (sinU1 cosU1 sinU2 cosU2 lambda : ℝ) : ℝ :=
  Real.sqrt ((cosU2 * Real.sin lambda) * (cosU2 * Real.sin lambda) +
    (cosU1 * sinU2 - sinU1 * cosU2 * Real.cos lambda) *
      (cosU1 * sinU2 - sinU1 * cosU2 * Real.cos lambda))

/-- One pass through the loop body of `GEOtoRAD` once the co-incident points test
has failed (eq. 14 to eq. 11).  `std::isnan( cos2SigmaM )` holds exactly when the
quotient of eq. 18 is `0/0`; a non-zero numerator over `cosSqAlpha = 0` is an IEEE
infinity, for which the embedding has the real-number convention `x / 0 = 0`. -/
noncomputable def inversePass (f L sinU1 cosU1 sinU2 cosU2 lambda : ℝ) : InverseVars :=
  let sinLambda := Real.sin lambda
  let cosLambda := Real.cos lambda
  let sinSigma := inverseSinSigma sinU1 cosU1 sinU2 cosU2 lambda
  let cosSigma := sinU1 * sinU2 + cosU1 * cosU2 * cosLambda
  let sigma := atan2 sinSigma cosSigma
  let sinAlpha := cosU1 * cosU2 * sinLambda / sinSigma
  let cosSqAlpha := 1 - sinAlpha * sinAlpha
  let cos2SigmaM :=
    if cosSqAlpha = 0 ∧ 2.0 * sinU1 * sinU2 = 0 then 0
    else cosSigma - 2.0 * sinU1 * sinU2 / cosSqAlpha
  let c := (f / 16.0) * cosSqAlpha * (4.0 + f * (4.0 - 3.0 * cosSqAlpha))
  let lambda_new := lambda
  let lambda1 := L + (1.0 - c) * f * sinAlpha *
    (sigma + c * sinSigma * (cos2SigmaM + c * cosSigma * (-1.0 + 2.0 * cos2SigmaM * cos2SigmaM)))
  { lambda := lambda1, lambda_new := lambda_new, sinSigma := sinSigma, cosSigma := cosSigma,
    sigma := sigma, sinAlpha := sinAlpha, cosSqAlpha := cosSqAlpha, cos2SigmaM := cos2SigmaM,
    c := c, sinLambda := sinLambda, cosLambda := cosLambda }

/-- The first conjunct of the loop condition,
`std::abs( ( lambda - lambda_new ) / lambda ) > 1.0e-15`.  For `lambda = 0` the
IEEE quotient is an infinity (condition true) when the numerator is not zero and
not-a-number (condition false) when it is. -/
def inverseImproves (v : InverseVars) : Prop :=
  if v.lambda = 0 then v.lambda - v.lambda_new ≠ 0
  else |(v.lambda - v.lambda_new) / v.lambda| > 1.0e-15

noncomputable instance (v : InverseVars) : Decidable (inverseImproves v) := by
  unfold inverseImproves; infer_instance

/-- The `do ... while` loop of `GEOtoRAD`.  The first argument is `iterLimit`
(in the second equation `limit` is its value after `--iterLimit`), the second the
number of passes already made, the third `lambda`. -/
noncomputable def inverseLoop (eps f L sinU1 cosU1 sinU2 cosU2 : ℝ) : ℕ → ℕ → ℝ → InverseExit
  | 0, passes, lambda =>
    if IsZeroAbs eps (inverseSinSigma sinU1 cosU1 sinU2 cosU2 lambda) then
      InverseExit.coincident (passes + 1)
    else
      InverseExit.finished (inversePass f L sinU1 cosU1 sinU2 cosU2 lambda) (passes + 1)
  | limit + 1, passes, lambda =>
    if IsZeroAbs eps (inverseSinSigma sinU1 cosU1 sinU2 cosU2 lambda) then
      InverseExit.coincident (passes + 1)
    else if inverseImproves (inversePass f L sinU1 cosU1 sinU2 cosU2 lambda) ∧ limit > 0 then
      inverseLoop eps f L sinU1 cosU1 sinU2 cosU2 limit (passes + 1)
        (inversePass f L sinU1 cosU1 sinU2 cosU2 lambda).lambda
    else
      InverseExit.finished (inversePass f L sinU1 cosU1 sinU2 cosU2 lambda) (passes + 1)

/-- The reduced latitude `U = atan( ( 1 - f ) * tan( lat ) )`. -/
noncomputable def reducedLat (f lat : ℝ) : ℝ := Real.arctan ((1.0 - f) * Real.tan lat)

/-- The loop of the ellipsoidal branch of `GEOtoRAD` as the function starts it:
`lambda = L`, `iterLimit = 100`.  The arguments are in radians. -/
noncomputable def GEOtoRADLoop (eps f _latStart _lonStart _latEnd _lonEnd : ℝ) : InverseExit :=
  let L := _lonEnd - _lonStart
  let U1 := reducedLat f _latStart
  let U2 := reducedLat f _latEnd
  inverseLoop eps f L (Real.sin U1) (Real.cos U1) (Real.sin U2) (Real.cos U2) 100 0 L

/-- The spherical branch of `GEOtoRAD`, in metres and radians. -/
noncomputable def GEOtoRADSphere (a _latStart _lonStart _latEnd _lonEnd : ℝ) : RAD :=
  let az := AngleTo360 (atan2 (Real.cos _latEnd * Real.sin (_lonEnd - _lonStart))
    (Real.cos _latStart * Real.sin _latEnd -
      Real.sin _latStart * Real.cos _latEnd * Real.cos (_lonEnd - _lonStart))) TAngleUnit.AU_Radian
  let azEnd := AngleTo360 (atan2 (Real.cos _latStart * Real.sin (_lonEnd - _lonStart))
    (Real.cos _latStart * Real.sin _latEnd * Real.cos (_lonEnd - _lonStart) -
      Real.sin _latStart * Real.cos _latEnd)) TAngleUnit.AU_Radian
  let temp1 := Real.sin _latStart * Real.sin _latEnd
  let temp2 := Real.cos _latStart * Real.cos _latEnd * Real.cos (_lonEnd - _lonStart)
  let temp3 := temp1 + temp2
  { R := Real.arccos temp3 * a, Az := az, AzEnd := azEnd }

/-- The statements of the ellipsoidal branch of `GEOtoRAD` after the loop (eq. 3,
4, 6, 19, 20, 21), in metres and radians. -/
noncomputable def GEOtoRADFinish (a b sinU1 cosU1 sinU2 cosU2 : ℝ) (v : InverseVars) : RAD :=
  let uSq := v.cosSqAlpha * (a * a - b * b) / (b * b)
  let A := 1 + uSq / 16384.0 * (4096.0 + uSq * (-768.0 + uSq * (320.0 - 175.0 * uSq)))
  let B := uSq / 1024.0 * (256.0 + uSq * (-128.0 + uSq * (74.0 - 47.0 * uSq)))
  let deltaSigma := B * v.sinSigma *
    (v.cos2SigmaM + (B / 4.0) * (v.cosSigma * (-1.0 + 2.0 * v.cos2SigmaM * v.cos2SigmaM) -
      (B / 6.0) * v.cos2SigmaM * (-3.0 + 4.0 * v.sinSigma * v.sinSigma) *
        (-3.0 + 4.0 * v.cos2SigmaM * v.cos2SigmaM)))
  { R := b * A * (v.sigma - deltaSigma),
    Az := AngleTo360 (atan2 (cosU2 * v.sinLambda)
      (cosU1 * sinU2 - sinU1 * cosU2 * v.cosLambda)) TAngleUnit.AU_Radian,
    AzEnd := AngleTo360 (atan2 (cosU1 * v.sinLambda)
      (-sinU1 * cosU2 + cosU1 * sinU2 * v.cosLambda)) TAngleUnit.AU_Radian }

/-- The function `GEOtoRAD` (primitive form): distance `d`, azimuth `az` at the
start point and azimuth `azEnd` at the end point.  The `return` of the co-incident
points test leaves the function before the output unit switches. -/
noncomputable def GEOtoRAD (eps : ℝ) (ellipsoid : CEllipsoid) (rangeUnit : TRangeUnit)
    (angleUnit : TAngleUnit) (latStart lonStart latEnd lonEnd : ℝ) : RAD :=
  let a := ellipsoid.A
  let b := ellipsoid.B
  let f := ellipsoid.F
  let _latStart := toRadian angleUnit latStart
  let _lonStart := toRadian angleUnit lonStart
  let _latEnd := toRadian angleUnit latEnd
  let _lonEnd := toRadian angleUnit lonEnd
  if AreEqualAbs eps a b then
    let r := GEOtoRADSphere a _latStart _lonStart _latEnd _lonEnd
    { R := fromMeter rangeUnit r.R, Az := fromRadian angleUnit r.Az,
      AzEnd := fromRadian angleUnit r.AzEnd }
  else
    match GEOtoRADLoop eps f _latStart _lonStart _latEnd _lonEnd with
    | InverseExit.coincident _ => { R := 0.0, Az := 0.0, AzEnd := 0.0 }
    | InverseExit.finished v _ =>
      let U1 := reducedLat f _latStart
      let U2 := reducedLat f _latEnd
      let r := GEOtoRADFinish a b (Real.sin U1) (Real.cos U1) (Real.sin U2) (Real.cos U2) v
      { R := fromMeter rangeUnit r.R, Az := fromRadian angleUnit r.Az,
        AzEnd := fromRadian angleUnit r.AzEnd }

/-- The way `GEOtoRAD` runs its Vincenty loop: `none` on the spherical branch
(the loop is not entered), otherwise how the loop was left. -/
noncomputable def GEOtoRADTrace (eps : ℝ) (ellipsoid : CEllipsoid) (angleUnit : TAngleUnit)
    (latStart lonStart latEnd lonEnd : ℝ) : Option InverseExit :=
  if AreEqualAbs eps ellipsoid.A ellipsoid.B then none
  else some (GEOtoRADLoop eps ellipsoid.F (toRadian angleUnit latStart)
    (toRadian angleUnit lonStart) (toRadian angleUnit latEnd) (toRadian angleUnit lonEnd))

/-! ## Direct geodesic problem: `RADtoGEO` -/

/-- The value `deltaSigma` of eq. 6 in the loop of `RADtoGEO`. -/
noncomputable def directDeltaSigma (B sigma1 sigma : ℝ) : ℝ :=
  let cos2SigmaM := Real.cos (2.0 * sigma1 + sigma)
  let sinSigma := Real.sin sigma
  let cosSigma := Real.cos sigma
  B * sinSigma * (cos2SigmaM +
    (B / 4.0) * (cosSigma * (-1.0 + 2.0 * cos2SigmaM * cos2SigmaM) -
      (B / 6.0) * cos2SigmaM * (-3.0 + 4.0 * sinSigma * sinSigma) *
        (-3.0 + 4.0 * cos2SigmaM * cos2SigmaM)))

/-- The `while( true )` loop of `RADtoGEO`, from the values of `sigma`,
`prevSigma` and `iterations` at the start of a pass.  The result is the final
`sigma` and the number of passes made (`iterations + 1` at the pass that breaks).
The difference `sigma - prevSigma` of two reals is never not-a-number, so the
`std::isnan` disjunct of the first `break` is false. -/
noncomputable def directLoop (B sigma1 sOverbA : ℝ) (sigma prevSigma : ℝ) (iterations : ℕ) :
    ℝ × ℕ :=
  if |sOverbA + directDeltaSigma B sigma1 sigma - prevSigma| < 1.0e-15 then
    (sOverbA + directDeltaSigma B sigma1 sigma, iterations + 1)
  else if h : iterations + 1 > 1000 then
    (sOverbA + directDeltaSigma B sigma1 sigma, iterations + 1)
  else
    directLoop B sigma1 sOverbA (sOverbA + directDeltaSigma B sigma1 sigma)
      (sOverbA + directDeltaSigma B sigma1 sigma) (iterations + 1)
termination_by 1001 - iterations
decreasing_by omega

/-- Result of `RADtoGEO` (primitive form): the end point and the azimuth there. -/
structure DirectResult where
  latEnd : ℝ
  lonEnd : ℝ
  azEnd : ℝ

/-- The spherical branch of `RADtoGEO`, in radians; `d` is in metres. -/
noncomputable def RADtoGEOSphere (a _latStart _lonStart d _az : ℝ) : DirectResult :=
  let _d := d / a
  { latEnd := Real.arcsin (Real.sin _latStart * Real.cos _d +
      Real.cos _latStart * Real.sin _d * Real.cos _az),
    lonEnd := _lonStart + atan2 (Real.sin _d * Real.sin _az)
      (Real.cos _latStart * Real.cos _d - Real.sin _latStart * Real.sin _d * Real.cos _az),
    azEnd := AngleTo360 (atan2 (Real.cos _latStart * Real.sin _az)
      (Real.cos _latStart * Real.cos _d * Real.cos _az - Real.sin _latStart * Real.sin _d))
      TAngleUnit.AU_Radian }

/-- The ellipsoidal branch of `RADtoGEO` (Vincenty), in radians and metres. -/
noncomputable def RADtoGEOEllipsoid (a b f _latStart _lonStart _d _az : ℝ) : DirectResult :=
  let cosAlpha1 := Real.cos _az
  let sinAlpha1 := Real.sin _az
  let s := _d
  let tanU1 := (1.0 - f) * Real.tan _latStart
  let cosU1 := 1.0 / Real.sqrt (1.0 + tanU1 * tanU1)
  let sinU1 := tanU1 * cosU1
  let sigma1 := atan2 tanU1 cosAlpha1
  let sinAlpha := cosU1 * sinAlpha1
  let cosSqAlpha := 1 - sinAlpha * sinAlpha
  let uSq := cosSqAlpha * (a * a - b * b) / (b * b)
  let A := 1.0 + (uSq / 16384.0) * (4096.0 + uSq * (-768.0 + uSq * (320.0 - 175.0 * uSq)))
  let B := (uSq / 1024.0) * (256.0 + uSq * (-128.0 + uSq * (74.0 - 47.0 * uSq)))
  let sOverbA := s / (b * A)
  let sigma := (directLoop B sigma1 sOverbA sOverbA sOverbA 0).1
  let cos2SigmaM := Real.cos (2.0 * sigma1 + sigma)
  let sinSigma := Real.sin sigma
  let cosSigma := Real.cos sigma
  let tmp := sinU1 * sinSigma - cosU1 * cosSigma * cosAlpha1
  let latEnd := atan2 (sinU1 * cosSigma + cosU1 * sinSigma * cosAlpha1)
    ((1.0 - f) * Real.sqrt (sinAlpha * sinAlpha + tmp * tmp))
  let lambda := atan2 (sinSigma * sinAlpha1) (cosU1 * cosSigma - sinU1 * sinSigma * cosAlpha1)
  let c := (f / 16.0) * cosSqAlpha * (4.0 + f * (4.0 - 3.0 * cosSqAlpha))
  let L := lambda - (1.0 - c) * f * sinAlpha * (sigma + c * sinSigma *
    (cos2SigmaM + c * cosSigma * (-1.0 + 2.0 * cos2SigmaM * cos2SigmaM)))
  let alpha2 := atan2 sinAlpha (-tmp)
  { latEnd := latEnd, lonEnd := _lonStart + L,
    azEnd := AngleTo360 alpha2 TAngleUnit.AU_Radian }

/-- The function `RADtoGEO` (primitive form). -/
noncomputable def RADtoGEO (eps : ℝ) (ellipsoid : CEllipsoid) (rangeUnit : TRangeUnit)
    (angleUnit : TAngleUnit) (latStart lonStart d az : ℝ) : DirectResult :=
  let a := ellipsoid.A
  let b := ellipsoid.B
  let f := ellipsoid.F
  let _latStart := toRadian angleUnit latStart
  let _lonStart := toRadian angleUnit lonStart
  let _az := toRadian angleUnit az
  let _d := toMeter rangeUnit d
  let r := if AreEqualAbs eps a b then RADtoGEOSphere a _latStart _lonStart _d _az
    else RADtoGEOEllipsoid a b f _latStart _lonStart _d _az
  { latEnd := fromRadian angleUnit r.latEnd, lonEnd := fromRadian angleUnit r.lonEnd,
    azEnd := fromRadian angleUnit r.azEnd }

/-- The loop of the ellipsoidal branch of `RADtoGEO` as the function starts it
(`sigma = prevSigma = sOverbA`, `iterations = 0`), after the statements that
compute `sigma1`, `A`, `B` and `sOverbA`: the final `sigma` and the number of
passes through the loop body, each of which evaluates the update of `sigma`
(eq. 7) once.  The arguments are in radians and metres. -/
noncomputable def RADtoGEOLoop (a b f _latStart _d _az : ℝ) : ℝ × ℕ :=
  let cosAlpha1 := Real.cos _az
  let sinAlpha1 := Real.sin _az
  let s := _d
  let tanU1 := (1.0 - f) * Real.tan _latStart
  let cosU1 := 1.0 / Real.sqrt (1.0 + tanU1 * tanU1)
  let sigma1 := atan2 tanU1 cosAlpha1
  let sinAlpha := cosU1 * sinAlpha1
  let cosSqAlpha := 1 - sinAlpha * sinAlpha
  let uSq := cosSqAlpha * (a * a - b * b) / (b * b)
  let A := 1.0 + (uSq / 16384.0) * (4096.0 + uSq * (-768.0 + uSq * (320.0 - 175.0 * uSq)))
  let B := (uSq / 1024.0) * (256.0 + uSq * (-128.0 + uSq * (74.0 - 47.0 * uSq)))
  let sOverbA := s / (b * A)
  directLoop B sigma1 sOverbA sOverbA sOverbA 0

/-- The number of evaluations of the update of `sigma` that a call of `RADtoGEO`
makes: `none` on the spherical branch (there is no loop), otherwise the number
of passes through the loop. -/
noncomputable def RADtoGEOTrace (eps : ℝ) (ellipsoid : CEllipsoid) (rangeUnit : TRangeUnit)
    (angleUnit : TAngleUnit) (latStart _lonStart d az : ℝ) : Option ℕ :=
  if AreEqualAbs eps ellipsoid.A ellipsoid.B then none
  else some (RADtoGEOLoop ellipsoid.A ellipsoid.B ellipsoid.F (toRadian angleUnit latStart)
    (toMeter rangeUnit d) (toRadian angleUnit az)).2

/-! ## Geodetic and ECEF coordinates -/

/-- The function `GEOtoECEF` (primitive form); `none` when one of its two
assertions fails. -/
noncomputable def GEOtoECEF (eps : ℝ) (ellipsoid : CEllipsoid) (rangeUnit : TRangeUnit)
    (angleUnit : TAngleUnit) (lat lon h : ℝ) : Option XYZ :=
  let a := ellipsoid.A
  let _lat := toRadian angleUnit lat
  let _lon := toRadian angleUnit lon
  let _h := toMeter rangeUnit h
  if IsZeroAbs eps (a * a) then none
  else
    let es := ellipsoid.EccentricityFirstSquared
    let sinLat := Real.sin _lat
    let cosLat := Real.cos _lat
    let sinLon := Real.sin _lon
    let cosLon := Real.cos _lon
    let arg := 1.0 - (es * (sinLat * sinLat))
    if arg > 0 then
      let v := a / Real.sqrt arg
      let x := (v + _h) * cosLat * cosLon
      let y := (v + _h) * cosLat * sinLon
      let z := (v * (1.0 - es) + _h) * Real.sin _lat
      match rangeUnit with
      | TRangeUnit.RU_Meter => some { X := x, Y := y, Z := z }
      | TRangeUnit.RU_Kilometer => some { X := x / 1000.0, Y := y / 1000.0, Z := z / 1000.0 }
    else none

/-- The auxiliary quantities that `ECEFtoGEO` and `latlon` derive from the
coordinates in metres: `zp`, `w2`, `w`, `z2`, `r2`, `r`, `s2`, `c2`. -/
structure OlsonAux where
  zp : ℝ
  w2 : ℝ
  w : ℝ
  z2 : ℝ
  r2 : ℝ
  r : ℝ
  s2 : ℝ
  c2 : ℝ

/-- The statements of `ECEFtoGEO` that compute `_zp`, `_w2`, `_w`, `_z2`, `_r2`,
`_r`, `_s2`, `_c2` from the coordinates in metres (source lines 665 to 679). -/
noncomputable def ECEFtoGEOAux (_x _y _z : ℝ) : OlsonAux :=
  let _zp := |_z|
  let _w2 := _x * _x + _y + _y
  let _w := Real.sqrt _w2
  let _z2 := _z * _z
  let _r2 := _w2 + _z2
  let _r := Real.sqrt _r2
  let _s2 := _z2 / _r2
  let _c2 := _w2 / _r2
  { zp := _zp, w2 := _w2, w := _w, z2 := _z2, r2 := _r2, r := _r, s2 := _s2, c2 := _c2 }

/-- The statements of the reference routine `latlon` from its first statement to
the computation of `c2` (source lines 750 to 765): `none` when the routine leaves
at its test `r < 100000.`, before `s2` and `c2` are computed, otherwise the values
of `zp`, `w2`, `w`, `z2`, `r2`, `r`, `s2`, `c2`. -/
noncomputable def latlonAux (x y z : ℝ) : Option OlsonAux :=
  let zp := |z|
  let w2 := x * x + y * y
  let w := Real.sqrt w2
  let z2 := z * z
  let r2 := w2 + z2
  let r := Real.sqrt r2
  if r < 100000.0 then none
  else
    let s2 := z2 / r2
    let c2 := w2 / r2
    some { zp := zp, w2 := w2, w := w, z2 := z2, r2 := r2, r := r, s2 := s2, c2 := c2 }

/-- The function `ECEFtoGEO` (primitive form, Olson's method as the file has it).
`std::asin`, `std::acos` and `std::sqrt` outside their domains are not-a-number
in the program and the clamped values of `Real.arcsin`, `Real.arccos` and
`Real.sqrt` here. -/
noncomputable def ECEFtoGEO (ellipsoid : CEllipsoid) (rangeUnit : TRangeUnit)
    (angleUnit : TAngleUnit) (x y z : ℝ) : Geodetic :=
  let _a : ℝ := 6378137.0
  let _fl := ellipsoid.F
  let _es := _fl * (2.0 - _fl)
  let _a1 : ℝ := 4.2697672707157535e+4
  let _a2 : ℝ := 1.8230912546075455e+9
  let _a3 : ℝ := 1.4291722289812413e+2
  let _a4 : ℝ := 4.5577281365188637e+9
  let _a5 : ℝ := 4.2840589930055659e+4
  let _a6 : ℝ := 9.9330562000986220e-1
  let _x := toMeter rangeUnit x
  let _y := toMeter rangeUnit y
  let _z := toMeter rangeUnit z
  let q := ECEFtoGEOAux _x _y _z
  let _zp := q.zp
  let _w := q.w
  let _r := q.r
  let _lon := atan2 _y _x
  let _s2 := q.s2
  let _c2 := q.c2
  let _u := _a2 / _r
  let _v := _a3 - _a4 / _r
  let br : ℝ × ℝ × ℝ × ℝ :=
    if _c2 > 0.3 then
      let _s := (_zp / _r) * (1.0 + _c2 * (_a1 + _u + _s2 * _v) / _r)
      let _lat := Real.arcsin _s
      let _ss := _s * _s
      let _c := Real.sqrt (1.0 - _ss)
      (_s, _c, _lat, _ss)
    else
      let _c := (_w / _r) * (1.0 - _s2 * (_a5 - _u - _c2 * _v) / _r)
      let _lat := Real.arccos _c
      let _ss := 1.0 - (_c * _c)
      let _s := Real.sqrt _ss
      (_s, _c, _lat, _ss)
  let _s := br.1
  let _c := br.2.1
  let _lat0 := br.2.2.1
  let _ss := br.2.2.2
  let _g := 1.0 - (_es * _ss)
  let _rg := _a / Real.sqrt _g
  let _rf := _a6 * _rg
  let _u1 := _w - _rg * _c
  let _v1 := _zp - _rf * _s
  let _f := _c * _u1 + _s * _v1
  let _m := _c * _v1 - _s * _u1
  let _p := _m / (_rf / _g + _f)
  let _lat1 := _lat0 + _p
  let _h := _f + _m * _p / 2
  let _lat := if _z < 0.0 then -_lat1 else _lat1
  { Lat := fromRadian angleUnit _lat, Lon := fromRadian angleUnit _lon,
    Height := match rangeUnit with
      | TRangeUnit.RU_Meter => _h
      | TRangeUnit.RU_Kilometer => _h / 1000.0 }

/-! ## Local tangent plane -/

/-- The function `ECEFtoENU` (primitive form); `none` when an assertion of the
`GEOtoECEF` call for the reference point fails. -/
noncomputable def ECEFtoENU (eps : ℝ) (ellipsoid : CEllipsoid) (rangeUnit : TRangeUnit)
    (angleUnit : TAngleUnit) (x y z lat lon h : ℝ) : Option ENU :=
  let _lat := toRadian angleUnit lat
  let _lon := toRadian angleUnit lon
  let _h := toMeter rangeUnit h
  let _x := toMeter rangeUnit x
  let _y := toMeter rangeUnit y
  let _z := toMeter rangeUnit z
  match GEOtoECEF eps ellipsoid TRangeUnit.RU_Meter TAngleUnit.AU_Radian _lat _lon _h with
  | none => none
  | some ref =>
    let cosPhi := Real.cos _lat
    let sinPhi := Real.sin _lat
    let cosLambda := Real.cos _lon
    let sinLambda := Real.sin _lon
    let _dx := _x - ref.X
    let _dy := _y - ref.Y
    let _dz := _z - ref.Z
    let t := (cosLambda * _dx) + (sinLambda * _dy)
    let xEast := (-sinLambda * _dx) + (cosLambda * _dy)
    let yNorth := (-sinPhi * t) + (cosPhi * _dz)
    let zUp := (cosPhi * t) + (sinPhi * _dz)
    some { E := fromMeter rangeUnit xEast, N := fromMeter rangeUnit yNorth,
           U := fromMeter rangeUnit zUp }

/-- The function `ENUtoECEF` (primitive form); `none` when an assertion of the
`GEOtoECEF` call for the reference point fails. -/
noncomputable def ENUtoECEF (eps : ℝ) (ellipsoid : CEllipsoid) (rangeUnit : TRangeUnit)
    (angleUnit : TAngleUnit) (e n u lat lon h : ℝ) : Option XYZ :=
  let _lat := toRadian angleUnit lat
  let _lon := toRadian angleUnit lon
  let _h := toMeter rangeUnit h
  let _e := toMeter rangeUnit e
  let _n := toMeter rangeUnit n
  let _u := toMeter rangeUnit u
  match GEOtoECEF eps ellipsoid TRangeUnit.RU_Meter TAngleUnit.AU_Radian _lat _lon _h with
  | none => none
  | some ref =>
    let cosPhi := Real.cos _lat
    let sinPhi := Real.sin _lat
    let cosLambda := Real.cos _lon
    let sinLambda := Real.sin _lon
    let x := -sinLambda * _e - sinPhi * cosLambda * _n + cosPhi * cosLambda * _u + ref.X
    let y := cosLambda * _e - sinPhi * sinLambda * _n + cosPhi * sinLambda * _u + ref.Y
    let z := cosPhi * _n + sinPhi * _u + ref.Z
    some { X := fromMeter rangeUnit x, Y := fromMeter rangeUnit y, Z := fromMeter rangeUnit z }

/-- The function `ENUtoAER` (primitive form). -/
noncomputable def ENUtoAER (rangeUnit : TRangeUnit) (angleUnit : TAngleUnit)
    (xEast yNorth zUp : ℝ) : AER :=
  let _xEast := toMeter rangeUnit xEast
  let _yNorth := toMeter rangeUnit yNorth
  let _zUp := toMeter rangeUnit zUp
  let r := hypot _xEast _yNorth
  let slantRange := hypot r _zUp
  let elev := atan2 _zUp r
  let az := AngleTo360 (atan2 _xEast _yNorth) TAngleUnit.AU_Radian
  { A := fromRadian angleUnit az, E := fromRadian angleUnit elev,
    R := fromMeter rangeUnit slantRange }

/-- The function `AERtoENU` (primitive form). -/
noncomputable def AERtoENU (rangeUnit : TRangeUnit) (angleUnit : TAngleUnit)
    (az elev slantRange : ℝ) : ENU :=
  let _az := toRadian angleUnit az
  let _elev := toRadian angleUnit elev
  let _slantRange := toMeter rangeUnit slantRange
  let zUp := _slantRange * Real.sin _elev
  let _r := _slantRange * Real.cos _elev
  let xEast := _r * Real.sin _az
  let yNorth := _r * Real.cos _az
  { E := fromMeter rangeUnit xEast, N := fromMeter rangeUnit yNorth,
    U := fromMeter rangeUnit zUp }

/-! ## Further transforms -/

/-- Modelled from the spec: the accessor `CEllipsoid::EccentricityFirst` is defined
in the absent header `geodesy.h`; it is the first eccentricity `e`, whose square
the specification gives as `e² = 1 − b²/a²`. -/
noncomputable def CEllipsoid.EccentricityFirst (e : CEllipsoid) : ℝ :=
  Real.sqrt e.EccentricityFirstSquared

/-- The number of passes through the loop body that an exit of the loop of
`GEOtoRAD` records. -/
def InverseExit.passes : InverseExit → ℕ
  | InverseExit.coincident n => n
  | InverseExit.finished _ n => n

/-- The function `ECEF_offset` (primitive form).  The unit switches at its start
compute `_lat1`, `_lon1`, `_h1`, `_lat2`, `_lon2`, `_h2`, and the statements after
them read `lat1`, `lon1`, `h1`, `lat2`, `lon2`, `h2`, as the source has it. -/
noncomputable def ECEF_offset (eps : ℝ) (ellipsoid : CEllipsoid) (rangeUnit : TRangeUnit)
    (angleUnit : TAngleUnit) (lat1 lon1 h1 lat2 lon2 h2 : ℝ) : XYZ :=
  let a := ellipsoid.A
  let b := ellipsoid.B
  let _lat1 := toRadian angleUnit lat1
  let _lon1 := toRadian angleUnit lon1
  let _lat2 := toRadian angleUnit lat2
  let _lon2 := toRadian angleUnit lon2
  let _h1 := toMeter rangeUnit h1
  let _h2 := toMeter rangeUnit h2
  let s1 := Real.sin lat1
  let c1 := Real.cos lat1
  let s2 := Real.sin lat2
  let c2 := Real.cos lat2
  let p1 := c1 * Real.cos lon1
  let p2 := c2 * Real.cos lon2
  let q1 := c1 * Real.sin lon1
  let q2 := c2 * Real.sin lon2
  let d : XYZ :=
    if AreEqualAbs eps a b then
      { X := a * (p2 - p1) + (h2 * p2 - h1 * p1),
        Y := a * (q2 - q1) + (h2 * q2 - h1 * q1),
        Z := a * (s2 - s1) + (h2 * s2 - h1 * s1) }
    else
      let e2 := ellipsoid.EccentricityFirst ^ 2
      let w1 := 1.0 / Real.sqrt (1.0 - e2 * s1 * s1)
      let w2 := 1.0 / Real.sqrt (1.0 - e2 * s2 * s2)
      { X := a * (p2 * w2 - p1 * w1) + (h2 * p2 - h1 * p1),
        Y := a * (q2 * w2 - q1 * w1) + (h2 * q2 - h1 * q1),
        Z := (1.0 - e2) * a * (s2 * w2 - s1 * w1) + (h2 * s2 - h1 * s1) }
  { X := fromMeter rangeUnit d.X, Y := fromMeter rangeUnit d.Y, Z := fromMeter rangeUnit d.Z }

/-- The function `ECEFtoENUV` (primitive form). -/
noncomputable def ECEFtoENUV (rangeUnit : TRangeUnit) (angleUnit : TAngleUnit)
    (dX dY dZ lat lon : ℝ) : ENU :=
  let _lat := toRadian angleUnit lat
  let _lon := toRadian angleUnit lon
  let _dX := toMeter rangeUnit dX
  let _dY := toMeter rangeUnit dY
  let _dZ := toMeter rangeUnit dZ
  let cosPhi := Real.cos _lat
  let sinPhi := Real.sin _lat
  let cosLambda := Real.cos _lon
  let sinLambda := Real.sin _lon
  let t := (cosLambda * _dX) + (sinLambda * _dY)
  let xEast := (-sinLambda * _dX) + (cosLambda * _dY)
  let zUp := (cosPhi * t) + (sinPhi * _dZ)
  let yNorth := (-sinPhi * t) + (cosPhi * _dZ)
  { E := fromMeter rangeUnit xEast, N := fromMeter rangeUnit yNorth,
    U := fromMeter rangeUnit zUp }

/-- The function `GEOtoENU` (primitive form); `none` when an assertion of one of
its two `GEOtoECEF` calls fails. -/
noncomputable def GEOtoENU (eps : ℝ) (ellipsoid : CEllipsoid) (rangeUnit : TRangeUnit)
    (angleUnit : TAngleUnit) (lat lon h lat0 lon0 h0 : ℝ) : Option ENU :=
  let _lat := toRadian angleUnit lat
  let _lon := toRadian angleUnit lon
  let _lat0 := toRadian angleUnit lat0
  let _lon0 := toRadian angleUnit lon0
  let _h := toMeter rangeUnit h
  let _h0 := toMeter rangeUnit h0
  match GEOtoECEF eps ellipsoid TRangeUnit.RU_Meter TAngleUnit.AU_Radian _lat _lon _h with
  | none => none
  | some p =>
    match GEOtoECEF eps ellipsoid TRangeUnit.RU_Meter TAngleUnit.AU_Radian _lat0 _lon0 _h0 with
    | none => none
    | some p0 =>
      let _dx := p.X - p0.X
      let _dy := p.Y - p0.Y
      let _dz := p.Z - p0.Z
      let r := ECEFtoENUV TRangeUnit.RU_Meter TAngleUnit.AU_Radian _dx _dy _dz _lat0 _lon0
      some { E := fromMeter rangeUnit r.E, N := fromMeter rangeUnit r.N,
             U := fromMeter rangeUnit r.U }

/-- The function `GEOtoAER` (primitive form); `none` when an assertion inside its
`GEOtoENU` call fails. -/
noncomputable def GEOtoAER (eps : ℝ) (ellipsoid : CEllipsoid) (rangeUnit : TRangeUnit)
    (angleUnit : TAngleUnit) (lat1 lon1 h1 lat2 lon2 h2 : ℝ) : Option AER :=
  let _lat1 := toRadian angleUnit lat1
  let _lon1 := toRadian angleUnit lon1
  let _lat2 := toRadian angleUnit lat2
  let _lon2 := toRadian angleUnit lon2
  let _h1 := toMeter rangeUnit h1
  let _h2 := toMeter rangeUnit h2
  match GEOtoENU eps ellipsoid TRangeUnit.RU_Meter TAngleUnit.AU_Radian
      _lat1 _lon1 _h1 _lat2 _lon2 _h2 with
  | none => none
  | some enu =>
    let r := ENUtoAER TRangeUnit.RU_Meter TAngleUnit.AU_Radian enu.E enu.N enu.U
    some { A := fromRadian angleUnit r.A, E := fromRadian angleUnit r.E,
           R := fromMeter rangeUnit r.R }

/-- Local coordinates along the ECEF axes (`struct UVW`). -/
structure UVW where
  U : ℝ
  V : ℝ
  W : ℝ

/-- The function `ENUtoUVW` (primitive form). -/
noncomputable def ENUtoUVW (_ellipsoid : CEllipsoid) (rangeUnit : TRangeUnit)
    (angleUnit : TAngleUnit) (xEast yNorth zUp lat0 lon0 : ℝ) : UVW :=
  let _xEast := toMeter rangeUnit xEast
  let _yNorth := toMeter rangeUnit yNorth
  let _zUp := toMeter rangeUnit zUp
  let _lat0 := toRadian angleUnit lat0
  let _lon0 := toRadian angleUnit lon0
  let t := Real.cos _lat0 * _zUp - Real.sin _lat0 * _yNorth
  let w := Real.sin _lat0 * _zUp + Real.cos _lat0 * _yNorth
  let u := Real.cos _lon0 * t - Real.sin _lon0 * _xEast
  let v := Real.sin _lon0 * t + Real.cos _lon0 * _xEast
  { U := fromMeter rangeUnit u, V := fromMeter rangeUnit v, W := fromMeter rangeUnit w }

/-- The function `AERtoECEF` (primitive form); `none` when an assertion of its
`GEOtoECEF` call fails. -/
noncomputable def AERtoECEF (eps : ℝ) (ellipsoid : CEllipsoid) (rangeUnit : TRangeUnit)
    (angleUnit : TAngleUnit) (az elev slantRange lat0 lon0 h0 : ℝ) : Option XYZ :=
  let _az := toRadian angleUnit az
  let _elev := toRadian angleUnit elev
  let _lat0 := toRadian angleUnit lat0
  let _lon0 := toRadian angleUnit lon0
  let _slantRange := toMeter rangeUnit slantRange
  let _h0 := toMeter rangeUnit h0
  match GEOtoECEF eps ellipsoid TRangeUnit.RU_Meter TAngleUnit.AU_Radian _lat0 _lon0 _h0 with
  | none => none
  | some p0 =>
    let enu := AERtoENU TRangeUnit.RU_Meter TAngleUnit.AU_Radian _az _elev _slantRange
    let d := ENUtoUVW ellipsoid TRangeUnit.RU_Meter TAngleUnit.AU_Radian enu.E enu.N enu.U
      _lat0 _lon0
    let x := p0.X + d.U
    let y := p0.Y + d.V
    let z := p0.Z + d.W
    some { X := fromMeter rangeUnit x, Y := fromMeter rangeUnit y, Z := fromMeter rangeUnit z }

/-- The function `ECEFtoAER` (primitive form); `none` when an assertion inside its
`ECEFtoENU` call fails. -/
noncomputable def ECEFtoAER (eps : ℝ) (ellipsoid : CEllipsoid) (rangeUnit : TRangeUnit)
    (angleUnit : TAngleUnit) (x y z lat0 lon0 h0 : ℝ) : Option AER :=
  let _lat0 := toRadian angleUnit lat0
  let _lon0 := toRadian angleUnit lon0
  let _h0 := toMeter rangeUnit h0
  let _x := toMeter rangeUnit x
  let _y := toMeter rangeUnit y
  let _z := toMeter rangeUnit z
  match ECEFtoENU eps ellipsoid TRangeUnit.RU_Meter TAngleUnit.AU_Radian
      _x _y _z _lat0 _lon0 _h0 with
  | none => none
  | some enu =>
    let r := ENUtoAER TRangeUnit.RU_Meter TAngleUnit.AU_Radian enu.E enu.N enu.U
    some { A := fromRadian angleUnit r.A, E := fromRadian angleUnit r.E,
           R := fromMeter rangeUnit r.R }

/-! ## Vector utilities -/

/-- The function `XYZtoDistance` (primitive form); `none` when its assertion
`res >= 0` fails. -/
noncomputable def XYZtoDistance (x1 y1 z1 x2 y2 z2 : ℝ) : Option ℝ :=
  let res := ((x1 - x2) * (x1 - x2)) + ((y1 - y2) * (y1 - y2)) + ((z1 - z2) * (z1 - z2))
  if res ≥ 0 then some (Real.sqrt res) else none

/-! ## Reference data -/

/-- The WGS-84 ellipsoid, `a = 6378137.0` m and `f = 1/298.257223563`, with the
semi-minor axis the constructor derives from the inverse flattening. -/
noncomputable def WGS84 : CEllipsoid :=
  { name := "WGS84", a := 6378137.0, invf := DoubleArg.finite 298.257223563,
    b := (1.0 - 1.0 / 298.257223563) * 6378137.0, f := 1.0 / 298.257223563 }

/-- An azimuth in the unit `au` is normalised when it lies in `[0, 2π)` radians,
respectively `[0, 360)` degrees. -/
def IsNormalisedAzimuth (au : TAngleUnit) (x : ℝ) : Prop := 0 ≤ x ∧ x < fullTurn au

/-- The values `lambda / L` that the loop of `GEOtoRAD` runs through on a short
eastward equatorial line: `1`, `1 + f`, `1 + f + f^2`, ... -/
noncomputable def geomSum (f : ℝ) : ℕ → ℝ
  | 0 => 1
  | k + 1 => 1 + f * geomSum f k

/-! ## Binary64 arithmetic

The values of `CosAngleBetweenVectors` and `AngleBetweenVectors` and the distance
on the spherical branch depend on the rounding of the `double` operations; here
the statements of the source are embedded with every operation rounded. -/

namespace Binary64

/-- The spacing of the `double` values around `x`: `2 ^ (e - 52)` for
`2 ^ e ≤ |x| < 2 ^ (e + 1)` (53 significant bits).  The exponent range is not
bounded: overflow and subnormal numbers are not modelled. -/
noncomputable def ulp (x : ℝ) : ℝ := (2 : ℝ) ^ (Int.log 2 |x| - 52)

/-- The integer nearest to `t`, the even one of the two when `t` lies half-way. -/
noncomputable def nearestEven (t : ℝ) : ℤ :=
  if t - ⌊t⌋ < 1 / 2 then ⌊t⌋
  else if 1 / 2 < t - ⌊t⌋ then ⌊t⌋ + 1
  else if Even ⌊t⌋ then ⌊t⌋ else ⌊t⌋ + 1

/-- Rounding of a real number to the nearest `double`, ties to even: the result of
every IEEE 754 operation is the rounded exact result. -/
noncomputable def rnd (x : ℝ) : ℝ := (nearestEven (x / ulp x) : ℝ) * ulp x

/-- The sum of two `double` values. -/
noncomputable def add (x y : ℝ) : ℝ := rnd (x + y)

/-- The difference of two `double` values. -/
noncomputable def sub (x y : ℝ) : ℝ := rnd (x - y)

/-- The product of two `double` values. -/
noncomputable def mul (x y : ℝ) : ℝ := rnd (x * y)

/-- The quotient of two `double` values; `none` stands for the non-finite result
of a division by zero (an infinity, or not-a-number for `0/0`). -/
noncomputable def div (x y : ℝ) : Option ℝ := if y = 0 then none else some (rnd (x / y))

/-- The function `std::sqrt` at a non-negative `double`. -/
noncomputable def sqrt (x : ℝ) : ℝ := rnd (Real.sqrt x)

/-- The function `std::acos`: not-a-number (`none`) outside `[-1, 1]`; inside, the
library function is taken correctly rounded. -/
noncomputable def acos (x : ℝ) : Option ℝ :=
  if x < -1 ∨ 1 < x then none else some (rnd (Real.arccos x))

end Binary64

/-- The function `CosAngleBetweenVectors` (primitive form) in binary64 arithmetic;
`none` is the non-finite result of the division when one of the norms is zero. -/
noncomputable def CosAngleBetweenVectors (x1 y1 z1 x2 y2 z2 : ℝ) : Option ℝ :=
  let a1 := Binary64.mul x1 x2
  let a2 := Binary64.mul y1 y2
  let a3 := Binary64.mul z1 z2
  let b1 := Binary64.sqrt (Binary64.add (Binary64.add (Binary64.mul x1 x1) (Binary64.mul y1 y1))
    (Binary64.mul z1 z1))
  let b2 := Binary64.sqrt (Binary64.add (Binary64.add (Binary64.mul x2 x2) (Binary64.mul y2 y2))
    (Binary64.mul z2 z2))
  let res := Binary64.div (Binary64.add (Binary64.add a1 a2) a3) (Binary64.mul b1 b2)
  res

/-- The function `AngleBetweenVectors` (primitive form) in binary64 arithmetic;
`none` is not-a-number. -/
noncomputable def AngleBetweenVectors (x1 y1 z1 x2 y2 z2 : ℝ) : Option ℝ :=
  (CosAngleBetweenVectors x1 y1 z1 x2 y2 z2).bind Binary64.acos

namespace Binary64

/-- The function `std::sin`, taken correctly rounded. -/
noncomputable def sin (x : ℝ) : ℝ := rnd (Real.sin x)

/-- The function `std::cos`, taken correctly rounded. -/
noncomputable def cos (x : ℝ) : ℝ := rnd (Real.cos x)

/-- The function `std::asin`: not-a-number (`none`) outside `[-1, 1]`; inside, the
library function is taken correctly rounded. -/
noncomputable def asin (x : ℝ) : Option ℝ :=
  if x < -1 ∨ 1 < x then none else some (rnd (Real.arcsin x))

/-- The function `std::atan2`, taken correctly rounded. -/
noncomputable def arctan2 (y x : ℝ) : ℝ := rnd (SPML.atan2 y x)

/-- The statements of the spherical branch of `RADtoGEO` that compute `latEnd` and
`lonEnd` (source lines 278 to 289) in binary64 arithmetic, in radians and metres;
`none` when the division by `a` or `std::asin` has no finite result. -/
noncomputable def RADtoGEOSphere (a _latStart _lonStart d _az : ℝ) : Option Geographic :=
  (div d a).bind fun _d =>
    let temp1 := mul (sin _latStart) (cos _d)
    let temp2 := mul (mul (cos _latStart) (sin _d)) (cos _az)
    (asin (add temp1 temp2)).map fun latEnd =>
      let temp1 := mul (sin _d) (sin _az)
      let temp2 := mul (cos _latStart) (cos _d)
      let temp3 := mul (mul (sin _latStart) (sin _d)) (cos _az)
      { Lat := latEnd, Lon := add _lonStart (arctan2 temp1 (sub temp2 temp3)) }

end Binary64

set_option maxHeartbeats 16000000

theorem aux_1 :
    ∀ (ellipsoid : CEllipsoid) (hb : 0 < ellipsoid.b) (hba : ellipsoid.b ≤ ellipsoid.a) (phi : ℝ), 0 < 1 - ellipsoid.EccentricityFirstSquared * (Real.sin phi * Real.sin phi) := by
  have GEOtoECEF_arg_pos (ellipsoid : CEllipsoid) (hb : 0 < ellipsoid.b)
      (hba : ellipsoid.b ≤ ellipsoid.a) (phi : ℝ) :
      0 < 1 - ellipsoid.EccentricityFirstSquared * (Real.sin phi * Real.sin phi) := by
    have ha : 0 < ellipsoid.a := lt_of_lt_of_le hb hba
    have hq0 : 0 < ellipsoid.b * ellipsoid.b / (ellipsoid.a * ellipsoid.a) := by positivity
    have hq1 : ellipsoid.b * ellipsoid.b / (ellipsoid.a * ellipsoid.a) ≤ 1 := by
      rw [div_le_one (by positivity)]
      nlinarith
    have hs : Real.sin phi * Real.sin phi ≤ 1 := by
      linarith [Real.sin_sq_add_cos_sq phi, sq_nonneg (Real.cos phi)]
    have hs0 : 0 ≤ Real.sin phi * Real.sin phi := mul_self_nonneg _
    unfold CEllipsoid.EccentricityFirstSquared
    nlinarith
  exact GEOtoECEF_arg_pos

theorem aux_2 :
    ∀ (x : ℝ), toMeter TRangeUnit.RU_Meter x = x := by
  have toMeter_meter (x : ℝ) : toMeter TRangeUnit.RU_Meter x = x := rfl
  exact toMeter_meter

theorem aux_3 :
    ∀ (au : TAngleUnit), 0 < fullTurn au := by
  have fullTurn_pos (au : TAngleUnit) : 0 < fullTurn au := by
    cases au
    · simp only [fullTurn]; positivity
    · simp only [fullTurn]; norm_num
  exact fullTurn_pos

theorem aux_4 :
    ∀ (x : ℝ), toRadian TAngleUnit.AU_Radian x = x := by
  have toRadian_radian (x : ℝ) : toRadian TAngleUnit.AU_Radian x = x := rfl
  exact toRadian_radian

theorem aux_5 :
    ∀ (eps : ℝ) (ellipsoid : CEllipsoid) (hb : 0 < ellipsoid.b) (hba : ellipsoid.b ≤ ellipsoid.a) (heps : eps < ellipsoid.a * ellipsoid.a) (rangeUnit : TRangeUnit) (angleUnit : TAngleUnit) (lat lon h : ℝ), ∃ r, GEOtoECEF eps ellipsoid rangeUnit angleUnit lat lon h = some r := by
  have GEOtoECEF_arg_pos := aux_1
  have GEOtoECEF_isSome (eps : ℝ) (ellipsoid : CEllipsoid) (hb : 0 < ellipsoid.b)
      (hba : ellipsoid.b ≤ ellipsoid.a) (heps : eps < ellipsoid.a * ellipsoid.a)
      (rangeUnit : TRangeUnit) (angleUnit : TAngleUnit) (lat lon h : ℝ) :
      ∃ r, GEOtoECEF eps ellipsoid rangeUnit angleUnit lat lon h = some r := by
    have hz : ¬ IsZeroAbs eps (ellipsoid.a * ellipsoid.a) := by
      unfold Compare.IsZeroAbs
      rw [abs_of_nonneg (mul_self_nonneg _)]
      exact not_le.2 heps
    have harg := GEOtoECEF_arg_pos ellipsoid hb hba (toRadian angleUnit lat)
    have harg1 : (1.0 : ℝ) - ellipsoid.EccentricityFirstSquared *
        (Real.sin (toRadian angleUnit lat) * Real.sin (toRadian angleUnit lat)) > 0 := by
      norm_num
      linarith
    cases rangeUnit <;> ((try unfold GEOtoECEF); (try unfold CEllipsoid.A); try simp only [hz, if_false, harg1, if_true]) <;>
      exact ⟨_, rfl⟩
  exact GEOtoECEF_isSome

theorem aux_6 :
    (∀ (x y : ℝ), Complex.abs ⟨x, y⟩ = hypot x y) ∧
    (∀ (x y : ℝ), hypot x y = 0 ↔ x = 0 ∧ y = 0) ∧
    (∀ (y x : ℝ), hypot x y * Real.sin (atan2 y x) = y) := by
  have abs_mk_eq_hypot (x y : ℝ) : Complex.abs ⟨x, y⟩ = hypot x y := by
    simp [Complex.abs_apply, Complex.normSq_apply, hypot]
  have hypot_eq_zero_iff (x y : ℝ) : hypot x y = 0 ↔ x = 0 ∧ y = 0 := by
    rw [← abs_mk_eq_hypot, map_eq_zero, Complex.ext_iff]
    simp
  have hypot_mul_sin_atan2 (y x : ℝ) : hypot x y * Real.sin (atan2 y x) = y := by
    by_cases h : hypot x y = 0
    · rw [h, zero_mul]
      exact (((hypot_eq_zero_iff x y).1 h).2).symm
    · unfold atan2
      rw [Complex.sin_arg, abs_mk_eq_hypot]
      field_simp
  exact ⟨abs_mk_eq_hypot, hypot_eq_zero_iff, hypot_mul_sin_atan2⟩

theorem aux_7 :
    ∀ (x : ℝ), fromMeter TRangeUnit.RU_Meter x = x := by
  have fromMeter_meter (x : ℝ) : fromMeter TRangeUnit.RU_Meter x = x := rfl
  exact fromMeter_meter

theorem aux_8 :
    ∀ (ru : TRangeUnit) (x : ℝ), toMeter ru (fromMeter ru x) = x := by
  have toMeter_fromMeter (ru : TRangeUnit) (x : ℝ) : toMeter ru (fromMeter ru x) = x := by
    cases ru
    · rfl
    · simp only [toMeter, fromMeter]
      norm_num
      ring
  exact toMeter_fromMeter

theorem aux_9 :
    ∀ (x : ℝ) (hx : 0 ≤ x), atan2 0 x = 0 := by
  have atan2_zero_nonneg (x : ℝ) (hx : 0 ≤ x) : atan2 0 x = 0 := by
    unfold atan2
    rw [Complex.arg_eq_zero_iff]
    exact ⟨hx, rfl⟩
  exact atan2_zero_nonneg

theorem aux_10 :
    ∀ (f : ℝ), reducedLat f 0 = 0 := by
  have reducedLat_zero (f : ℝ) : reducedLat f 0 = 0 := by
    ((try unfold reducedLat); simp)
  exact reducedLat_zero

theorem aux_11 :
    ∀ (eps : ℝ) (h1 : eps ≤ 1 / 100), ¬ AreEqualAbs eps WGS84.A WGS84.B := by
  have WGS84_not_sphere (eps : ℝ) (h1 : eps ≤ 1 / 100) :
      ¬ AreEqualAbs eps WGS84.A WGS84.B := by
    unfold Compare.AreEqualAbs
    ((try unfold WGS84); (try unfold CEllipsoid.B); (try unfold CEllipsoid.A); norm_num)
    rw [abs_of_pos (by norm_num)]
    linarith
  exact WGS84_not_sphere

theorem aux_12 :
    ∀ (x : ℝ) (au : TAngleUnit) (h0 : 0 ≤ x) (h1 : x < fullTurn au), AngleTo360 x au = x := by
  have fullTurn_pos := aux_3
  have AngleTo360_of_mem (x : ℝ) (au : TAngleUnit) (h0 : 0 ≤ x) (h1 : x < fullTurn au) :
      AngleTo360 x au = x := by
    have hp := fullTurn_pos au
    have hfl : ⌊x / fullTurn au⌋ = 0 := by
      rw [Int.floor_eq_iff]
      constructor
      · simpa using div_nonneg h0 hp.le
      · simpa using (div_lt_one hp).2 h1
    ((try unfold AngleTo360); simp [hfl])
  exact AngleTo360_of_mem

theorem aux_13 :
    (∀ (y x : ℝ), hypot x y * Real.cos (atan2 y x) = x) ∧
    (∀ (x : ℝ), Real.sin (AngleTo360 x TAngleUnit.AU_Radian) = Real.sin x) ∧
    (∀ (x : ℝ), Real.cos (AngleTo360 x TAngleUnit.AU_Radian) = Real.cos x) := by
  have abs_mk_eq_hypot := aux_6.1
  have hypot_eq_zero_iff := aux_6.2.1
  have hypot_mul_cos_atan2 (y x : ℝ) : hypot x y * Real.cos (atan2 y x) = x := by
    by_cases h : hypot x y = 0
    · rw [h, zero_mul]
      exact (((hypot_eq_zero_iff x y).1 h).1).symm
    · have hz : (⟨x, y⟩ : ℂ) ≠ 0 := by
        intro hz
        apply h
        rw [← abs_mk_eq_hypot, hz, map_zero]
      unfold atan2
      rw [Complex.cos_arg hz, abs_mk_eq_hypot]
      field_simp
  have sin_AngleTo360 (x : ℝ) : Real.sin (AngleTo360 x TAngleUnit.AU_Radian) = Real.sin x := by
    unfold AngleTo360 fullTurn
    rw [mul_comm (2 * Real.pi)]
    exact Real.sin_sub_int_mul_two_pi x _
  have cos_AngleTo360 (x : ℝ) : Real.cos (AngleTo360 x TAngleUnit.AU_Radian) = Real.cos x := by
    unfold AngleTo360 fullTurn
    rw [mul_comm (2 * Real.pi)]
    exact Real.cos_sub_int_mul_two_pi x _
  exact ⟨hypot_mul_cos_atan2, sin_AngleTo360, cos_AngleTo360⟩

theorem aux_14 :
    (∀ (t : ℝ), (⟨Real.cos t, Real.sin t⟩ : ℂ) = Complex.cos t + Complex.sin t * Complex.I) ∧
    (∀ (t : ℝ) (h0 : -Real.pi < t) (h1 : t ≤ Real.pi), atan2 (Real.sin t) (Real.cos t) = t) ∧
    (∀ (lambda : ℝ), inverseSinSigma 0 1 0 1 lambda = |Real.sin lambda|) ∧
    (∀ (f L lambda : ℝ) (h0 : 0 < lambda) (h1 : lambda < Real.pi), inversePass f L 0 1 0 1 lambda = { lambda := L + f * lambda, lambda_new := lambda, sinSigma := Real.sin lambda, cosSigma := Real.cos lambda, sigma := lambda, sinAlpha := 1, cosSqAlpha := 0, cos2SigmaM := 0, c := 0, sinLambda := Real.sin lambda, cosLambda := Real.cos lambda }) ∧
    (∀ (eps f L lambda : ℝ) (limit passes : ℕ) (h0 : 0 < lambda) (h1 : lambda < Real.pi) (hs : eps < Real.sin lambda) (hne : L + f * lambda ≠ 0) (himp : |(L + f * lambda - lambda) / (L + f * lambda)| > 1.0e-15) (hl : 0 < limit), inverseLoop eps f L 0 1 0 1 (limit + 1) passes lambda = inverseLoop eps f L 0 1 0 1 limit (passes + 1) (L + f * lambda)) ∧
    (∀ (eps f L lambda : ℝ) (limit passes : ℕ) (hz : ¬ IsZeroAbs eps (inverseSinSigma 0 1 0 1 lambda)) (hstop : ¬ (inverseImproves (inversePass f L 0 1 0 1 lambda) ∧ limit > 0)), inverseLoop eps f L 0 1 0 1 (limit + 1) passes lambda = InverseExit.finished (inversePass f L 0 1 0 1 lambda) (passes + 1)) := by
  have mk_cos_sin (t : ℝ) :
      (⟨Real.cos t, Real.sin t⟩ : ℂ) = Complex.cos t + Complex.sin t * Complex.I := by
    apply Complex.ext
    · simp [Complex.cos_ofReal_re, Complex.sin_ofReal_im]
    · simp [Complex.cos_ofReal_im, Complex.sin_ofReal_re]
  have atan2_sin_cos (t : ℝ) (h0 : -Real.pi < t) (h1 : t ≤ Real.pi) :
      atan2 (Real.sin t) (Real.cos t) = t := by
    unfold atan2
    rw [mk_cos_sin]
    exact Complex.arg_cos_add_sin_mul_I ⟨h0, h1⟩
  have inverseSinSigma_equator (lambda : ℝ) :
      inverseSinSigma 0 1 0 1 lambda = |Real.sin lambda| := by
    ((try unfold inverseSinSigma); simp [Real.sqrt_mul_self_eq_abs])
  -- A pass of the loop on the equator, for `0 < lambda < π` (eastward line).
  have inversePass_equator_east (f L lambda : ℝ) (h0 : 0 < lambda) (h1 : lambda < Real.pi) :
      inversePass f L 0 1 0 1 lambda =
        { lambda := L + f * lambda, lambda_new := lambda, sinSigma := Real.sin lambda,
          cosSigma := Real.cos lambda, sigma := lambda, sinAlpha := 1, cosSqAlpha := 0,
          cos2SigmaM := 0, c := 0, sinLambda := Real.sin lambda, cosLambda := Real.cos lambda } := by
    have hs : 0 < Real.sin lambda := Real.sin_pos_of_pos_of_lt_pi h0 h1
    have hsig : inverseSinSigma 0 1 0 1 lambda = Real.sin lambda := by
      rw [inverseSinSigma_equator, abs_of_pos hs]
    have hat : atan2 (Real.sin lambda) (Real.cos lambda) = lambda :=
      atan2_sin_cos lambda (by linarith) h1.le
    ((try unfold inversePass); try simp only [hsig])
    norm_num [hat, hs.ne']
  have inverseLoop_equator_east_step (eps f L lambda : ℝ) (limit passes : ℕ)
      (h0 : 0 < lambda) (h1 : lambda < Real.pi) (hs : eps < Real.sin lambda)
      (hne : L + f * lambda ≠ 0)
      (himp : |(L + f * lambda - lambda) / (L + f * lambda)| > 1.0e-15) (hl : 0 < limit) :
      inverseLoop eps f L 0 1 0 1 (limit + 1) passes lambda =
        inverseLoop eps f L 0 1 0 1 limit (passes + 1) (L + f * lambda) := by
    have hsin : 0 < Real.sin lambda := Real.sin_pos_of_pos_of_lt_pi h0 h1
    have hz : ¬ IsZeroAbs eps (inverseSinSigma 0 1 0 1 lambda) := by
      rw [inverseSinSigma_equator, abs_of_pos hsin]
      unfold Compare.IsZeroAbs
      rw [abs_of_pos hsin]
      exact not_le.2 hs
    have hi : inverseImproves (inversePass f L 0 1 0 1 lambda) := by
      rw [inversePass_equator_east f L lambda h0 h1]
      ((try unfold inverseImproves); try simp only [hne, if_false])
      exact himp
    rw [inverseLoop, if_neg hz, if_pos ⟨hi, hl⟩, inversePass_equator_east f L lambda h0 h1]
  have inverseLoop_equator_stop (eps f L lambda : ℝ) (limit passes : ℕ)
      (hz : ¬ IsZeroAbs eps (inverseSinSigma 0 1 0 1 lambda))
      (hstop : ¬ (inverseImproves (inversePass f L 0 1 0 1 lambda) ∧ limit > 0)) :
      inverseLoop eps f L 0 1 0 1 (limit + 1) passes lambda =
        InverseExit.finished (inversePass f L 0 1 0 1 lambda) (passes + 1) := by
    rw [inverseLoop, if_neg hz, if_neg hstop]
  exact ⟨mk_cos_sin, atan2_sin_cos, inverseSinSigma_equator, inversePass_equator_east, inverseLoop_equator_east_step, inverseLoop_equator_stop⟩

theorem aux_15 :
    ∀ (y : ℝ) (hy : 0 < y), atan2 y 0 = Real.pi / 2 := by
  have atan2_pos_zero (y : ℝ) (hy : 0 < y) : atan2 y 0 = Real.pi / 2 := by
    unfold atan2
    rw [Complex.arg_eq_pi_div_two_iff]
    exact ⟨rfl, hy⟩
  exact atan2_pos_zero

theorem aux_16 :
    ∀ (eps : ℝ) (ellipsoid : CEllipsoid) (hb : 0 < ellipsoid.b) (hba : ellipsoid.b ≤ ellipsoid.a) (heps : eps < ellipsoid.a * ellipsoid.a) (lat lon h : ℝ), GEOtoECEF eps ellipsoid TRangeUnit.RU_Meter TAngleUnit.AU_Radian lat lon h = some { X := (ellipsoid.a / Real.sqrt (1 - (1 - ellipsoid.b ^ 2 / ellipsoid.a ^ 2) * Real.sin lat ^ 2) + h) * Real.cos lat * Real.cos lon, Y := (ellipsoid.a / Real.sqrt (1 - (1 - ellipsoid.b ^ 2 / ellipsoid.a ^ 2) * Real.sin lat ^ 2) + h) * Real.cos lat * Real.sin lon, Z := (ellipsoid.a / Real.sqrt (1 - (1 - ellipsoid.b ^ 2 / ellipsoid.a ^ 2) * Real.sin lat ^ 2) * (1 - (1 - ellipsoid.b ^ 2 / ellipsoid.a ^ 2)) + h) * Real.sin lat } := by
  have GEOtoECEF_arg_pos := aux_1
  have GEOtoECEF_closed (eps : ℝ) (ellipsoid : CEllipsoid) (hb : 0 < ellipsoid.b)
      (hba : ellipsoid.b ≤ ellipsoid.a) (heps : eps < ellipsoid.a * ellipsoid.a)
      (lat lon h : ℝ) :
      GEOtoECEF eps ellipsoid TRangeUnit.RU_Meter TAngleUnit.AU_Radian lat lon h =
        some { X := (ellipsoid.a / Real.sqrt (1 - (1 - ellipsoid.b ^ 2 / ellipsoid.a ^ 2) *
                  Real.sin lat ^ 2) + h) * Real.cos lat * Real.cos lon,
               Y := (ellipsoid.a / Real.sqrt (1 - (1 - ellipsoid.b ^ 2 / ellipsoid.a ^ 2) *
                  Real.sin lat ^ 2) + h) * Real.cos lat * Real.sin lon,
               Z := (ellipsoid.a / Real.sqrt (1 - (1 - ellipsoid.b ^ 2 / ellipsoid.a ^ 2) *
                  Real.sin lat ^ 2) * (1 - (1 - ellipsoid.b ^ 2 / ellipsoid.a ^ 2)) + h) *
                  Real.sin lat } := by
    have hz : ¬ IsZeroAbs eps (ellipsoid.a * ellipsoid.a) := by
      unfold Compare.IsZeroAbs
      rw [abs_of_nonneg (mul_self_nonneg _)]
      exact not_le.2 heps
    have harg := GEOtoECEF_arg_pos ellipsoid hb hba lat
    have harg1 : (1.0 : ℝ) - ellipsoid.EccentricityFirstSquared *
        (Real.sin lat * Real.sin lat) > 0 := by
      norm_num
      linarith
    ((try unfold GEOtoECEF); try simp only [CEllipsoid.A, hz, if_false, toRadian, toMeter, harg1, if_true])
    ((try unfold CEllipsoid.EccentricityFirstSquared); try simp only [← sq])
    norm_num
  exact GEOtoECEF_closed

theorem aux_17 :
    (∀ (x : ℝ) (au : TAngleUnit), 0 ≤ AngleTo360 x au) ∧
    (∀ (x : ℝ) (au : TAngleUnit), AngleTo360 x au < fullTurn au) := by
  have fullTurn_pos := aux_3
  have AngleTo360_nonneg (x : ℝ) (au : TAngleUnit) : 0 ≤ AngleTo360 x au := by
    have hp := fullTurn_pos au
    have h := Int.floor_le (x / fullTurn au)
    rw [le_div_iff₀ hp] at h
    unfold AngleTo360
    linarith
  have AngleTo360_lt (x : ℝ) (au : TAngleUnit) : AngleTo360 x au < fullTurn au := by
    have hp := fullTurn_pos au
    have h := Int.lt_floor_add_one (x / fullTurn au)
    rw [div_lt_iff₀ hp] at h
    unfold AngleTo360
    linarith
  exact ⟨AngleTo360_nonneg, AngleTo360_lt⟩

theorem aux_18 :
    ∀ (au : TAngleUnit) (x : ℝ), toRadian au (fromRadian au x) = x := by
  have toRadian_fromRadian (au : TAngleUnit) (x : ℝ) : toRadian au (fromRadian au x) = x := by
    cases au
    · rfl
    · simp only [toRadian, fromRadian, DgToRdD, RdToDgD]
      field_simp
  exact toRadian_fromRadian

theorem aux_19 :
    (∀ (f : ℝ) (k : ℕ), (1 - f) * geomSum f k = 1 - f ^ (k + 1)) ∧
    (∀ (f : ℝ) (k : ℕ), geomSum f (k + 1) - geomSum f k = f ^ (k + 1)) ∧
    (∀ (f : ℝ) (hf : 0 ≤ f) (k : ℕ), 1 ≤ geomSum f k) ∧
    (∀ (f : ℝ) (hf : 0 ≤ f) (k : ℕ), (1 - f) * geomSum f k ≤ 1) ∧
    (∀ (f L : ℝ) (k : ℕ), L + f * (L * geomSum f k) = L * geomSum f (k + 1)) ∧
    (∀ (f L : ℝ) (hL0 : 0 < L) (hf0 : 0 < f) (hf1 : f ≤ 1 / 100) (k : ℕ), L ≤ L * geomSum f k ∧ L * geomSum f k ≤ 100 / 99 * L) ∧
    (∀ (f L : ℝ) (hL0 : 0 < L) (hf0 : 0 < f) (k : ℕ), |(L * geomSum f (k + 1) - L * geomSum f k) / (L * geomSum f (k + 1))| = f ^ (k + 1) / geomSum f (k + 1)) ∧
    (∀ (eps f L : ℝ) (hL0 : 0 < L) (hL1 : L ≤ 1) (hf0 : 0 < f) (hf1 : f ≤ 1 / 100) (hf6 : 1.011e-15 < f ^ 6) (hf7 : f ^ 7 ≤ 1.0e-15) (heps : eps < 2 / Real.pi * L), inverseLoop eps f L 0 1 0 1 100 0 L = InverseExit.finished (inversePass f L 0 1 0 1 (L * geomSum f 6)) 7) ∧
    (∀ (eps : ℝ) (h1 : eps ≤ 1 / 100), GEOtoRAD eps WGS84 TRangeUnit.RU_Meter TAngleUnit.AU_Degree 0 0 0 1 = { R := WGS84.b * (Real.pi / 180 * geomSum WGS84.f 6), Az := 90, AzEnd := 90 } ∧ GEOtoRADTrace eps WGS84 TAngleUnit.AU_Degree 0 0 0 1 = some (InverseExit.finished (inversePass WGS84.f (Real.pi / 180) 0 1 0 1 (Real.pi / 180 * geomSum WGS84.f 6)) 7)) := by
  have AngleTo360_of_mem := aux_12
  have atan2_pos_zero := aux_15
  have inverseSinSigma_equator := aux_14.2.2.1
  have inversePass_equator_east := aux_14.2.2.2.1
  have inverseLoop_equator_east_step := aux_14.2.2.2.2.1
  have inverseLoop_equator_stop := aux_14.2.2.2.2.2
  have reducedLat_zero := aux_10
  have WGS84_not_sphere := aux_11
  have geomSum_closed (f : ℝ) (k : ℕ) : (1 - f) * geomSum f k = 1 - f ^ (k + 1) := by
    induction k with
    | zero => simp [geomSum]
    | succ k ih =>
      have : (1 - f) * geomSum f (k + 1) = (1 - f) + f * ((1 - f) * geomSum f k) := by
        simp only [geomSum]; ring
      rw [this, ih]
      ring
  have geomSum_sub (f : ℝ) (k : ℕ) : geomSum f (k + 1) - geomSum f k = f ^ (k + 1) := by
    induction k with
    | zero => simp [geomSum]
    | succ k ih =>
      have : geomSum f (k + 1 + 1) - geomSum f (k + 1) =
          f * (geomSum f (k + 1) - geomSum f k) := by
        simp only [geomSum]; ring
      rw [this, ih]
      ring
  have geomSum_ge_one (f : ℝ) (hf : 0 ≤ f) (k : ℕ) : 1 ≤ geomSum f k := by
    induction k with
    | zero => simp [geomSum]
    | succ k ih =>
      simp only [geomSum]
      nlinarith
  have geomSum_le (f : ℝ) (hf : 0 ≤ f) (k : ℕ) :
      (1 - f) * geomSum f k ≤ 1 := by
    rw [geomSum_closed]
    have := pow_nonneg hf (k + 1)
    linarith
  have geomSum_succ_mul (f L : ℝ) (k : ℕ) : L + f * (L * geomSum f k) = L * geomSum f (k + 1) := by
    simp only [geomSum]; ring
  have geomSum_bounds (f L : ℝ) (hL0 : 0 < L) (hf0 : 0 < f) (hf1 : f ≤ 1 / 100) (k : ℕ) :
      L ≤ L * geomSum f k ∧ L * geomSum f k ≤ 100 / 99 * L := by
    have h1 := geomSum_ge_one f hf0.le k
    have h2 := geomSum_le f hf0.le k
    constructor
    · nlinarith
    · have : geomSum f k ≤ 100 / 99 := by nlinarith
      nlinarith
  have inverseImproves_ratio (f L : ℝ) (hL0 : 0 < L) (hf0 : 0 < f) (k : ℕ) :
      |(L * geomSum f (k + 1) - L * geomSum f k) / (L * geomSum f (k + 1))| =
        f ^ (k + 1) / geomSum f (k + 1) := by
    have hG := geomSum_ge_one f hf0.le (k + 1)
    have hnum : L * geomSum f (k + 1) - L * geomSum f k = L * f ^ (k + 1) := by
      rw [← mul_sub, geomSum_sub]
    rw [hnum, mul_div_mul_left _ _ hL0.ne', abs_of_nonneg]
    have := pow_pos hf0 (k + 1)
    positivity
  -- The loop of `GEOtoRAD` on a short eastward equatorial line of the given
  -- flattening: six passes improve `lambda`, the seventh ends the loop.
  have inverseLoop_equator_short (eps f L : ℝ) (hL0 : 0 < L) (hL1 : L ≤ 1)
      (hf0 : 0 < f) (hf1 : f ≤ 1 / 100) (hf6 : 1.011e-15 < f ^ 6) (hf7 : f ^ 7 ≤ 1.0e-15)
      (heps : eps < 2 / Real.pi * L) :
      inverseLoop eps f L 0 1 0 1 100 0 L =
        InverseExit.finished (inversePass f L 0 1 0 1 (L * geomSum f 6)) 7 := by
    have hpi := Real.pi_gt_three
    have hrange : ∀ k, 0 < L * geomSum f k ∧ L * geomSum f k < Real.pi ∧
        eps < Real.sin (L * geomSum f k) := by
      intro k
      obtain ⟨hb1, hb2⟩ := geomSum_bounds f L hL0 hf0 hf1 k
      have hx0 : 0 < L * geomSum f k := lt_of_lt_of_le hL0 hb1
      have hx1 : L * geomSum f k ≤ Real.pi / 2 := by linarith
      refine ⟨hx0, by linarith, ?_⟩
      have hj := Real.mul_le_sin hx0.le hx1
      have : 2 / Real.pi * L ≤ 2 / Real.pi * (L * geomSum f k) :=
        mul_le_mul_of_nonneg_left hb1 (by positivity)
      linarith
    have step : ∀ k, k ≤ 5 → ∀ limit p, 0 < limit →
        inverseLoop eps f L 0 1 0 1 (limit + 1) p (L * geomSum f k) =
          inverseLoop eps f L 0 1 0 1 limit (p + 1) (L * geomSum f (k + 1)) := by
      intro k hk limit p hl
      obtain ⟨hx0, hx1, hxs⟩ := hrange k
      obtain ⟨hy0, -, -⟩ := hrange (k + 1)
      have h := inverseLoop_equator_east_step eps f L (L * geomSum f k) limit p hx0 hx1 hxs
      rw [geomSum_succ_mul] at h
      apply h hy0.ne' _ hl
      have hG0 := geomSum_ge_one f hf0.le (k + 1)
      rw [inverseImproves_ratio f L hL0 hf0 k, gt_iff_lt, lt_div_iff₀ (by linarith)]
      have hG := geomSum_le f hf0.le (k + 1)
      have hG1 : geomSum f (k + 1) ≤ 100 / 99 := by nlinarith
      have hp : f ^ 6 ≤ f ^ (k + 1) :=
        pow_le_pow_of_le_one hf0.le (by linarith) (by omega)
      norm_num at hf6 ⊢
      linarith
    have h0 : L = L * geomSum f 0 := by simp [geomSum]
    have hstart : inverseLoop eps f L 0 1 0 1 100 0 L =
        inverseLoop eps f L 0 1 0 1 (99 + 1) 0 (L * geomSum f 0) := by rw [← h0]
    rw [hstart, step 0 (by norm_num) 99 0 (by norm_num), step 1 (by norm_num) 98 1 (by norm_num),
      step 2 (by norm_num) 97 2 (by norm_num), step 3 (by norm_num) 96 3 (by norm_num),
      step 4 (by norm_num) 95 4 (by norm_num), step 5 (by norm_num) 94 5 (by norm_num)]
    obtain ⟨hx0, hx1, hxs⟩ := hrange 6
    obtain ⟨hy0, -, -⟩ := hrange 7
    have hsin : 0 < Real.sin (L * geomSum f 6) := Real.sin_pos_of_pos_of_lt_pi hx0 hx1
    have hz : ¬ IsZeroAbs eps (inverseSinSigma 0 1 0 1 (L * geomSum f 6)) := by
      rw [inverseSinSigma_equator]
      unfold Compare.IsZeroAbs
      rw [abs_abs, abs_of_pos hsin]
      exact not_le.2 hxs
    have hstop : ¬ (inverseImproves (inversePass f L 0 1 0 1 (L * geomSum f 6)) ∧ 93 > 0) := by
      rintro ⟨hi, -⟩
      rw [inversePass_equator_east f L _ hx0 hx1] at hi
      ((try unfold inverseImproves at hi); try simp only [geomSum_succ_mul, hy0.ne', if_false] at hi)
      rw [inverseImproves_ratio f L hL0 hf0 6, gt_iff_lt, lt_div_iff₀
        (by linarith [geomSum_ge_one f hf0.le 7])] at hi
      have hG := geomSum_ge_one f hf0.le 7
      norm_num at hi hf7
      linarith
    exact inverseLoop_equator_stop eps f L (L * geomSum f 6) 93 (5 + 1) hz hstop
  -- The known vector: on WGS-84 with degrees and metres, from `(0, 0)` to
  -- `(0, 1)`, the loop of `GEOtoRAD` ends in its seventh pass and the function
  -- returns the distance `b * sigma` and the azimuths `90` and `90`.
  have GEOtoRAD_known_vector (eps : ℝ) (h1 : eps ≤ 1 / 100) :
      GEOtoRAD eps WGS84 TRangeUnit.RU_Meter TAngleUnit.AU_Degree 0 0 0 1 =
        { R := WGS84.b * (Real.pi / 180 * geomSum WGS84.f 6), Az := 90, AzEnd := 90 } ∧
      GEOtoRADTrace eps WGS84 TAngleUnit.AU_Degree 0 0 0 1 =
        some (InverseExit.finished
          (inversePass WGS84.f (Real.pi / 180) 0 1 0 1 (Real.pi / 180 * geomSum WGS84.f 6)) 7) := by
    have hpi := Real.pi_pos
    have hpi3 := Real.pi_gt_three
    have hpi4 := Real.pi_le_four
    have hns := WGS84_not_sphere eps h1
    have hf0 : 0 < WGS84.f := by ((try unfold WGS84); norm_num)
    have hf1 : WGS84.f ≤ 1 / 100 := by ((try unfold WGS84); norm_num)
    have hf6 : (1.011e-15 : ℝ) < WGS84.f ^ 6 := by ((try unfold WGS84); norm_num)
    have hf7 : WGS84.f ^ 7 ≤ (1.0e-15 : ℝ) := by ((try unfold WGS84); norm_num)
    have hL0 : 0 < Real.pi / 180 := by positivity
    have hL1 : Real.pi / 180 ≤ 1 := by linarith
    have heps : eps < 2 / Real.pi * (Real.pi / 180) := by
      have : 2 / Real.pi * (Real.pi / 180) = 1 / 90 := by field_simp; ring
      rw [this]
      linarith
    have hrun := inverseLoop_equator_short eps WGS84.f (Real.pi / 180) hL0 hL1 hf0 hf1 hf6 hf7 heps
    have hloop : GEOtoRADLoop eps WGS84.F (toRadian TAngleUnit.AU_Degree 0)
        (toRadian TAngleUnit.AU_Degree 0) (toRadian TAngleUnit.AU_Degree 0)
        (toRadian TAngleUnit.AU_Degree 1) = InverseExit.finished
          (inversePass WGS84.f (Real.pi / 180) 0 1 0 1 (Real.pi / 180 * geomSum WGS84.f 6)) 7 := by
      ((try unfold GEOtoRADLoop); try simp only [toRadian, zero_mul, one_mul, sub_zero, reducedLat_zero, Real.sin_zero,
        Real.cos_zero, DgToRdD, CEllipsoid.F])
      exact hrun
    obtain ⟨hb1, hb2⟩ := geomSum_bounds WGS84.f (Real.pi / 180) hL0 hf0 hf1 6
    have hx0 : 0 < Real.pi / 180 * geomSum WGS84.f 6 := lt_of_lt_of_le hL0 hb1
    have hx1 : Real.pi / 180 * geomSum WGS84.f 6 < Real.pi := by linarith
    have hsin : 0 < Real.sin (Real.pi / 180 * geomSum WGS84.f 6) :=
      Real.sin_pos_of_pos_of_lt_pi hx0 hx1
    have hwrap : AngleTo360 (Real.pi / 2) TAngleUnit.AU_Radian = Real.pi / 2 :=
      AngleTo360_of_mem _ _ (by positivity) (by simp only [fullTurn]; linarith)
    have hdeg : Real.pi / 2 * RdToDgD = 90 := by
      unfold RdToDgD; field_simp; ring
    constructor
    · ((try unfold GEOtoRAD); try simp only [hns, if_false, hloop])
      ((try unfold GEOtoRADFinish); try simp only [reducedLat_zero, toRadian, zero_mul, Real.sin_zero, Real.cos_zero,
        inversePass_equator_east _ _ _ hx0 hx1, fromMeter, fromRadian])
      ((try unfold CEllipsoid.B); norm_num [atan2_pos_zero _ hsin, hwrap, hdeg])
    · ((try unfold GEOtoRADTrace); try simp only [hns, if_false, hloop])
  exact ⟨geomSum_closed, geomSum_sub, geomSum_ge_one, geomSum_le, geomSum_succ_mul, geomSum_bounds, inverseImproves_ratio, inverseLoop_equator_short, GEOtoRAD_known_vector⟩

theorem aux_20 :
    ∀ (x : ℝ), fromRadian TAngleUnit.AU_Radian x = x := by
  have fromRadian_radian (x : ℝ) : fromRadian TAngleUnit.AU_Radian x = x := rfl
  exact fromRadian_radian

theorem aux_21 :
    ∀ (eps : ℝ) (ellipsoid : CEllipsoid) (rangeUnit : TRangeUnit) (angleUnit : TAngleUnit) (lat lon h : ℝ) (r : XYZ) (hr : GEOtoECEF eps ellipsoid TRangeUnit.RU_Meter TAngleUnit.AU_Radian (toRadian angleUnit lat) (toRadian angleUnit lon) (toMeter rangeUnit h) = some r), ∃ p, GEOtoECEF eps ellipsoid rangeUnit angleUnit lat lon h = some p ∧ toMeter rangeUnit p.X = r.X ∧ toMeter rangeUnit p.Y = r.Y ∧ toMeter rangeUnit p.Z = r.Z := by
  have toMeter_meter := aux_2
  have toRadian_radian := aux_4
  have GEOtoECEF_units (eps : ℝ) (ellipsoid : CEllipsoid) (rangeUnit : TRangeUnit)
      (angleUnit : TAngleUnit) (lat lon h : ℝ) (r : XYZ)
      (hr : GEOtoECEF eps ellipsoid TRangeUnit.RU_Meter TAngleUnit.AU_Radian
        (toRadian angleUnit lat) (toRadian angleUnit lon) (toMeter rangeUnit h) = some r) :
      ∃ p, GEOtoECEF eps ellipsoid rangeUnit angleUnit lat lon h = some p ∧
        toMeter rangeUnit p.X = r.X ∧ toMeter rangeUnit p.Y = r.Y ∧ toMeter rangeUnit p.Z = r.Z := by
    by_cases hz : IsZeroAbs eps (ellipsoid.A * ellipsoid.A)
    · ((try unfold GEOtoECEF at hr); simp [hz] at hr)
    · by_cases harg : (1.0 : ℝ) - ellipsoid.EccentricityFirstSquared *
          (Real.sin (toRadian angleUnit lat) * Real.sin (toRadian angleUnit lat)) > 0
      · ((try unfold GEOtoECEF at hr); try simp only [hz, if_false, harg, if_true, toRadian_radian, toMeter_meter,
          Option.some.injEq] at hr)
        subst hr
        cases rangeUnit
        · ((try unfold GEOtoECEF); try simp only [hz, if_false, harg, if_true])
          exact ⟨_, rfl, rfl, rfl, rfl⟩
        · ((try unfold GEOtoECEF); try simp only [hz, if_false, harg, if_true])
          refine ⟨_, rfl, ?_, ?_, ?_⟩ <;> simp only [toMeter] <;> norm_num
      · ((try unfold GEOtoECEF at hr); try simp only [hz, if_false, harg, toRadian_radian] at hr)
        exact absurd hr (by simp)
  exact GEOtoECEF_units

theorem aux_22 :
    ∀ (B sigma1 : ℝ), directDeltaSigma B sigma1 0 = 0 := by
  have directDeltaSigma_at_zero (B sigma1 : ℝ) : directDeltaSigma B sigma1 0 = 0 := by
    ((try unfold directDeltaSigma); simp)
  exact directDeltaSigma_at_zero

theorem aux_23 :
    (∀ (f s1 c1 s2 c2 : ℝ), inversePass f 0 s1 c1 s2 c2 0 = { lambda := 0, lambda_new := 0, sinSigma := inverseSinSigma s1 c1 s2 c2 0, cosSigma := s1 * s2 + c1 * c2, sigma := atan2 (inverseSinSigma s1 c1 s2 c2 0) (s1 * s2 + c1 * c2), sinAlpha := 0, cosSqAlpha := 1, cos2SigmaM := s1 * s2 + c1 * c2 - 2.0 * s1 * s2, c := (f / 16.0) * (4.0 + f * (4.0 - 3.0)), sinLambda := 0, cosLambda := 1 }) ∧
    (∀ (eps f s1 c1 s2 c2 : ℝ) (hz : ¬ IsZeroAbs eps (inverseSinSigma s1 c1 s2 c2 0)), inverseLoop eps f 0 s1 c1 s2 c2 100 0 0 = InverseExit.finished (inversePass f 0 s1 c1 s2 c2 0) 1) ∧
    (∀ (U1 U2 : ℝ), inverseSinSigma (Real.sin U1) (Real.cos U1) (Real.sin U2) (Real.cos U2) 0 = |Real.sin (U2 - U1)|) ∧
    (∀ (eps f lat1 lat2 lon : ℝ) (hz : eps < |Real.sin (reducedLat f lat2 - reducedLat f lat1)|), GEOtoRADLoop eps f lat1 lon lat2 lon = InverseExit.finished (inversePass f 0 (Real.sin (reducedLat f lat1)) (Real.cos (reducedLat f lat1)) (Real.sin (reducedLat f lat2)) (Real.cos (reducedLat f lat2)) 0) 1) := by
  have inversePass_meridian (f s1 c1 s2 c2 : ℝ) :
      inversePass f 0 s1 c1 s2 c2 0 =
        { lambda := 0, lambda_new := 0, sinSigma := inverseSinSigma s1 c1 s2 c2 0,
          cosSigma := s1 * s2 + c1 * c2,
          sigma := atan2 (inverseSinSigma s1 c1 s2 c2 0) (s1 * s2 + c1 * c2),
          sinAlpha := 0, cosSqAlpha := 1, cos2SigmaM := s1 * s2 + c1 * c2 - 2.0 * s1 * s2,
          c := (f / 16.0) * (4.0 + f * (4.0 - 3.0)), sinLambda := 0, cosLambda := 1 } := by
    have h10 : ¬ ((1 : ℝ) = 0 ∧ 2.0 * s1 * s2 = 0) := by norm_num
    ((try unfold inversePass); try simp only [Real.sin_zero, Real.cos_zero, mul_zero, zero_div, mul_one, h10,
      if_false, zero_mul, add_zero, sub_zero, div_one])
  have inverseLoop_meridian (eps f s1 c1 s2 c2 : ℝ)
      (hz : ¬ IsZeroAbs eps (inverseSinSigma s1 c1 s2 c2 0)) :
      inverseLoop eps f 0 s1 c1 s2 c2 100 0 0 =
        InverseExit.finished (inversePass f 0 s1 c1 s2 c2 0) 1 := by
    have hni : ¬ inverseImproves (inversePass f 0 s1 c1 s2 c2 0) := by
      rw [inversePass_meridian]
      ((try unfold inverseImproves); simp)
    rw [show (100 : ℕ) = 99 + 1 from rfl, inverseLoop]
    simp only [hz, if_false, hni, false_and, zero_add]
  have inverseSinSigma_meridian (U1 U2 : ℝ) :
      inverseSinSigma (Real.sin U1) (Real.cos U1) (Real.sin U2) (Real.cos U2) 0 =
        |Real.sin (U2 - U1)| := by
    ((try unfold inverseSinSigma); try simp only [Real.sin_zero, Real.cos_zero, mul_zero, mul_one, zero_add])
    rw [← sq, Real.sqrt_sq_eq_abs, Real.sin_sub]
    congr 1
    ring
  have GEOtoRADLoop_meridian (eps f lat1 lat2 lon : ℝ)
      (hz : eps < |Real.sin (reducedLat f lat2 - reducedLat f lat1)|) :
      GEOtoRADLoop eps f lat1 lon lat2 lon =
        InverseExit.finished (inversePass f 0 (Real.sin (reducedLat f lat1))
          (Real.cos (reducedLat f lat1)) (Real.sin (reducedLat f lat2))
          (Real.cos (reducedLat f lat2)) 0) 1 := by
    ((try unfold GEOtoRADLoop); try simp only [sub_self])
    apply inverseLoop_meridian
    rw [inverseSinSigma_meridian]
    unfold Compare.IsZeroAbs
    rw [abs_abs]
    exact not_le.2 hz
  exact ⟨inversePass_meridian, inverseLoop_meridian, inverseSinSigma_meridian, GEOtoRADLoop_meridian⟩

theorem aux_24 :
    (∀ (f lat : ℝ), -(Real.pi / 2) < reducedLat f lat ∧ reducedLat f lat < Real.pi / 2) ∧
    (∀ (f lat1 lat2 : ℝ) (hf : f < 1) (h0 : -(Real.pi / 2) < lat1) (h12 : lat1 < lat2) (h1 : lat2 < Real.pi / 2), reducedLat f lat1 < reducedLat f lat2) ∧
    (∀ (au : TAngleUnit) (x y : ℝ) (h : x < y), toRadian au x < toRadian au y) ∧
    (∀ (f lat1 lat2 : ℝ) (hf : f < 1) (h0 : -(Real.pi / 2) < lat1) (h12 : lat1 < lat2) (h1 : lat2 < Real.pi / 2), 0 < Real.sin (reducedLat f lat2 - reducedLat f lat1)) := by
  have reducedLat_mem (f lat : ℝ) :
      -(Real.pi / 2) < reducedLat f lat ∧ reducedLat f lat < Real.pi / 2 :=
    ⟨Real.neg_pi_div_two_lt_arctan _, Real.arctan_lt_pi_div_two _⟩
  have reducedLat_lt (f lat1 lat2 : ℝ) (hf : f < 1) (h0 : -(Real.pi / 2) < lat1)
      (h12 : lat1 < lat2) (h1 : lat2 < Real.pi / 2) :
      reducedLat f lat1 < reducedLat f lat2 := by
    have ht := Real.tan_lt_tan_of_lt_of_lt_pi_div_two h0 h1 h12
    have hf1 : (0 : ℝ) < 1.0 - f := by
      norm_num
      linarith
    exact Real.arctan_strictMono (mul_lt_mul_of_pos_left ht hf1)
  have toRadian_lt (au : TAngleUnit) (x y : ℝ) (h : x < y) : toRadian au x < toRadian au y := by
    cases au
    · exact h
    · have := Real.pi_pos
      simp only [toRadian, DgToRdD]
      exact mul_lt_mul_of_pos_right h (by positivity)
  have sin_reducedLat_sub_pos (f lat1 lat2 : ℝ) (hf : f < 1) (h0 : -(Real.pi / 2) < lat1)
      (h12 : lat1 < lat2) (h1 : lat2 < Real.pi / 2) :
      0 < Real.sin (reducedLat f lat2 - reducedLat f lat1) := by
    have h := reducedLat_lt f lat1 lat2 hf h0 h12 h1
    have m1 := reducedLat_mem f lat1
    have m2 := reducedLat_mem f lat2
    exact Real.sin_pos_of_pos_of_lt_pi (by linarith) (by linarith [m1.1, m2.2])
  exact ⟨reducedLat_mem, reducedLat_lt, toRadian_lt, sin_reducedLat_sub_pos⟩

theorem aux_25 :
    ∀ (u : ℝ) (hu0 : 0 ≤ u) (hu1 : u ≤ 1), 0 < 1 + u / 16384.0 * (4096.0 + u * (-768.0 + u * (320.0 - 175.0 * u))) ∧ 0 ≤ u / 1024.0 * (256.0 + u * (-128.0 + u * (74.0 - 47.0 * u))) ∧ u / 1024.0 * (256.0 + u * (-128.0 + u * (74.0 - 47.0 * u))) ≤ 1 / 3 := by
  have vincenty_AB_range (u : ℝ) (hu0 : 0 ≤ u) (hu1 : u ≤ 1) :
      0 < 1 + u / 16384.0 * (4096.0 + u * (-768.0 + u * (320.0 - 175.0 * u))) ∧
      0 ≤ u / 1024.0 * (256.0 + u * (-128.0 + u * (74.0 - 47.0 * u))) ∧
      u / 1024.0 * (256.0 + u * (-128.0 + u * (74.0 - 47.0 * u))) ≤ 1 / 3 := by
    have h2 : 0 ≤ u * u := mul_self_nonneg u
    have h21 : u * u ≤ 1 := by nlinarith
    have h3 : 0 ≤ u * u * u := by positivity
    have h31 : u * u * u ≤ 1 := by nlinarith
    have h4 : 0 ≤ u * u * u * u := by positivity
    have h41 : u * u * u * u ≤ 1 := by nlinarith
    norm_num
    refine ⟨?_, ?_, ?_⟩
    · linarith
    · nlinarith
    · linarith
  exact vincenty_AB_range

theorem aux_26 :
    (∀ (x y : ℝ), hypot x y = hypot y x) ∧
    (∀ (ru : TRangeUnit) (x : ℝ), fromMeter ru (toMeter ru x) = x) := by
  have hypot_comm (x y : ℝ) : hypot x y = hypot y x := by
    simp [hypot, add_comm]
  have fromMeter_toMeter (ru : TRangeUnit) (x : ℝ) : fromMeter ru (toMeter ru x) = x := by
    cases ru
    · rfl
    · simp only [toMeter, fromMeter]
      norm_num
      ring
  exact ⟨hypot_comm, fromMeter_toMeter⟩

theorem aux_27 :
    ∀ (au : TAngleUnit) (x : ℝ), fromRadian au (toRadian au x) = x := by
  have fromRadian_toRadian (au : TAngleUnit) (x : ℝ) : fromRadian au (toRadian au x) = x := by
    cases au
    · rfl
    · simp only [toRadian, fromRadian, DgToRdD, RdToDgD]
      field_simp
  exact fromRadian_toRadian

theorem aux_28 :
    ∀ (ellipsoid : CEllipsoid) (hb : 0 < ellipsoid.b) (hba : ellipsoid.b ≤ ellipsoid.a), 0 ≤ ellipsoid.EccentricityFirstSquared ∧ ellipsoid.EccentricityFirstSquared < 1 := by
  have eccentricity_range (ellipsoid : CEllipsoid) (hb : 0 < ellipsoid.b)
      (hba : ellipsoid.b ≤ ellipsoid.a) :
      0 ≤ ellipsoid.EccentricityFirstSquared ∧ ellipsoid.EccentricityFirstSquared < 1 := by
    have ha : 0 < ellipsoid.a := lt_of_lt_of_le hb hba
    have hq0 : 0 < ellipsoid.b * ellipsoid.b / (ellipsoid.a * ellipsoid.a) := by positivity
    have hq1 : ellipsoid.b * ellipsoid.b / (ellipsoid.a * ellipsoid.a) ≤ 1 := by
      rw [div_le_one (by positivity)]
      nlinarith
    unfold CEllipsoid.EccentricityFirstSquared
    constructor <;> linarith
  exact eccentricity_range

theorem aux_29 :
    ∀ (au : TAngleUnit) (x : ℝ), toRadian au (-x) = -toRadian au x := by
  have toRadian_neg (au : TAngleUnit) (x : ℝ) : toRadian au (-x) = -toRadian au x := by
    cases au <;> simp [toRadian]
  exact toRadian_neg

theorem aux_30 :
    ∀ (eps f L sinU1 cosU1 sinU2 cosU2 : ℝ) (limit passes : ℕ) (lambda : ℝ) (h : IsZeroAbs eps (inverseSinSigma sinU1 cosU1 sinU2 cosU2 lambda)), inverseLoop eps f L sinU1 cosU1 sinU2 cosU2 limit passes lambda = InverseExit.coincident (passes + 1) := by
  have inverseLoop_coincident (eps f L sinU1 cosU1 sinU2 cosU2 : ℝ) (limit passes : ℕ)
      (lambda : ℝ) (h : IsZeroAbs eps (inverseSinSigma sinU1 cosU1 sinU2 cosU2 lambda)) :
      inverseLoop eps f L sinU1 cosU1 sinU2 cosU2 limit passes lambda =
        InverseExit.coincident (passes + 1) := by
    cases limit <;> simp only [inverseLoop, h, if_true]
  exact inverseLoop_coincident

theorem aux_31 :
    ∀ (au : TAngleUnit), fromRadian au Real.pi = fullTurn au / 2 := by
  have fromRadian_pi (au : TAngleUnit) : fromRadian au Real.pi = fullTurn au / 2 := by
    cases au
    · simp only [fromRadian, fullTurn]
      ring
    · have := Real.pi_pos
      simp only [fromRadian, fullTurn, RdToDgD]
      field_simp
      ring
  exact fromRadian_pi

theorem aux_32 :
    ∀ (B sigma1 : ℝ), directLoop B sigma1 0 0 0 0 = (0, 1) := by
  have directDeltaSigma_at_zero := aux_22
  have directLoop_zero (B sigma1 : ℝ) : directLoop B sigma1 0 0 0 0 = (0, 1) := by
    rw [directLoop]
    simp only [directDeltaSigma_at_zero, add_zero, sub_zero, abs_zero]
    norm_num
  exact directLoop_zero

theorem aux_33 :
    ∀ (r t : ℝ) (hr : 0 < r) (h0 : -Real.pi < t) (h1 : t ≤ Real.pi), atan2 (r * Real.sin t) (r * Real.cos t) = t := by
  have atan2_scaled_mem (r t : ℝ) (hr : 0 < r) (h0 : -Real.pi < t) (h1 : t ≤ Real.pi) :
      atan2 (r * Real.sin t) (r * Real.cos t) = t := by
    have hmk : (⟨r * Real.cos t, r * Real.sin t⟩ : ℂ) =
        (r : ℂ) * (Complex.cos t + Complex.sin t * Complex.I) := by
      apply Complex.ext
      · simp [Complex.cos_ofReal_re, Complex.sin_ofReal_im]
      · simp [Complex.cos_ofReal_im, Complex.sin_ofReal_re]
    unfold atan2
    rw [hmk]
    exact Complex.arg_mul_cos_add_sin_mul_I hr ⟨h0, h1⟩
  exact atan2_scaled_mem

theorem aux_34 :
    ∀ (x y : ℝ) (hy : 0 < y) (h : x * x + y * y = 1), y < atan2 y x := by
  have hypot_mul_sin_atan2 := aux_6.2.2
  -- The angle `atan2 y x` of a point of the unit circle with `y > 0` is larger
  -- than `y`.
  have lt_atan2_of_unit (x y : ℝ) (hy : 0 < y) (h : x * x + y * y = 1) : y < atan2 y x := by
    have hh : hypot x y = 1 := by
      unfold hypot
      rw [h, Real.sqrt_one]
    have hs := hypot_mul_sin_atan2 y x
    rw [hh, one_mul] at hs
    have hpos : 0 < atan2 y x := by
      by_contra hneg
      push_neg at hneg
      have hlo : -Real.pi < atan2 y x := by
        unfold atan2
        exact Complex.neg_pi_lt_arg _
      have := Real.sin_nonpos_of_nonnpos_of_neg_pi_le hneg hlo.le
      linarith
    have := Real.sin_lt hpos
    linarith
  exact lt_atan2_of_unit

theorem aux_35 :
    (∀ (x : ℝ) (e : ℤ) (h1 : (2 : ℝ) ^ e ≤ |x|) (h2 : |x| < (2 : ℝ) ^ (e + 1)), Binary64.ulp x = (2 : ℝ) ^ (e - 52)) ∧
    (∀ (t : ℝ) (n : ℤ) (h : |t - n| < 1 / 2), Binary64.nearestEven t = n) ∧
    (∀ (x : ℝ) (e n : ℤ) (h1 : (2 : ℝ) ^ e ≤ |x|) (h2 : |x| < (2 : ℝ) ^ (e + 1)) (h3 : |x / (2 : ℝ) ^ (e - 52) - n| < 1 / 2), Binary64.rnd x = n * (2 : ℝ) ^ (e - 52)) ∧
    (Binary64.rnd 1 = 1) := by
  have Binary64_ulp_eq (x : ℝ) (e : ℤ) (h1 : (2 : ℝ) ^ e ≤ |x|) (h2 : |x| < (2 : ℝ) ^ (e + 1)) :
      Binary64.ulp x = (2 : ℝ) ^ (e - 52) := by
    have hx : 0 < |x| := lt_of_lt_of_le (zpow_pos (by norm_num) e) h1
    have a1 := Int.zpow_le_iff_le_log (R := ℝ) (b := 2) (by norm_num) (x := e) hx
    have a2 := Int.lt_zpow_iff_log_lt (R := ℝ) (b := 2) (by norm_num) (x := e + 1) hx
    rw [Nat.cast_ofNat] at a1 a2
    have b1 := a1.1 h1
    have b2 := a2.1 h2
    have : Int.log 2 |x| = e := by omega
    unfold Binary64.ulp
    rw [this]
  have Binary64_nearestEven_eq (t : ℝ) (n : ℤ) (h : |t - n| < 1 / 2) :
      Binary64.nearestEven t = n := by
    have h' := abs_lt.1 h
    unfold Binary64.nearestEven
    by_cases hn : (n : ℝ) ≤ t
    · have hf : ⌊t⌋ = n := by
        rw [Int.floor_eq_iff]
        constructor
        · exact hn
        · linarith
      rw [hf, if_pos (by linarith)]
    · have hf : ⌊t⌋ = n - 1 := by
        rw [Int.floor_eq_iff]
        push_cast
        constructor
        · linarith
        · push_neg at hn
          linarith
      rw [hf]
      push_cast
      rw [if_neg (by linarith), if_pos (by linarith)]
      ring
  have Binary64_rnd_eq_of_near (x : ℝ) (e n : ℤ) (h1 : (2 : ℝ) ^ e ≤ |x|)
      (h2 : |x| < (2 : ℝ) ^ (e + 1)) (h3 : |x / (2 : ℝ) ^ (e - 52) - n| < 1 / 2) :
      Binary64.rnd x = n * (2 : ℝ) ^ (e - 52) := by
    unfold Binary64.rnd
    rw [Binary64_ulp_eq x e h1 h2, Binary64_nearestEven_eq _ n h3]
  have Binary64_rnd_one : Binary64.rnd 1 = 1 := by
    have h := Binary64_rnd_eq_of_near 1 0 (2 ^ 52) (by norm_num) (by norm_num) (by norm_num)
    rw [h]
    norm_num
  exact ⟨Binary64_ulp_eq, Binary64_nearestEven_eq, Binary64_rnd_eq_of_near, Binary64_rnd_one⟩

/-! ## Ellipsoid construction -/

/-- C10: the constructor follows the three-case table.  With the inverse
flattening authoritative and zero (or within the tolerance of zero) or infinite,
`b = a` and `f = 0`; with it authoritative, finite and not zero for the
tolerance (`eps < |v|`), `b = (1 - 1/v) * a` and `f = 1/v`; with the semi-minor
axis authoritative, `b` is the given axis and `f = 1/invf`; `a` and `invf` are
stored as given in every case. -/
theorem CEllipsoid_ctor_table (eps : ℝ) (heps : 0 ≤ eps) (nm : String) (a bMinor v : ℝ)
    (x : DoubleArg) (flag : Bool) :
    ((CEllipsoid.ctor eps nm a bMinor (DoubleArg.finite 0) true).b = a ∧
      (CEllipsoid.ctor eps nm a bMinor (DoubleArg.finite 0) true).f = 0) ∧
    (DoubleArg.IsZeroAbs eps x ∨ x.isinf = true →
      (CEllipsoid.ctor eps nm a bMinor x true).b = a ∧
      (CEllipsoid.ctor eps nm a bMinor x true).f = 0) ∧
    (eps < |v| →
      (CEllipsoid.ctor eps nm a bMinor (DoubleArg.finite v) true).b = (1 - 1 / v) * a ∧
      (CEllipsoid.ctor eps nm a bMinor (DoubleArg.finite v) true).f = 1 / v) ∧
    ((CEllipsoid.ctor eps nm a bMinor x false).b = bMinor ∧
      (CEllipsoid.ctor eps nm a bMinor x false).f = x.recip ∧
      (CEllipsoid.ctor eps nm a bMinor (DoubleArg.finite v) false).f = 1 / v) ∧
    ((CEllipsoid.ctor eps nm a bMinor x flag).a = a ∧
      (CEllipsoid.ctor eps nm a bMinor x flag).invf = x) := by
  refine ⟨?_, ?_, ?_, ?_, ?_⟩
  · have h0 : DoubleArg.IsZeroAbs eps (DoubleArg.finite 0) := by
      simpa [DoubleArg.IsZeroAbs, Compare.IsZeroAbs] using heps
    ((try unfold CEllipsoid.ctor); norm_num [h0])
  · intro h
    ((try unfold CEllipsoid.ctor); norm_num [h])
  · intro hv
    have h0 : ¬ DoubleArg.IsZeroAbs eps (DoubleArg.finite v) := by
      simpa [DoubleArg.IsZeroAbs, Compare.IsZeroAbs] using hv
    ((try unfold CEllipsoid.ctor); norm_num [h0, DoubleArg.isinf, DoubleArg.recip])
  · ((try unfold CEllipsoid.ctor); norm_num [DoubleArg.recip])
  · unfold CEllipsoid.ctor
    split_ifs <;> simp

/-- Witness for C10: the table at the exact zero test, for the WGS-84 data. -/
theorem CEllipsoid_ctor_table_witness :
    (CEllipsoid.ctor 0 "WGS84" 6378137 0 (DoubleArg.finite 298.257223563) true).f
      = 1 / 298.257223563 ∧
    (CEllipsoid.ctor 0 "WGS84" 6378137 0 (DoubleArg.finite 298.257223563) true).b
      = (1 - 1 / 298.257223563) * 6378137 :=
  have h := (CEllipsoid_ctor_table 0 le_rfl "WGS84" 6378137 0 298.257223563
    DoubleArg.posInf true).2.2.1 (by norm_num [abs_of_pos])
  ⟨h.2, h.1⟩

/-! ## Coincident points and the spherical branch -/

/-- C7: on a non-spherical ellipsoid `GEOtoRAD` with identical start and end
points returns `d = 0`, `az = 0`, `azEnd = 0` in every unit, and does so by the
`return` of the co-incident points test in the first pass of the loop. -/
theorem GEOtoRAD_coincident (eps : ℝ) (heps : 0 ≤ eps) (ellipsoid : CEllipsoid)
    (hns : ¬ AreEqualAbs eps ellipsoid.A ellipsoid.B) (rangeUnit : TRangeUnit)
    (angleUnit : TAngleUnit) (lat lon : ℝ) :
    GEOtoRAD eps ellipsoid rangeUnit angleUnit lat lon lat lon = { R := 0, Az := 0, AzEnd := 0 } ∧
    GEOtoRADTrace eps ellipsoid angleUnit lat lon lat lon = some (InverseExit.coincident 1) := by
  have inverseSinSigma_same (s c : ℝ) : inverseSinSigma s c s c 0 = 0 := by
    clear heps hns
    ((try unfold inverseSinSigma); simp [mul_comm])
  have hz : IsZeroAbs eps 0 := by simpa [Compare.IsZeroAbs] using heps
  have hloop : GEOtoRADLoop eps ellipsoid.F (toRadian angleUnit lat) (toRadian angleUnit lon)
      (toRadian angleUnit lat) (toRadian angleUnit lon) = InverseExit.coincident 1 := by
    ((try unfold GEOtoRADLoop); simp [inverseLoop, inverseSinSigma_same, hz])
  constructor
  · ((try unfold GEOtoRAD); norm_num [hns, hloop])
  · ((try unfold GEOtoRADTrace); simp [hns, hloop])

/-- Witness for C7: WGS-84, exact comparisons, a point given in degrees. -/
theorem GEOtoRAD_coincident_witness :
    GEOtoRAD 0 WGS84 TRangeUnit.RU_Kilometer TAngleUnit.AU_Degree 55 37 55 37
      = { R := 0, Az := 0, AzEnd := 0 } ∧
    GEOtoRADTrace 0 WGS84 TAngleUnit.AU_Degree 55 37 55 37 = some (InverseExit.coincident 1) :=
  GEOtoRAD_coincident 0 le_rfl WGS84
    (by ((try unfold WGS84); (try unfold CEllipsoid.B); (try unfold CEllipsoid.A); (try unfold Compare.AreEqualAbs); norm_num))
    TRangeUnit.RU_Kilometer TAngleUnit.AU_Degree 55 37

/-- C9: for an ellipsoid with `a == b`, `GEOtoRAD` does not enter the Vincenty
loop and returns the spherical law-of-cosines distance `a * acos(...)` in metres
with the two `atan2` bearings wrapped into `[0, 2π)`, and `RADtoGEO` returns the
spherical direct formulas evaluated on the angular distance `d / a`. -/
theorem sphere_degeneracy (eps : ℝ) (heps : 0 ≤ eps) (ellipsoid : CEllipsoid)
    (hab : ellipsoid.a = ellipsoid.b) (angleUnit : TAngleUnit)
    (lat1 lon1 lat2 lon2 d az : ℝ) :
    GEOtoRADTrace eps ellipsoid angleUnit lat1 lon1 lat2 lon2 = none ∧
    GEOtoRAD eps ellipsoid TRangeUnit.RU_Meter TAngleUnit.AU_Radian lat1 lon1 lat2 lon2 =
      { R := ellipsoid.a * Real.arccos (Real.sin lat1 * Real.sin lat2 +
          Real.cos lat1 * Real.cos lat2 * Real.cos (lon2 - lon1)),
        Az := AngleTo360 (atan2 (Real.cos lat2 * Real.sin (lon2 - lon1))
          (Real.cos lat1 * Real.sin lat2 - Real.sin lat1 * Real.cos lat2 * Real.cos (lon2 - lon1)))
          TAngleUnit.AU_Radian,
        AzEnd := AngleTo360 (atan2 (Real.cos lat1 * Real.sin (lon2 - lon1))
          (Real.cos lat1 * Real.sin lat2 * Real.cos (lon2 - lon1) - Real.sin lat1 * Real.cos lat2))
          TAngleUnit.AU_Radian } ∧
    (0 ≤ (GEOtoRAD eps ellipsoid TRangeUnit.RU_Meter TAngleUnit.AU_Radian lat1 lon1 lat2 lon2).Az ∧
      (GEOtoRAD eps ellipsoid TRangeUnit.RU_Meter TAngleUnit.AU_Radian lat1 lon1 lat2 lon2).Az
        < 2 * Real.pi) ∧
    (0 ≤ (GEOtoRAD eps ellipsoid TRangeUnit.RU_Meter TAngleUnit.AU_Radian lat1 lon1 lat2 lon2).AzEnd ∧
      (GEOtoRAD eps ellipsoid TRangeUnit.RU_Meter TAngleUnit.AU_Radian lat1 lon1 lat2 lon2).AzEnd
        < 2 * Real.pi) ∧
    RADtoGEO eps ellipsoid TRangeUnit.RU_Meter TAngleUnit.AU_Radian lat1 lon1 d az =
      { latEnd := Real.arcsin (Real.sin lat1 * Real.cos (d / ellipsoid.a) +
          Real.cos lat1 * Real.sin (d / ellipsoid.a) * Real.cos az),
        lonEnd := lon1 + atan2 (Real.sin (d / ellipsoid.a) * Real.sin az)
          (Real.cos lat1 * Real.cos (d / ellipsoid.a) -
            Real.sin lat1 * Real.sin (d / ellipsoid.a) * Real.cos az),
        azEnd := AngleTo360 (atan2 (Real.cos lat1 * Real.sin az)
          (Real.cos lat1 * Real.cos (d / ellipsoid.a) * Real.cos az -
            Real.sin lat1 * Real.sin (d / ellipsoid.a))) TAngleUnit.AU_Radian } := by
  have AngleTo360_nonneg := aux_17.1
  have AngleTo360_lt := aux_17.2
  have heq : AreEqualAbs eps ellipsoid.a ellipsoid.b := by
    simpa [Compare.AreEqualAbs, hab] using heps
  have hG : GEOtoRAD eps ellipsoid TRangeUnit.RU_Meter TAngleUnit.AU_Radian lat1 lon1 lat2 lon2 =
      { R := ellipsoid.a * Real.arccos (Real.sin lat1 * Real.sin lat2 +
          Real.cos lat1 * Real.cos lat2 * Real.cos (lon2 - lon1)),
        Az := AngleTo360 (atan2 (Real.cos lat2 * Real.sin (lon2 - lon1))
          (Real.cos lat1 * Real.sin lat2 - Real.sin lat1 * Real.cos lat2 * Real.cos (lon2 - lon1)))
          TAngleUnit.AU_Radian,
        AzEnd := AngleTo360 (atan2 (Real.cos lat1 * Real.sin (lon2 - lon1))
          (Real.cos lat1 * Real.sin lat2 * Real.cos (lon2 - lon1) - Real.sin lat1 * Real.cos lat2))
          TAngleUnit.AU_Radian } := by
    ((try unfold GEOtoRAD); (try unfold GEOtoRADSphere); try simp only [CEllipsoid.A, CEllipsoid.B, heq, if_true, toRadian,
      fromRadian, fromMeter])
    rw [mul_comm (Real.arccos _)]
  refine ⟨by ((try unfold GEOtoRADTrace); (try unfold CEllipsoid.B); (try unfold CEllipsoid.A); simp [heq]), hG, ?_, ?_, ?_⟩
  · rw [hG]
    exact ⟨AngleTo360_nonneg _ _, by simpa [fullTurn] using AngleTo360_lt _ TAngleUnit.AU_Radian⟩
  · rw [hG]
    exact ⟨AngleTo360_nonneg _ _, by simpa [fullTurn] using AngleTo360_lt _ TAngleUnit.AU_Radian⟩
  · ((try unfold RADtoGEO); (try unfold RADtoGEOSphere); try simp only [CEllipsoid.A, CEllipsoid.B, heq, if_true, toRadian,
      fromRadian, toMeter])

/-- Witness for C9: the unit sphere, exact comparisons. -/
theorem sphere_degeneracy_witness :
    GEOtoRADTrace 0 { name := "sphere", a := 1, b := 1, f := 0, invf := DoubleArg.posInf }
      TAngleUnit.AU_Radian 0 0 0 1 = none :=
  (sphere_degeneracy 0 le_rfl
    { name := "sphere", a := 1, b := 1, f := 0, invf := DoubleArg.posInf } rfl
    TAngleUnit.AU_Radian 0 0 0 1 0 0).1

/-! ## Azimuth normalisation -/

/-- C8: every azimuth returned by `GEOtoRAD` (`az`, `azEnd`), by `RADtoGEO`
(`azEnd`) and by `ENUtoAER` (`az`) lies in `[0, 2π)` for the radian unit and in
`[0, 360)` for the degree unit. -/
theorem azimuth_normalised (eps : ℝ) (ellipsoid : CEllipsoid) (rangeUnit : TRangeUnit)
    (angleUnit : TAngleUnit) (p q r t : ℝ) :
    IsNormalisedAzimuth angleUnit (GEOtoRAD eps ellipsoid rangeUnit angleUnit p q r t).Az ∧
    IsNormalisedAzimuth angleUnit (GEOtoRAD eps ellipsoid rangeUnit angleUnit p q r t).AzEnd ∧
    IsNormalisedAzimuth angleUnit (RADtoGEO eps ellipsoid rangeUnit angleUnit p q r t).azEnd ∧
    IsNormalisedAzimuth angleUnit (ENUtoAER rangeUnit angleUnit p q r).A := by
  have fullTurn_pos := aux_3
  have AngleTo360_nonneg := aux_17.1
  have AngleTo360_lt := aux_17.2
  have fromRadian_normalised (au : TAngleUnit) (x : ℝ)
      (h : IsNormalisedAzimuth TAngleUnit.AU_Radian x) :
      IsNormalisedAzimuth au (fromRadian au x) := by
    cases au
    · simpa [fromRadian] using h
    · obtain ⟨h0, h1⟩ := h
      have hpi := Real.pi_pos
      simp only [fullTurn] at h1
      refine ⟨?_, ?_⟩
      · simp only [fromRadian, RdToDgD]; positivity
      · simp only [fromRadian, RdToDgD, fullTurn]
        rw [mul_div_assoc', div_lt_iff₀ hpi]
        linarith
  have AngleTo360_normalised (x : ℝ) (au : TAngleUnit) :
      IsNormalisedAzimuth au (AngleTo360 x au) :=
    ⟨AngleTo360_nonneg x au, AngleTo360_lt x au⟩
  have hzero : IsNormalisedAzimuth angleUnit 0 := ⟨le_rfl, fullTurn_pos angleUnit⟩
  have hG : IsNormalisedAzimuth angleUnit (GEOtoRAD eps ellipsoid rangeUnit angleUnit p q r t).Az ∧
      IsNormalisedAzimuth angleUnit (GEOtoRAD eps ellipsoid rangeUnit angleUnit p q r t).AzEnd := by
    unfold GEOtoRAD
    by_cases hs : AreEqualAbs eps ellipsoid.A ellipsoid.B
    · simp only [hs, if_true]
      exact ⟨fromRadian_normalised _ _ (AngleTo360_normalised _ _),
        fromRadian_normalised _ _ (AngleTo360_normalised _ _)⟩
    · simp only [hs, if_false]
      cases GEOtoRADLoop eps ellipsoid.F (toRadian angleUnit p) (toRadian angleUnit q)
        (toRadian angleUnit r) (toRadian angleUnit t) with
      | coincident n => norm_num [hzero]
      | finished v n =>
        exact ⟨fromRadian_normalised _ _ (AngleTo360_normalised _ _),
          fromRadian_normalised _ _ (AngleTo360_normalised _ _)⟩
  refine ⟨hG.1, hG.2, ?_, ?_⟩
  · unfold RADtoGEO
    by_cases hs : AreEqualAbs eps ellipsoid.A ellipsoid.B
    · simp only [hs, if_true]
      exact fromRadian_normalised _ _ (AngleTo360_normalised _ _)
    · simp only [hs, if_false]
      exact fromRadian_normalised _ _ (AngleTo360_normalised _ _)
  · exact fromRadian_normalised _ _ (AngleTo360_normalised _ _)

/-! ## ECEF and the local tangent plane -/

/-- C3: for an ellipsoid with `0 < b ≤ a` (and `a * a` not zero for the
comparison tolerance), every anchor, every ECEF point and every unit choice,
`ECEFtoENU` returns a vector and `ENUtoECEF` applied to it with the same anchor
and units returns exactly the point `(x, y, z)`. -/
theorem ECEF_ENU_roundtrip (eps : ℝ) (ellipsoid : CEllipsoid) (hb : 0 < ellipsoid.b)
    (hba : ellipsoid.b ≤ ellipsoid.a) (heps : eps < ellipsoid.a * ellipsoid.a)
    (rangeUnit : TRangeUnit) (angleUnit : TAngleUnit) (x y z lat lon h : ℝ) :
    ∃ enu, ECEFtoENU eps ellipsoid rangeUnit angleUnit x y z lat lon h = some enu ∧
      ENUtoECEF eps ellipsoid rangeUnit angleUnit enu.E enu.N enu.U lat lon h
        = some { X := x, Y := y, Z := z } := by
  have GEOtoECEF_isSome := aux_5
  obtain ⟨r, hr⟩ := GEOtoECEF_isSome eps ellipsoid hb hba heps TRangeUnit.RU_Meter
    TAngleUnit.AU_Radian (toRadian angleUnit lat) (toRadian angleUnit lon) (toMeter rangeUnit h)
  have h1 := Real.sin_sq_add_cos_sq (toRadian angleUnit lat)
  have h2 := Real.sin_sq_add_cos_sq (toRadian angleUnit lon)
  ((try unfold ECEFtoENU); try simp only [hr])
  refine ⟨_, rfl, ?_⟩
  ((try unfold ENUtoECEF); try simp only [hr, Option.some.injEq, XYZ.mk.injEq])
  cases rangeUnit
  · simp only [toMeter, fromMeter]
    refine ⟨?_, ?_, ?_⟩
    · linear_combination (x - r.X) * h2 + (Real.cos (toRadian angleUnit lon)) *
        ((Real.cos (toRadian angleUnit lon)) * (x - r.X) +
          (Real.sin (toRadian angleUnit lon)) * (y - r.Y)) * h1
    · linear_combination (y - r.Y) * h2 + (Real.sin (toRadian angleUnit lon)) *
        ((Real.cos (toRadian angleUnit lon)) * (x - r.X) +
          (Real.sin (toRadian angleUnit lon)) * (y - r.Y)) * h1
    · linear_combination (z - r.Z) * h1
  · simp only [toMeter, fromMeter]
    refine ⟨?_, ?_, ?_⟩
    · linear_combination (0.001 : ℝ) * ((x * 1000.0 - r.X) * h2 +
        (Real.cos (toRadian angleUnit lon)) *
        ((Real.cos (toRadian angleUnit lon)) * (x * 1000.0 - r.X) +
          (Real.sin (toRadian angleUnit lon)) * (y * 1000.0 - r.Y)) * h1)
    · linear_combination (0.001 : ℝ) * ((y * 1000.0 - r.Y) * h2 +
        (Real.sin (toRadian angleUnit lon)) *
        ((Real.cos (toRadian angleUnit lon)) * (x * 1000.0 - r.X) +
          (Real.sin (toRadian angleUnit lon)) * (y * 1000.0 - r.Y)) * h1)
    · linear_combination (0.001 : ℝ) * ((z * 1000.0 - r.Z) * h1)

/-- Witness for C3: WGS-84, exact comparisons, kilometres and degrees. -/
theorem ECEF_ENU_roundtrip_witness :
    ∃ enu, ECEFtoENU 0 WGS84 TRangeUnit.RU_Kilometer TAngleUnit.AU_Degree 4000 3000 2000 55 37 1
        = some enu ∧
      ENUtoECEF 0 WGS84 TRangeUnit.RU_Kilometer TAngleUnit.AU_Degree enu.E enu.N enu.U 55 37 1
        = some { X := 4000, Y := 3000, Z := 2000 } :=
  ECEF_ENU_roundtrip 0 WGS84 (by ((try unfold WGS84); norm_num)) (by ((try unfold WGS84); norm_num)) (by ((try unfold WGS84); norm_num))
    TRangeUnit.RU_Kilometer TAngleUnit.AU_Degree 4000 3000 2000 55 37 1

/-- C4: for every ENU vector, the zero vector and the vectors with
`east = north = 0` included, and every unit choice, `AERtoENU` applied to the
output of `ENUtoAER` returns exactly `(east, north, up)`. -/
theorem ENU_AER_roundtrip (rangeUnit : TRangeUnit) (angleUnit : TAngleUnit) (east north up : ℝ) :
    AERtoENU rangeUnit angleUnit (ENUtoAER rangeUnit angleUnit east north up).A
      (ENUtoAER rangeUnit angleUnit east north up).E
      (ENUtoAER rangeUnit angleUnit east north up).R = { E := east, N := north, U := up } ∧
    AERtoENU rangeUnit angleUnit (ENUtoAER rangeUnit angleUnit 0 0 up).A
      (ENUtoAER rangeUnit angleUnit 0 0 up).E
      (ENUtoAER rangeUnit angleUnit 0 0 up).R = { E := 0, N := 0, U := up } ∧
    AERtoENU rangeUnit angleUnit (ENUtoAER rangeUnit angleUnit 0 0 0).A
      (ENUtoAER rangeUnit angleUnit 0 0 0).E
      (ENUtoAER rangeUnit angleUnit 0 0 0).R = { E := 0, N := 0, U := 0 } := by
  have hypot_comm := aux_26.1
  have hypot_mul_sin_atan2 := aux_6.2.2
  have hypot_mul_cos_atan2 := aux_13.1
  have sin_AngleTo360 := aux_13.2.1
  have cos_AngleTo360 := aux_13.2.2
  have toRadian_fromRadian := aux_18
  have toMeter_fromMeter := aux_8
  have fromMeter_toMeter := aux_26.2
  have key : ∀ e n u : ℝ, AERtoENU rangeUnit angleUnit (ENUtoAER rangeUnit angleUnit e n u).A
      (ENUtoAER rangeUnit angleUnit e n u).E
      (ENUtoAER rangeUnit angleUnit e n u).R = { E := e, N := n, U := u } := by
    intro e n u
    ((try unfold AERtoENU); (try unfold ENUtoAER); try simp only [toRadian_fromRadian, toMeter_fromMeter, sin_AngleTo360,
      cos_AngleTo360, hypot_mul_sin_atan2, hypot_mul_cos_atan2, fromMeter_toMeter])
    rw [hypot_comm (toMeter rangeUnit e), hypot_mul_sin_atan2, hypot_mul_cos_atan2,
      fromMeter_toMeter, fromMeter_toMeter]
  exact ⟨key east north up, key 0 0 up, key 0 0 0⟩

/-! ## Equatorial lines in the Vincenty loop -/

/-- C5: on WGS-84, `GEOtoRAD` in Degree/Meter units from `(lat 0, lon 0)` to
`(lat 0, lon 1)` returns a distance within 0.01 m of 111319.49 m and the forward
azimuth `az = 90` degrees (for every comparison tolerance up to `1/100`). -/
theorem known_vector_distance_and_azimuth (eps : ℝ) (h1 : eps ≤ 1 / 100) :
    |(GEOtoRAD eps WGS84 TRangeUnit.RU_Meter TAngleUnit.AU_Degree 0 0 0 1).R - 111319.49| < 0.01 ∧
    (GEOtoRAD eps WGS84 TRangeUnit.RU_Meter TAngleUnit.AU_Degree 0 0 0 1).Az = 90 := by
  have geomSum_closed := aux_19.1
  have GEOtoRAD_known_vector := aux_19.2.2.2.2.2.2.2.2
  have known_vector_distance_bounds :
      |WGS84.b * (Real.pi / 180 * geomSum WGS84.f 6) - 111319.49| < 0.01 := by
    clear h1
    have hc : (1 - WGS84.f) * geomSum WGS84.f 6 = 1 - WGS84.f ^ 7 := geomSum_closed WGS84.f 6
    have hf7 : WGS84.f ^ 7 ≤ (1.0e-15 : ℝ) := by ((try unfold WGS84); norm_num)
    have hf7' : 0 ≤ WGS84.f ^ 7 := by ((try unfold WGS84); norm_num)
    have hb : WGS84.b = (1 - WGS84.f) * 6378137 := by ((try unfold WGS84); norm_num)
    have hR : WGS84.b * (Real.pi / 180 * geomSum WGS84.f 6) =
        6378137 / 180 * (Real.pi * (1 - WGS84.f ^ 7)) := by
      rw [hb, ← hc]; ring
    rw [hR]
    have h1 := Real.pi_gt_d20
    have h2 := Real.pi_lt_d20
    have hup : Real.pi * (1 - WGS84.f ^ 7) ≤ Real.pi := by
      nlinarith [Real.pi_pos]
    have hlo : Real.pi * (1 - 1.0e-15) ≤ Real.pi * (1 - WGS84.f ^ 7) := by
      apply mul_le_mul_of_nonneg_left _ Real.pi_pos.le
      linarith
    rw [abs_lt]
    constructor
    · norm_num at hlo h1 ⊢
      linarith
    · norm_num at hup h2 ⊢
      linarith
  rw [(GEOtoRAD_known_vector eps h1).1]
  exact ⟨known_vector_distance_bounds, rfl⟩

/-- Witness for C5: the exact comparisons (`eps = 0`). -/
theorem known_vector_distance_and_azimuth_witness :
    |(GEOtoRAD 0 WGS84 TRangeUnit.RU_Meter TAngleUnit.AU_Degree 0 0 0 1).R - 111319.49| < 0.01 ∧
    (GEOtoRAD 0 WGS84 TRangeUnit.RU_Meter TAngleUnit.AU_Degree 0 0 0 1).Az = 90 :=
  known_vector_distance_and_azimuth 0 (by norm_num)

/-- C6, as amended: on WGS-84, `GEOtoRAD` in Degree/Meter units from
`(lat 0, lon 0)` to `(lat 0, lon 1)` returns `azEnd = 90` degrees, the azimuth of
the line at the end point in the direction of travel. -/
theorem known_vector_azEnd (eps : ℝ) (h1 : eps ≤ 1 / 100) :
    (GEOtoRAD eps WGS84 TRangeUnit.RU_Meter TAngleUnit.AU_Degree 0 0 0 1).AzEnd = 90 := by
  have GEOtoRAD_known_vector := aux_19.2.2.2.2.2.2.2.2
  rw [(GEOtoRAD_known_vector eps h1).1]

/-- Witness for C6 as amended: the exact comparisons (`eps = 0`). -/
theorem known_vector_azEnd_witness :
    (GEOtoRAD 0 WGS84 TRangeUnit.RU_Meter TAngleUnit.AU_Degree 0 0 0 1).AzEnd = 90 :=
  known_vector_azEnd 0 (by norm_num)

/-- Counterexample to C6 as stated: the third output of the known vector is not
`270`, with exact comparisons and with the tolerance `1e-8`. -/
theorem known_vector_azEnd_ne_270 :
    (GEOtoRAD 0 WGS84 TRangeUnit.RU_Meter TAngleUnit.AU_Degree 0 0 0 1).AzEnd ≠ 270 ∧
    (GEOtoRAD 1.0e-8 WGS84 TRangeUnit.RU_Meter TAngleUnit.AU_Degree 0 0 0 1).AzEnd ≠ 270 := by
  have GEOtoRAD_known_vector := aux_19.2.2.2.2.2.2.2.2
  rw [(GEOtoRAD_known_vector 0 (by norm_num)).1, (GEOtoRAD_known_vector 1.0e-8 (by norm_num)).1]
  norm_num

/-! ## Geodetic to ECEF and back -/

/-- C1 (evaluation at the failing input): on WGS-84, in Degree/Meter units, the
point `(lat 0, lon 90, h 0)` goes to the ECEF point `(0, 6378137, 0)`, and
`ECEFtoGEO` of that point returns the height `sqrt 12756274 - 6378137`, more than
6374 km below the original height `0`: the round trip does not recover the
height within 1 mm. -/
theorem GEO_ECEF_roundtrip_height_off (eps : ℝ) (heps : eps < 6378137 * 6378137) :
    ∃ p, GEOtoECEF eps WGS84 TRangeUnit.RU_Meter TAngleUnit.AU_Degree 0 90 0 = some p ∧
      (ECEFtoGEO WGS84 TRangeUnit.RU_Meter TAngleUnit.AU_Degree p.X p.Y p.Z).Height
        = Real.sqrt 12756274 - 6378137 ∧
      (ECEFtoGEO WGS84 TRangeUnit.RU_Meter TAngleUnit.AU_Degree p.X p.Y p.Z).Height < -6374000 ∧
      ¬ |(ECEFtoGEO WGS84 TRangeUnit.RU_Meter TAngleUnit.AU_Degree p.X p.Y p.Z).Height - 0|
        ≤ 0.001 := by
  have atan2_pos_zero := aux_15
  have GEOtoECEF_equator_lon90 (eps : ℝ) (heps : eps < 6378137 * 6378137) :
      GEOtoECEF eps WGS84 TRangeUnit.RU_Meter TAngleUnit.AU_Degree 0 90 0 =
        some { X := 0, Y := 6378137, Z := 0 } := by
    have hz : ¬ IsZeroAbs eps (WGS84.a * WGS84.a) := by
      unfold Compare.IsZeroAbs
      rw [abs_of_nonneg (mul_self_nonneg _)]
      ((try unfold WGS84); norm_num)
      linarith
    have h90 : (90 : ℝ) * DgToRdD = Real.pi / 2 := by
      unfold DgToRdD; ring
    ((try unfold GEOtoECEF); try simp only [CEllipsoid.A, hz, if_false, toRadian, toMeter, zero_mul, h90,
      Real.sin_zero, Real.cos_zero, Real.cos_pi_div_two, Real.sin_pi_div_two, mul_zero])
    ((try unfold WGS84); norm_num)
  have ECEFtoGEO_equator_lon90 :
      ECEFtoGEO WGS84 TRangeUnit.RU_Meter TAngleUnit.AU_Degree 0 6378137 0 =
        { Lat := 0, Lon := 90, Height := Real.sqrt 12756274 - 6378137 } := by
    clear heps
    have hw : (0 : ℝ) < Real.sqrt 12756274 := Real.sqrt_pos.2 (by norm_num)
    have hdeg : Real.pi / 2 * RdToDgD = 90 := by
      unfold RdToDgD; field_simp; ring
    have hat : atan2 6378137 0 = Real.pi / 2 := atan2_pos_zero _ (by norm_num)
    ((try unfold ECEFtoGEO); (try unfold ECEFtoGEOAux); try simp only [toMeter, fromRadian])
    norm_num [hat, hdeg, hw.ne']
  refine ⟨_, GEOtoECEF_equator_lon90 eps heps, ?_⟩
  have hs : Real.sqrt 12756274 < 3572 := by
    rw [Real.sqrt_lt' (by norm_num)]
    norm_num
  rw [ECEFtoGEO_equator_lon90]
  show Real.sqrt 12756274 - 6378137 = Real.sqrt 12756274 - 6378137 ∧
    Real.sqrt 12756274 - 6378137 < -6374000 ∧ ¬ |Real.sqrt 12756274 - 6378137 - 0| ≤ 0.001
  refine ⟨rfl, by linarith, ?_⟩
  rw [sub_zero, abs_of_neg (by linarith)]
  norm_num
  linarith

/-- Witness for C1: the exact comparisons (`eps = 0`). -/
theorem GEO_ECEF_roundtrip_height_off_witness :
    ∃ p, GEOtoECEF 0 WGS84 TRangeUnit.RU_Meter TAngleUnit.AU_Degree 0 90 0 = some p ∧
      (ECEFtoGEO WGS84 TRangeUnit.RU_Meter TAngleUnit.AU_Degree p.X p.Y p.Z).Height
        = Real.sqrt 12756274 - 6378137 ∧
      (ECEFtoGEO WGS84 TRangeUnit.RU_Meter TAngleUnit.AU_Degree p.X p.Y p.Z).Height < -6374000 ∧
      ¬ |(ECEFtoGEO WGS84 TRangeUnit.RU_Meter TAngleUnit.AU_Degree p.X p.Y p.Z).Height - 0|
        ≤ 0.001 :=
  GEO_ECEF_roundtrip_height_off 0 (by norm_num)

/-! ## A nearly antipodal equatorial line: the loop does not converge -/

/-- Counterexample to C11 as stated: with the semi-minor axis authoritative the
constructor stores `f = 1/invf` whatever the axes are; for `a = 1`, `b = 1`,
`invf = 2` the stored flattening is `1/2` and `1 - b/a` is `0`. -/
theorem flattening_axes_counterexample :
    0 < (CEllipsoid.ctor 0 "e" 1 1 (DoubleArg.finite 2) false).a ∧
    (CEllipsoid.ctor 0 "e" 1 1 (DoubleArg.finite 2) false).f ≠
      1 - (CEllipsoid.ctor 0 "e" 1 1 (DoubleArg.finite 2) false).b /
        (CEllipsoid.ctor 0 "e" 1 1 (DoubleArg.finite 2) false).a := by
  ((try unfold CEllipsoid.ctor); norm_num [DoubleArg.recip])

/-- C11, as amended: for every ellipsoid produced by the constructor with `a ≠ 0`
and the inverse flattening authoritative (sphere case or not), the stored
flattening satisfies `f = 1 - b/a`. -/
theorem flattening_axes_consistent (eps : ℝ) (nm : String) (a bMinor : ℝ) (x : DoubleArg)
    (ha : a ≠ 0) :
    (CEllipsoid.ctor eps nm a bMinor x true).f =
      1 - (CEllipsoid.ctor eps nm a bMinor x true).b / (CEllipsoid.ctor eps nm a bMinor x true).a := by
  unfold CEllipsoid.ctor
  split_ifs with h1 h2
  · norm_num [div_self ha]
  · norm_num
    field_simp
  · exact absurd rfl h2

/-- Witness for C11 as amended: the WGS-84 data with exact comparisons. -/
theorem flattening_axes_consistent_witness :
    (CEllipsoid.ctor 0 "WGS84" 6378137 0 (DoubleArg.finite 298.257223563) true).f =
      1 - (CEllipsoid.ctor 0 "WGS84" 6378137 0 (DoubleArg.finite 298.257223563) true).b /
        (CEllipsoid.ctor 0 "WGS84" 6378137 0 (DoubleArg.finite 298.257223563) true).a :=
  flattening_axes_consistent 0 "WGS84" 6378137 0 (DoubleArg.finite 298.257223563) (by norm_num)

/-- Counterexample to C12 as stated: with `a = 1` and the authoritative inverse
flattening `1/2` the constructor stores `b = -1`, and with the inverse flattening
`-1` it stores `b = 2 > a`. -/
theorem axis_invariant_counterexample :
    0 < (CEllipsoid.ctor 0 "e" 1 0 (DoubleArg.finite (1 / 2)) true).a ∧
    (CEllipsoid.ctor 0 "e" 1 0 (DoubleArg.finite (1 / 2)) true).b = -1 ∧
    ¬ (0 < (CEllipsoid.ctor 0 "e" 1 0 (DoubleArg.finite (1 / 2)) true).b ∧
      (CEllipsoid.ctor 0 "e" 1 0 (DoubleArg.finite (1 / 2)) true).b ≤
        (CEllipsoid.ctor 0 "e" 1 0 (DoubleArg.finite (1 / 2)) true).a) ∧
    (CEllipsoid.ctor 0 "e" 1 0 (DoubleArg.finite (-1)) true).b = 2 ∧
    ¬ ((CEllipsoid.ctor 0 "e" 1 0 (DoubleArg.finite (-1)) true).b ≤
      (CEllipsoid.ctor 0 "e" 1 0 (DoubleArg.finite (-1)) true).a) := by
  have h1 : ¬ DoubleArg.IsZeroAbs 0 (DoubleArg.finite (1 / 2)) := by
    norm_num [DoubleArg.IsZeroAbs, Compare.IsZeroAbs]
  have h2 : ¬ DoubleArg.IsZeroAbs 0 (DoubleArg.finite (-1)) := by
    norm_num [DoubleArg.IsZeroAbs, Compare.IsZeroAbs]
  ((try unfold CEllipsoid.ctor); norm_num [DoubleArg.recip, DoubleArg.isinf, h1, h2])

/-- C12, as amended: for every ellipsoid produced by the constructor with `a > 0`
and the inverse flattening authoritative, the stored semi-minor axis satisfies
`0 < b ≤ a` when the inverse flattening is zero for the comparison tolerance, or
infinite, or finite and greater than `1`. -/
theorem axis_invariant (eps : ℝ) (nm : String) (a bMinor : ℝ) (x : DoubleArg) (ha : 0 < a)
    (hx : DoubleArg.IsZeroAbs eps x ∨ x.isinf = true ∨ ∃ v, x = DoubleArg.finite v ∧ 1 < v) :
    0 < (CEllipsoid.ctor eps nm a bMinor x true).b ∧
    (CEllipsoid.ctor eps nm a bMinor x true).b ≤ (CEllipsoid.ctor eps nm a bMinor x true).a := by
  unfold CEllipsoid.ctor
  split_ifs with h1 h2
  · exact ⟨ha, le_rfl⟩
  · have hv : ∃ v, x = DoubleArg.finite v ∧ 1 < v := by
      rcases hx with h | h | h
      · exact absurd ⟨rfl, Or.inl h⟩ h1
      · exact absurd ⟨rfl, Or.inr h⟩ h1
      · exact h
    obtain ⟨v, rfl, hv1⟩ := hv
    have hv0 : 0 < v := by linarith
    have hr : 1 / v < 1 := by rw [div_lt_one hv0]; exact hv1
    have hr0 : 0 < 1 / v := by positivity
    simp only [DoubleArg.recip]
    norm_num at hr ⊢
    have hi : 0 < v⁻¹ := inv_pos.2 hv0
    constructor
    · nlinarith
    · nlinarith
  · exact absurd rfl h2

/-- Witness for C12 as amended: the WGS-84 data with exact comparisons. -/
theorem axis_invariant_witness :
    0 < (CEllipsoid.ctor 0 "WGS84" 6378137 0 (DoubleArg.finite 298.257223563) true).b ∧
    (CEllipsoid.ctor 0 "WGS84" 6378137 0 (DoubleArg.finite 298.257223563) true).b ≤
      (CEllipsoid.ctor 0 "WGS84" 6378137 0 (DoubleArg.finite 298.257223563) true).a :=
  axis_invariant 0 "WGS84" 6378137 0 (DoubleArg.finite 298.257223563) (by norm_num)
    (Or.inr (Or.inr ⟨298.257223563, rfl, by norm_num⟩))

/-! ## `GEOtoECEF`: closed form and assertions -/

/-- C13: for an ellipsoid with `0 < b ≤ a` (and `a * a` not zero for the
comparison tolerance) and every `(lat, lon, h)` in Radian/Meter units,
`GEOtoECEF` returns `x = (v + h) cos lat cos lon`, `y = (v + h) cos lat sin lon`,
`z = (v (1 - e2) + h) sin lat` with `e2 = 1 - b^2/a^2` and
`v = a / sqrt (1 - e2 sin(lat)^2)`. -/
theorem GEOtoECEF_closed_form (eps : ℝ) (ellipsoid : CEllipsoid) (hb : 0 < ellipsoid.b)
    (hba : ellipsoid.b ≤ ellipsoid.a) (heps : eps < ellipsoid.a * ellipsoid.a)
    (lat lon h e2 v : ℝ) (he2 : e2 = 1 - ellipsoid.b ^ 2 / ellipsoid.a ^ 2)
    (hv : v = ellipsoid.a / Real.sqrt (1 - e2 * Real.sin lat ^ 2)) :
    GEOtoECEF eps ellipsoid TRangeUnit.RU_Meter TAngleUnit.AU_Radian lat lon h =
      some { X := (v + h) * Real.cos lat * Real.cos lon,
             Y := (v + h) * Real.cos lat * Real.sin lon,
             Z := (v * (1 - e2) + h) * Real.sin lat } := by
  have GEOtoECEF_closed := aux_16
  rw [hv, he2]
  exact GEOtoECEF_closed eps ellipsoid hb hba heps lat lon h

/-- Witness for C13: WGS-84 with exact comparisons at `(0.5, 1, 100)`. -/
theorem GEOtoECEF_closed_form_witness :
    GEOtoECEF 0 WGS84 TRangeUnit.RU_Meter TAngleUnit.AU_Radian 0.5 1 100 =
      some { X := (WGS84.a / Real.sqrt (1 - (1 - WGS84.b ^ 2 / WGS84.a ^ 2) *
                Real.sin 0.5 ^ 2) + 100) * Real.cos 0.5 * Real.cos 1,
             Y := (WGS84.a / Real.sqrt (1 - (1 - WGS84.b ^ 2 / WGS84.a ^ 2) *
                Real.sin 0.5 ^ 2) + 100) * Real.cos 0.5 * Real.sin 1,
             Z := (WGS84.a / Real.sqrt (1 - (1 - WGS84.b ^ 2 / WGS84.a ^ 2) *
                Real.sin 0.5 ^ 2) * (1 - (1 - WGS84.b ^ 2 / WGS84.a ^ 2)) + 100) *
                Real.sin 0.5 } :=
  GEOtoECEF_closed_form 0 WGS84 (by ((try unfold WGS84); norm_num)) (by ((try unfold WGS84); norm_num))
    (by ((try unfold WGS84); norm_num)) 0.5 1 100 _ _ rfl rfl

/-- C14: for an ellipsoid with `0 < b ≤ a` and every latitude, `a * a` is not
zero, `e2 = 1 - b^2/a^2` lies in `[0, 1)`, the radicand `1 - e2 sin(lat)^2` is
strictly positive and its square root is not zero; so `GEOtoECEF` returns a
point in every unit choice, for the exact zero test and for every comparison
tolerance below `a * a`. -/
theorem GEOtoECEF_assertions_hold (ellipsoid : CEllipsoid) (hb : 0 < ellipsoid.b)
    (hba : ellipsoid.b ≤ ellipsoid.a) (rangeUnit : TRangeUnit) (angleUnit : TAngleUnit)
    (lat lon h : ℝ) :
    ellipsoid.a * ellipsoid.a ≠ 0 ∧
    (0 ≤ ellipsoid.EccentricityFirstSquared ∧ ellipsoid.EccentricityFirstSquared < 1) ∧
    0 < 1 - ellipsoid.EccentricityFirstSquared *
      (Real.sin (toRadian angleUnit lat) * Real.sin (toRadian angleUnit lat)) ∧
    Real.sqrt (1 - ellipsoid.EccentricityFirstSquared *
      (Real.sin (toRadian angleUnit lat) * Real.sin (toRadian angleUnit lat))) ≠ 0 ∧
    (∃ r, GEOtoECEF 0 ellipsoid rangeUnit angleUnit lat lon h = some r) ∧
    (∀ eps, eps < ellipsoid.a * ellipsoid.a →
      ∃ r, GEOtoECEF eps ellipsoid rangeUnit angleUnit lat lon h = some r) := by
  have GEOtoECEF_arg_pos := aux_1
  have GEOtoECEF_isSome := aux_5
  have eccentricity_range := aux_28
  have ha : 0 < ellipsoid.a := lt_of_lt_of_le hb hba
  have harg := GEOtoECEF_arg_pos ellipsoid hb hba (toRadian angleUnit lat)
  refine ⟨(mul_pos ha ha).ne', eccentricity_range ellipsoid hb hba, harg,
    (Real.sqrt_pos.2 harg).ne', ?_, ?_⟩
  · exact GEOtoECEF_isSome 0 ellipsoid hb hba (mul_pos ha ha) rangeUnit angleUnit lat lon h
  · intro eps heps
    exact GEOtoECEF_isSome eps ellipsoid hb hba heps rangeUnit angleUnit lat lon h

/-- Witness for C14: WGS-84 at the pole, in kilometres and degrees. -/
theorem GEOtoECEF_assertions_hold_witness :
    ∃ r, GEOtoECEF 0 WGS84 TRangeUnit.RU_Kilometer TAngleUnit.AU_Degree 90 0 0 = some r :=
  (GEOtoECEF_assertions_hold WGS84 (by ((try unfold WGS84); norm_num)) (by ((try unfold WGS84); norm_num))
    TRangeUnit.RU_Kilometer TAngleUnit.AU_Degree 90 0 0).2.2.2.2.1

/-! ## Unit normalisation -/

/-- C15 (evaluation at the failing input): on WGS-84, `ECEF_offset` in
Degree/Kilometer units between `(0, 0, 0)` and `(0, 0, 1)` returns
`dX = 0.001`, while `0.001` times the Radian/Meter result on the converted
inputs (heights `0` and `1000`) is `dX = 1`: the heights are used unconverted. -/
theorem ECEF_offset_units_off (eps : ℝ) (heps : eps ≤ 1 / 100) :
    ECEF_offset eps WGS84 TRangeUnit.RU_Kilometer TAngleUnit.AU_Degree 0 0 0 0 0 1 =
      { X := 0.001, Y := 0, Z := 0 } ∧
    ECEF_offset eps WGS84 TRangeUnit.RU_Meter TAngleUnit.AU_Radian (0 * (Real.pi / 180))
      (0 * (Real.pi / 180)) (0 * 1000) (0 * (Real.pi / 180)) (0 * (Real.pi / 180)) (1 * 1000) =
      { X := 1000, Y := 0, Z := 0 } ∧
    (ECEF_offset eps WGS84 TRangeUnit.RU_Kilometer TAngleUnit.AU_Degree 0 0 0 0 0 1).X ≠
      0.001 * (ECEF_offset eps WGS84 TRangeUnit.RU_Meter TAngleUnit.AU_Radian
        (0 * (Real.pi / 180)) (0 * (Real.pi / 180)) (0 * 1000) (0 * (Real.pi / 180))
        (0 * (Real.pi / 180)) (1 * 1000)).X := by
  have WGS84_not_sphere := aux_11
  have hns : ¬ AreEqualAbs eps WGS84.a WGS84.b := WGS84_not_sphere eps heps
  have h1 : ECEF_offset eps WGS84 TRangeUnit.RU_Kilometer TAngleUnit.AU_Degree 0 0 0 0 0 1 =
      { X := 0.001, Y := 0, Z := 0 } := by
    ((try unfold ECEF_offset); try simp only [CEllipsoid.A, CEllipsoid.B, hns, if_false, fromMeter])
    norm_num
  have h2 : ECEF_offset eps WGS84 TRangeUnit.RU_Meter TAngleUnit.AU_Radian (0 * (Real.pi / 180))
      (0 * (Real.pi / 180)) (0 * 1000) (0 * (Real.pi / 180)) (0 * (Real.pi / 180)) (1 * 1000) =
      { X := 1000, Y := 0, Z := 0 } := by
    ((try unfold ECEF_offset); try simp only [CEllipsoid.A, CEllipsoid.B, hns, if_false, fromMeter])
    norm_num
  refine ⟨h1, h2, ?_⟩
  rw [h1, h2]
  norm_num

/-- Witness for C15: the exact comparisons (`eps = 0`). -/
theorem ECEF_offset_units_off_witness :
    (ECEF_offset 0 WGS84 TRangeUnit.RU_Kilometer TAngleUnit.AU_Degree 0 0 0 0 0 1).X ≠
      0.001 * (ECEF_offset 0 WGS84 TRangeUnit.RU_Meter TAngleUnit.AU_Radian
        (0 * (Real.pi / 180)) (0 * (Real.pi / 180)) (0 * 1000) (0 * (Real.pi / 180))
        (0 * (Real.pi / 180)) (1 * 1000)).X :=
  (ECEF_offset_units_off 0 (by norm_num)).2.2

/-- C16: for every ellipsoid and every pair of points, `GEOtoRAD` in
Degree/Kilometer units returns `(0.001 * d, az * 180/π, azEnd * 180/π)` where
`(d, az, azEnd)` is what it returns in Radian/Meter units on the four angles
multiplied by `π/180`; the loop runs the same way in both calls. -/
theorem GEOtoRAD_unit_normalisation (eps : ℝ) (ellipsoid : CEllipsoid)
    (latStart lonStart latEnd lonEnd : ℝ) :
    GEOtoRAD eps ellipsoid TRangeUnit.RU_Kilometer TAngleUnit.AU_Degree
        latStart lonStart latEnd lonEnd =
      { R := 0.001 * (GEOtoRAD eps ellipsoid TRangeUnit.RU_Meter TAngleUnit.AU_Radian
          (latStart * (Real.pi / 180)) (lonStart * (Real.pi / 180))
          (latEnd * (Real.pi / 180)) (lonEnd * (Real.pi / 180))).R,
        Az := (GEOtoRAD eps ellipsoid TRangeUnit.RU_Meter TAngleUnit.AU_Radian
          (latStart * (Real.pi / 180)) (lonStart * (Real.pi / 180))
          (latEnd * (Real.pi / 180)) (lonEnd * (Real.pi / 180))).Az * (180 / Real.pi),
        AzEnd := (GEOtoRAD eps ellipsoid TRangeUnit.RU_Meter TAngleUnit.AU_Radian
          (latStart * (Real.pi / 180)) (lonStart * (Real.pi / 180))
          (latEnd * (Real.pi / 180)) (lonEnd * (Real.pi / 180))).AzEnd * (180 / Real.pi) } ∧
    GEOtoRADTrace eps ellipsoid TAngleUnit.AU_Degree latStart lonStart latEnd lonEnd =
      GEOtoRADTrace eps ellipsoid TAngleUnit.AU_Radian (latStart * (Real.pi / 180))
        (lonStart * (Real.pi / 180)) (latEnd * (Real.pi / 180)) (lonEnd * (Real.pi / 180)) := by
  constructor
  · unfold GEOtoRAD
    by_cases hs : AreEqualAbs eps ellipsoid.A ellipsoid.B
    · simp only [hs, if_true, toRadian, fromRadian, fromMeter, DgToRdD, RdToDgD]
      rw [mul_comm (0.001 : ℝ)]
    · simp only [hs, if_false, toRadian, DgToRdD]
      cases GEOtoRADLoop eps ellipsoid.F (latStart * (Real.pi / 180))
        (lonStart * (Real.pi / 180)) (latEnd * (Real.pi / 180)) (lonEnd * (Real.pi / 180)) with
      | coincident n => norm_num
      | finished v n =>
        simp only [fromRadian, fromMeter, RdToDgD]
        rw [mul_comm (0.001 : ℝ)]
  · ((try unfold GEOtoRADTrace); try simp only [toRadian, DgToRdD])

/-! ## Local tangent plane: formulas and compositions -/

/-- C17: for an ellipsoid with `0 < b ≤ a` (and `a * a` not zero for the
comparison tolerance), every anchor and point in Radian/Meter units,
`GEOtoECEF` of the anchor returns a point `r` and `ECEFtoENU` returns the
standard rotation of the delta `(dx, dy, dz) = (x, y, z) - r`. -/
theorem ECEFtoENU_rotation (eps : ℝ) (ellipsoid : CEllipsoid) (hb : 0 < ellipsoid.b)
    (hba : ellipsoid.b ≤ ellipsoid.a) (heps : eps < ellipsoid.a * ellipsoid.a)
    (x y z lat lon h : ℝ) :
    ∃ r, GEOtoECEF eps ellipsoid TRangeUnit.RU_Meter TAngleUnit.AU_Radian lat lon h = some r ∧
      ECEFtoENU eps ellipsoid TRangeUnit.RU_Meter TAngleUnit.AU_Radian x y z lat lon h =
        some { E := -Real.sin lon * (x - r.X) + Real.cos lon * (y - r.Y),
               N := -Real.sin lat * Real.cos lon * (x - r.X) -
                 Real.sin lat * Real.sin lon * (y - r.Y) + Real.cos lat * (z - r.Z),
               U := Real.cos lat * Real.cos lon * (x - r.X) +
                 Real.cos lat * Real.sin lon * (y - r.Y) + Real.sin lat * (z - r.Z) } := by
  have GEOtoECEF_isSome := aux_5
  obtain ⟨r, hr⟩ := GEOtoECEF_isSome eps ellipsoid hb hba heps TRangeUnit.RU_Meter
    TAngleUnit.AU_Radian lat lon h
  refine ⟨r, hr, ?_⟩
  ((try unfold ECEFtoENU); try simp only [toRadian, toMeter, fromMeter, hr, Option.some.injEq, ENU.mk.injEq])
  refine ⟨trivial, ?_, ?_⟩ <;> ring

/-- Witness for C17: WGS-84 with exact comparisons. -/
theorem ECEFtoENU_rotation_witness :
    ∃ r, GEOtoECEF 0 WGS84 TRangeUnit.RU_Meter TAngleUnit.AU_Radian 1 2 3 = some r ∧
      ECEFtoENU 0 WGS84 TRangeUnit.RU_Meter TAngleUnit.AU_Radian 4 5 6 1 2 3 =
        some { E := -Real.sin 2 * (4 - r.X) + Real.cos 2 * (5 - r.Y),
               N := -Real.sin 1 * Real.cos 2 * (4 - r.X) -
                 Real.sin 1 * Real.sin 2 * (5 - r.Y) + Real.cos 1 * (6 - r.Z),
               U := Real.cos 1 * Real.cos 2 * (4 - r.X) +
                 Real.cos 1 * Real.sin 2 * (5 - r.Y) + Real.sin 1 * (6 - r.Z) } :=
  ECEFtoENU_rotation 0 WGS84 (by ((try unfold WGS84); norm_num)) (by ((try unfold WGS84); norm_num)) (by ((try unfold WGS84); norm_num))
    4 5 6 1 2 3

/-- C18: for an ellipsoid with `0 < b ≤ a` (and `a * a` not zero for the
comparison tolerance), every `(az, elev, range)`, every anchor and every unit
choice, `AERtoECEF` returns a point and it is the point that `ENUtoECEF` returns
on the output of `AERtoENU`. -/
theorem AERtoECEF_eq_ENUtoECEF (eps : ℝ) (ellipsoid : CEllipsoid) (hb : 0 < ellipsoid.b)
    (hba : ellipsoid.b ≤ ellipsoid.a) (heps : eps < ellipsoid.a * ellipsoid.a)
    (rangeUnit : TRangeUnit) (angleUnit : TAngleUnit) (az elev slantRange lat0 lon0 h0 : ℝ) :
    ∃ p, AERtoECEF eps ellipsoid rangeUnit angleUnit az elev slantRange lat0 lon0 h0 = some p ∧
      ENUtoECEF eps ellipsoid rangeUnit angleUnit
        (AERtoENU rangeUnit angleUnit az elev slantRange).E
        (AERtoENU rangeUnit angleUnit az elev slantRange).N
        (AERtoENU rangeUnit angleUnit az elev slantRange).U lat0 lon0 h0 = some p := by
  have GEOtoECEF_isSome := aux_5
  have toMeter_fromMeter := aux_8
  have toMeter_meter := aux_2
  have fromMeter_meter := aux_7
  have toRadian_radian := aux_4
  obtain ⟨r, hr⟩ := GEOtoECEF_isSome eps ellipsoid hb hba heps TRangeUnit.RU_Meter
    TAngleUnit.AU_Radian (toRadian angleUnit lat0) (toRadian angleUnit lon0)
    (toMeter rangeUnit h0)
  ((try unfold AERtoECEF); try simp only [hr])
  refine ⟨_, rfl, ?_⟩
  ((try unfold ENUtoUVW); (try unfold AERtoENU); (try unfold ENUtoECEF); try simp only [hr, toMeter_fromMeter, toMeter_meter,
    fromMeter_meter, toRadian_radian, Option.some.injEq, XYZ.mk.injEq])
  refine ⟨?_, ?_, ?_⟩ <;> congr 1 <;> ring

/-- Witness for C18: WGS-84 with exact comparisons, kilometres and degrees. -/
theorem AERtoECEF_eq_ENUtoECEF_witness :
    ∃ p, AERtoECEF 0 WGS84 TRangeUnit.RU_Kilometer TAngleUnit.AU_Degree 30 10 5 55 37 1 = some p ∧
      ENUtoECEF 0 WGS84 TRangeUnit.RU_Kilometer TAngleUnit.AU_Degree
        (AERtoENU TRangeUnit.RU_Kilometer TAngleUnit.AU_Degree 30 10 5).E
        (AERtoENU TRangeUnit.RU_Kilometer TAngleUnit.AU_Degree 30 10 5).N
        (AERtoENU TRangeUnit.RU_Kilometer TAngleUnit.AU_Degree 30 10 5).U 55 37 1 = some p :=
  AERtoECEF_eq_ENUtoECEF 0 WGS84 (by ((try unfold WGS84); norm_num)) (by ((try unfold WGS84); norm_num))
    (by ((try unfold WGS84); norm_num)) TRangeUnit.RU_Kilometer TAngleUnit.AU_Degree 30 10 5 55 37 1

/-- C19: in every unit setting `GEOtoAER` is `ENUtoAER` applied to the output of
`GEOtoENU` with the same units (and fails exactly when `GEOtoENU` fails); for an
ellipsoid with `0 < b ≤ a` and `a * a` not zero for the tolerance both return a
value. -/
theorem GEOtoAER_composition (eps : ℝ) (ellipsoid : CEllipsoid) (rangeUnit : TRangeUnit)
    (angleUnit : TAngleUnit) (lat1 lon1 h1 lat2 lon2 h2 : ℝ) :
    GEOtoAER eps ellipsoid rangeUnit angleUnit lat1 lon1 h1 lat2 lon2 h2 =
      (GEOtoENU eps ellipsoid rangeUnit angleUnit lat1 lon1 h1 lat2 lon2 h2).map
        (fun enu => ENUtoAER rangeUnit angleUnit enu.E enu.N enu.U) ∧
    (0 < ellipsoid.b → ellipsoid.b ≤ ellipsoid.a → eps < ellipsoid.a * ellipsoid.a →
      ∃ enu, GEOtoENU eps ellipsoid rangeUnit angleUnit lat1 lon1 h1 lat2 lon2 h2 = some enu ∧
        GEOtoAER eps ellipsoid rangeUnit angleUnit lat1 lon1 h1 lat2 lon2 h2 =
          some (ENUtoAER rangeUnit angleUnit enu.E enu.N enu.U)) := by
  have GEOtoECEF_isSome := aux_5
  have toMeter_fromMeter := aux_8
  have toMeter_meter := aux_2
  have fromMeter_meter := aux_7
  have toRadian_radian := aux_4
  have fromRadian_radian := aux_20
  have key : GEOtoAER eps ellipsoid rangeUnit angleUnit lat1 lon1 h1 lat2 lon2 h2 =
      (GEOtoENU eps ellipsoid rangeUnit angleUnit lat1 lon1 h1 lat2 lon2 h2).map
        (fun enu => ENUtoAER rangeUnit angleUnit enu.E enu.N enu.U) := by
    ((try unfold GEOtoAER); (try unfold GEOtoENU); try simp only [toRadian_radian, toMeter_meter, fromMeter_meter])
    cases GEOtoECEF eps ellipsoid TRangeUnit.RU_Meter TAngleUnit.AU_Radian
      (toRadian angleUnit lat1) (toRadian angleUnit lon1) (toMeter rangeUnit h1) with
    | none => rfl
    | some p =>
      cases GEOtoECEF eps ellipsoid TRangeUnit.RU_Meter TAngleUnit.AU_Radian
        (toRadian angleUnit lat2) (toRadian angleUnit lon2) (toMeter rangeUnit h2) with
      | none => rfl
      | some p0 =>
        ((try unfold ENUtoAER); try simp only [Option.map_some', toMeter_fromMeter, toMeter_meter, fromMeter_meter,
          fromRadian_radian])
  refine ⟨key, ?_⟩
  intro hb hba heps
  obtain ⟨p, hp⟩ := GEOtoECEF_isSome eps ellipsoid hb hba heps TRangeUnit.RU_Meter
    TAngleUnit.AU_Radian (toRadian angleUnit lat1) (toRadian angleUnit lon1)
    (toMeter rangeUnit h1)
  obtain ⟨p0, hp0⟩ := GEOtoECEF_isSome eps ellipsoid hb hba heps TRangeUnit.RU_Meter
    TAngleUnit.AU_Radian (toRadian angleUnit lat2) (toRadian angleUnit lon2)
    (toMeter rangeUnit h2)
  have hE : ∃ enu, GEOtoENU eps ellipsoid rangeUnit angleUnit lat1 lon1 h1 lat2 lon2 h2
      = some enu := by
    ((try unfold GEOtoENU); try simp only [hp, hp0])
    exact ⟨_, rfl⟩
  obtain ⟨enu, henu⟩ := hE
  exact ⟨enu, henu, by rw [key, henu]; rfl⟩

/-! ## Termination of the inverse solver -/

/-- C20: for every ellipsoid and every pair of input points in every unit,
`GEOtoRAD` either takes the spherical branch (no pass through the loop body) or
leaves its loop after at least one and at most 100 passes through the body. -/
theorem inverse_solver_bounded (eps : ℝ) (ellipsoid : CEllipsoid) (angleUnit : TAngleUnit)
    (latStart lonStart latEnd lonEnd : ℝ) :
    GEOtoRADTrace eps ellipsoid angleUnit latStart lonStart latEnd lonEnd = none ∨
    ∃ e, GEOtoRADTrace eps ellipsoid angleUnit latStart lonStart latEnd lonEnd = some e ∧
      1 ≤ e.passes ∧ e.passes ≤ 100 := by
  have inverseLoop_passes (eps f L sinU1 cosU1 sinU2 cosU2 : ℝ) (limit : ℕ) :
      ∀ (p : ℕ) (lambda : ℝ),
        p + 1 ≤ (inverseLoop eps f L sinU1 cosU1 sinU2 cosU2 limit p lambda).passes ∧
        (inverseLoop eps f L sinU1 cosU1 sinU2 cosU2 limit p lambda).passes ≤ p + max limit 1 := by
    induction limit with
    | zero =>
      intro p lambda
      rw [inverseLoop]
      split_ifs <;> simp [InverseExit.passes]
    | succ n ih =>
      intro p lambda
      rw [inverseLoop]
      split_ifs with h1 h2
      · simp [InverseExit.passes]
      · obtain ⟨hlo, hhi⟩ := ih (p + 1)
          (inversePass f L sinU1 cosU1 sinU2 cosU2 lambda).lambda
        have hn : 0 < n := h2.2
        have hmax : max n 1 = n := max_eq_left hn
        have hmax2 : max (n + 1) 1 = n + 1 := max_eq_left (by omega)
        rw [hmax] at hhi
        rw [hmax2]
        constructor <;> omega
      · simp [InverseExit.passes]
  unfold GEOtoRADTrace
  split_ifs with hs
  · exact Or.inl rfl
  · refine Or.inr ⟨_, rfl, ?_⟩
    unfold GEOtoRADLoop
    have h := inverseLoop_passes eps ellipsoid.F
      (toRadian angleUnit lonEnd - toRadian angleUnit lonStart)
      (Real.sin (reducedLat ellipsoid.F (toRadian angleUnit latStart)))
      (Real.cos (reducedLat ellipsoid.F (toRadian angleUnit latStart)))
      (Real.sin (reducedLat ellipsoid.F (toRadian angleUnit latEnd)))
      (Real.cos (reducedLat ellipsoid.F (toRadian angleUnit latEnd))) 100 0
      (toRadian angleUnit lonEnd - toRadian angleUnit lonStart)
    simpa using h

/-! ## Vector utilities and rotations -/

/-- C22: for all reals the sum of the squared coordinate differences is
non-negative, so the assertion of `XYZtoDistance` holds and the function returns
`sqrt ((x1-x2)^2 + (y1-y2)^2 + (z1-z2)^2)`; the result is symmetric in the two
points and is `0` exactly when the two points are equal. -/
theorem XYZtoDistance_euclidean (x1 y1 z1 x2 y2 z2 : ℝ) :
    0 ≤ (x1 - x2) * (x1 - x2) + (y1 - y2) * (y1 - y2) + (z1 - z2) * (z1 - z2) ∧
    XYZtoDistance x1 y1 z1 x2 y2 z2 =
      some (Real.sqrt ((x1 - x2) ^ 2 + (y1 - y2) ^ 2 + (z1 - z2) ^ 2)) ∧
    XYZtoDistance x1 y1 z1 x2 y2 z2 = XYZtoDistance x2 y2 z2 x1 y1 z1 ∧
    (XYZtoDistance x1 y1 z1 x2 y2 z2 = some 0 ↔ x1 = x2 ∧ y1 = y2 ∧ z1 = z2) := by
  have hnn : 0 ≤ (x1 - x2) * (x1 - x2) + (y1 - y2) * (y1 - y2) + (z1 - z2) * (z1 - z2) := by
    linarith [mul_self_nonneg (x1 - x2), mul_self_nonneg (y1 - y2), mul_self_nonneg (z1 - z2)]
  have hnn' : 0 ≤ (x2 - x1) * (x2 - x1) + (y2 - y1) * (y2 - y1) + (z2 - z1) * (z2 - z1) := by
    linarith [mul_self_nonneg (x2 - x1), mul_self_nonneg (y2 - y1), mul_self_nonneg (z2 - z1)]
  have h1 : XYZtoDistance x1 y1 z1 x2 y2 z2 =
      some (Real.sqrt ((x1 - x2) ^ 2 + (y1 - y2) ^ 2 + (z1 - z2) ^ 2)) := by
    ((try unfold XYZtoDistance); try simp only [ge_iff_le, hnn, if_true, sq])
  have h2 : XYZtoDistance x2 y2 z2 x1 y1 z1 =
      some (Real.sqrt ((x1 - x2) ^ 2 + (y1 - y2) ^ 2 + (z1 - z2) ^ 2)) := by
    ((try unfold XYZtoDistance); try simp only [ge_iff_le, hnn', if_true])
    congr 2
    ring
  refine ⟨hnn, h1, by rw [h1, h2], ?_⟩
  rw [h1, Option.some.injEq, Real.sqrt_eq_zero (by positivity)]
  have sx := sq_nonneg (x1 - x2)
  have sy := sq_nonneg (y1 - y2)
  have sz := sq_nonneg (z1 - z2)
  constructor
  · intro h
    have hx : (x1 - x2) ^ 2 = 0 := by linarith
    have hy : (y1 - y2) ^ 2 = 0 := by linarith
    have hz : (z1 - z2) ^ 2 = 0 := by linarith
    have hx0 : x1 - x2 = 0 := by simpa using hx
    have hy0 : y1 - y2 = 0 := by simpa using hy
    have hz0 : z1 - z2 = 0 := by simpa using hz
    exact ⟨sub_eq_zero.1 hx0, sub_eq_zero.1 hy0, sub_eq_zero.1 hz0⟩
  · rintro ⟨rfl, rfl, rfl⟩
    simp

/-- C23: for every anchor latitude and longitude, every ENU vector and every unit
choice, the output of `ENUtoUVW` has the same sum of squares as the input, the
zero vector goes to the zero vector, and the output is the same for every
ellipsoid passed in. -/
theorem ENUtoUVW_rotation (e1 e2 : CEllipsoid) (rangeUnit : TRangeUnit)
    (angleUnit : TAngleUnit) (east north up lat0 lon0 : ℝ) :
    (ENUtoUVW e1 rangeUnit angleUnit east north up lat0 lon0).U ^ 2 +
      (ENUtoUVW e1 rangeUnit angleUnit east north up lat0 lon0).V ^ 2 +
      (ENUtoUVW e1 rangeUnit angleUnit east north up lat0 lon0).W ^ 2 =
      east ^ 2 + north ^ 2 + up ^ 2 ∧
    ENUtoUVW e1 rangeUnit angleUnit 0 0 0 lat0 lon0 = { U := 0, V := 0, W := 0 } ∧
    ENUtoUVW e1 rangeUnit angleUnit east north up lat0 lon0 =
      ENUtoUVW e2 rangeUnit angleUnit east north up lat0 lon0 := by
  have h1 := Real.sin_sq_add_cos_sq (toRadian angleUnit lat0)
  have h2 := Real.sin_sq_add_cos_sq (toRadian angleUnit lon0)
  refine ⟨?_, ?_, rfl⟩
  · cases rangeUnit
    · ((try unfold ENUtoUVW); try simp only [toMeter, fromMeter])
      linear_combination (east ^ 2 + (Real.cos (toRadian angleUnit lat0) * up -
        Real.sin (toRadian angleUnit lat0) * north) ^ 2) * h2 + (north ^ 2 + up ^ 2) * h1
    · ((try unfold ENUtoUVW); try simp only [toMeter, fromMeter])
      linear_combination (0.001 : ℝ) ^ 2 * 1000.0 ^ 2 * ((east ^ 2 +
        (Real.cos (toRadian angleUnit lat0) * up -
        Real.sin (toRadian angleUnit lat0) * north) ^ 2) * h2 + (north ^ 2 + up ^ 2) * h1)
  · cases rangeUnit <;> ((try unfold ENUtoUVW); simp [toMeter, fromMeter])

/-! ## Geodetic coordinates from ECEF -/

/-- C24: the axis distance squared that `ECEFtoGEO` uses is `x * x + y + y`, not
`x^2 + y^2`: at `(0, 300000, 400000)` metres `ECEFtoGEO` has `w2 = 600000`,
`r2 = 160000600000`, `s2 = 800000/800003` and `c2 = 3/800003`, where the reference
routine `latlon` does not leave at its test `r < 100000.` and has `w2 = 9e10`,
`r2 = 2.5e11`, `r = 500000`, `s2 = 16/25` and `c2 = 9/25`; the values of
`ECEFtoGEO` still have `s2 + c2 = 1`.  In general the quantities of `ECEFtoGEO`
are those that `latlon` computes when it does not leave early, with
`x * x + y + y` in place of `x * x + y * y`. -/
theorem ECEFtoGEOAux_axis_distance_off :
    (∀ x y z : ℝ, (ECEFtoGEOAux x y z).w2 = x * x + y + y ∧
      (ECEFtoGEOAux x y z).r = Real.sqrt (x * x + y + y + z * z) ∧
      (ECEFtoGEOAux x y z).s2 = z * z / (x * x + y + y + z * z) ∧
      (ECEFtoGEOAux x y z).c2 = (x * x + y + y) / (x * x + y + y + z * z) ∧
      latlonAux x y z =
        if Real.sqrt (x ^ 2 + y ^ 2 + z ^ 2) < 100000 then none
        else some { zp := |z|, w2 := x ^ 2 + y ^ 2, w := Real.sqrt (x ^ 2 + y ^ 2),
                    z2 := z ^ 2, r2 := x ^ 2 + y ^ 2 + z ^ 2,
                    r := Real.sqrt (x ^ 2 + y ^ 2 + z ^ 2),
                    s2 := z ^ 2 / (x ^ 2 + y ^ 2 + z ^ 2),
                    c2 := (x ^ 2 + y ^ 2) / (x ^ 2 + y ^ 2 + z ^ 2) }) ∧
    latlonAux 0 300000 400000 =
      some { zp := 400000, w2 := 90000000000, w := 300000, z2 := 160000000000,
             r2 := 250000000000, r := 500000, s2 := 16 / 25, c2 := 9 / 25 } ∧
    (ECEFtoGEOAux 0 300000 400000).w2 = 600000 ∧
    (ECEFtoGEOAux 0 300000 400000).r2 = 160000600000 ∧
    (ECEFtoGEOAux 0 300000 400000).s2 = 800000 / 800003 ∧
    (ECEFtoGEOAux 0 300000 400000).c2 = 3 / 800003 ∧
    (ECEFtoGEOAux 0 300000 400000).s2 + (ECEFtoGEOAux 0 300000 400000).c2 = 1 ∧
    (ECEFtoGEOAux 0 300000 400000).r ≠ 500000 := by
  have hr : Real.sqrt ((0 : ℝ) * 0 + 300000 * 300000 + 400000 * 400000) = 500000 := by
    rw [show (0 : ℝ) * 0 + 300000 * 300000 + 400000 * 400000 = 500000 ^ 2 by norm_num]
    exact Real.sqrt_sq (by norm_num)
  have hw : Real.sqrt ((0 : ℝ) * 0 + 300000 * 300000) = 300000 := by
    rw [show (0 : ℝ) * 0 + 300000 * 300000 = 300000 ^ 2 by norm_num]
    exact Real.sqrt_sq (by norm_num)
  refine ⟨fun x y z => ⟨rfl, rfl, rfl, rfl, ?_⟩, ?_, ?_, ?_, ?_, ?_, ?_, ?_⟩
  · ((try unfold latlonAux); try simp only [sq])
    norm_num
  · ((try unfold latlonAux); try simp only [hr, hw])
    norm_num
  · ((try unfold ECEFtoGEOAux); norm_num)
  · ((try unfold ECEFtoGEOAux); norm_num)
  · ((try unfold ECEFtoGEOAux); norm_num)
  · ((try unfold ECEFtoGEOAux); norm_num)
  · ((try unfold ECEFtoGEOAux); norm_num)
  · have h1 : (ECEFtoGEOAux 0 300000 400000).r = Real.sqrt 160000600000 := by
      ((try unfold ECEFtoGEOAux); try simp only)
      norm_num
    rw [h1]
    intro h
    have h3 := Real.sq_sqrt (show (0 : ℝ) ≤ 160000600000 by norm_num)
    rw [h] at h3
    norm_num at h3

/-- C25: for every ellipsoid and every `(x, y, z)` in Radian/Meter units the
longitude returned by `ECEFtoGEO` is `atan2 y x`, and for `z ≠ 0` the call at
`(x, y, -z)` returns the same longitude and height and the negated latitude. -/
theorem ECEFtoGEO_hemisphere_symmetry (ellipsoid : CEllipsoid) (x y z : ℝ) (hz : z ≠ 0) :
    (ECEFtoGEO ellipsoid TRangeUnit.RU_Meter TAngleUnit.AU_Radian x y z).Lon = atan2 y x ∧
    (ECEFtoGEO ellipsoid TRangeUnit.RU_Meter TAngleUnit.AU_Radian x y (-z)).Lon =
      (ECEFtoGEO ellipsoid TRangeUnit.RU_Meter TAngleUnit.AU_Radian x y z).Lon ∧
    (ECEFtoGEO ellipsoid TRangeUnit.RU_Meter TAngleUnit.AU_Radian x y (-z)).Height =
      (ECEFtoGEO ellipsoid TRangeUnit.RU_Meter TAngleUnit.AU_Radian x y z).Height ∧
    (ECEFtoGEO ellipsoid TRangeUnit.RU_Meter TAngleUnit.AU_Radian x y (-z)).Lat =
      -(ECEFtoGEO ellipsoid TRangeUnit.RU_Meter TAngleUnit.AU_Radian x y z).Lat := by
  have toMeter_meter := aux_2
  have fromRadian_radian := aux_20
  have haux : ECEFtoGEOAux x y (-z) = ECEFtoGEOAux x y z := by
    ((try unfold ECEFtoGEOAux); try simp only [abs_neg, neg_mul_neg])
  refine ⟨rfl, rfl, ?_, ?_⟩
  · ((try unfold ECEFtoGEO); try simp only [toMeter_meter, haux])
  · ((try unfold ECEFtoGEO); try simp only [toMeter_meter, fromRadian_radian, haux])
    rcases lt_or_gt_of_ne hz with h | h
    · have h1 : (-z) < (0.0 : ℝ) ↔ False := by
        norm_num
        linarith
      have h2 : z < (0.0 : ℝ) ↔ True := by
        norm_num
        exact h
      simp only [h1, h2, if_true, if_false, neg_neg]
    · have h1 : (-z) < (0.0 : ℝ) ↔ True := by
        norm_num
        exact h
      have h2 : z < (0.0 : ℝ) ↔ False := by
        norm_num
        linarith
      simp only [h1, h2, if_true, if_false]

/-- Witness for C25: WGS-84 at `(3000000, 4000000, 5000000)` metres. -/
theorem ECEFtoGEO_hemisphere_symmetry_witness :
    (ECEFtoGEO WGS84 TRangeUnit.RU_Meter TAngleUnit.AU_Radian 3000000 4000000 5000000).Lon =
      atan2 4000000 3000000 ∧
    (ECEFtoGEO WGS84 TRangeUnit.RU_Meter TAngleUnit.AU_Radian 3000000 4000000 (-5000000)).Lon =
      (ECEFtoGEO WGS84 TRangeUnit.RU_Meter TAngleUnit.AU_Radian 3000000 4000000 5000000).Lon ∧
    (ECEFtoGEO WGS84 TRangeUnit.RU_Meter TAngleUnit.AU_Radian 3000000 4000000
        (-5000000)).Height =
      (ECEFtoGEO WGS84 TRangeUnit.RU_Meter TAngleUnit.AU_Radian 3000000 4000000
        5000000).Height ∧
    (ECEFtoGEO WGS84 TRangeUnit.RU_Meter TAngleUnit.AU_Radian 3000000 4000000 (-5000000)).Lat =
      -(ECEFtoGEO WGS84 TRangeUnit.RU_Meter TAngleUnit.AU_Radian 3000000 4000000 5000000).Lat :=
  ECEFtoGEO_hemisphere_symmetry WGS84 3000000 4000000 5000000 (by norm_num)

/-- C26: two ellipsoids with the same flattening `f`, whatever their semi-axes,
give the same `(lat, lon, h)` in `ECEFtoGEO` for every `(x, y, z)` and every unit
choice. -/
theorem ECEFtoGEO_depends_on_flattening_only (e1 e2 : CEllipsoid)
    (hf : e1.F = e2.F)
    (rangeUnit : TRangeUnit) (angleUnit : TAngleUnit) (x y z : ℝ) :
    ECEFtoGEO e1 rangeUnit angleUnit x y z = ECEFtoGEO e2 rangeUnit angleUnit x y z := by
  ((try unfold ECEFtoGEO); try simp only [hf])

/-- Witness for C26: the ellipsoids that the constructor builds from the axes
`(2, 1)` and `(4, 2)` with inverse flattening `2` have the same flattening and
different axes. -/
theorem ECEFtoGEO_depends_on_flattening_only_witness :
    (CEllipsoid.ctor 0 "one" 2 1 (DoubleArg.finite 2) false).A ≠
      (CEllipsoid.ctor 0 "two" 4 2 (DoubleArg.finite 2) false).A ∧
    (CEllipsoid.ctor 0 "one" 2 1 (DoubleArg.finite 2) false).B ≠
      (CEllipsoid.ctor 0 "two" 4 2 (DoubleArg.finite 2) false).B ∧
    ECEFtoGEO (CEllipsoid.ctor 0 "one" 2 1 (DoubleArg.finite 2) false)
        TRangeUnit.RU_Kilometer TAngleUnit.AU_Degree 3000 4000 5000 =
      ECEFtoGEO (CEllipsoid.ctor 0 "two" 4 2 (DoubleArg.finite 2) false)
        TRangeUnit.RU_Kilometer TAngleUnit.AU_Degree 3000 4000 5000 :=
  ⟨by ((try unfold CEllipsoid.A); (try unfold CEllipsoid.ctor); norm_num), by ((try unfold CEllipsoid.B); (try unfold CEllipsoid.ctor); norm_num),
    ECEFtoGEO_depends_on_flattening_only _ _
      (by ((try unfold CEllipsoid.F); (try unfold CEllipsoid.ctor); norm_num [DoubleArg.recip])) _ _ 3000 4000 5000⟩

/-! ## The co-incident points test at antipodal points -/

/-- C27: the co-incident points test of `GEOtoRAD` also holds at antipodal
points.  On every non-spherical ellipsoid, in every unit, for every point
`(lat, lon)` the call with the end point `(-lat, lon + 180°)` leaves the loop in
its first pass by the `return` of that test with `d = 0`, `az = 0`, `azEnd = 0`,
although the two longitudes are not equal modulo a full turn. -/
theorem coincident_return_at_antipodes (eps : ℝ) (heps : 0 ≤ eps) (ellipsoid : CEllipsoid)
    (hns : ¬ AreEqualAbs eps ellipsoid.A ellipsoid.B) (rangeUnit : TRangeUnit)
    (angleUnit : TAngleUnit) (lat lon : ℝ) :
    GEOtoRADTrace eps ellipsoid angleUnit lat lon (-lat) (lon + fullTurn angleUnit / 2) =
      some (InverseExit.coincident 1) ∧
    GEOtoRAD eps ellipsoid rangeUnit angleUnit lat lon (-lat) (lon + fullTurn angleUnit / 2) =
      { R := 0, Az := 0, AzEnd := 0 } ∧
    ¬ ∃ k : ℤ, (lon + fullTurn angleUnit / 2) - lon = k * fullTurn angleUnit := by
  have fullTurn_pos := aux_3
  have toRadian_neg := aux_29
  have inverseLoop_coincident := aux_30
  have toRadian_add_half_turn (au : TAngleUnit) (x : ℝ) :
      toRadian au (x + fullTurn au / 2) = toRadian au x + Real.pi := by
    clear heps hns
    cases au
    · simp only [toRadian, fullTurn]
      ring
    · simp only [toRadian, fullTurn, DgToRdD]
      ring
  have reducedLat_neg (f lat : ℝ) : reducedLat f (-lat) = -reducedLat f lat := by
    clear heps hns
    ((try unfold reducedLat); try simp only [Real.tan_neg, mul_neg, Real.arctan_neg])
  have inverseSinSigma_antipodal (s c : ℝ) : inverseSinSigma s c (-s) c Real.pi = 0 := by
    clear heps hns
    ((try unfold inverseSinSigma); try simp only [Real.sin_pi, Real.cos_pi])
    rw [show c * 0 * (c * 0) + (c * -s - s * c * -1) * (c * -s - s * c * -1) = 0 by ring]
    exact Real.sqrt_zero
  have hz : IsZeroAbs eps 0 := by simpa [Compare.IsZeroAbs] using heps
  have hloop : GEOtoRADLoop eps ellipsoid.F (toRadian angleUnit lat) (toRadian angleUnit lon)
      (toRadian angleUnit (-lat)) (toRadian angleUnit (lon + fullTurn angleUnit / 2)) =
      InverseExit.coincident 1 := by
    ((try unfold GEOtoRADLoop); try simp only [toRadian_neg, toRadian_add_half_turn, reducedLat_neg, Real.sin_neg,
      Real.cos_neg, add_sub_cancel_left])
    exact inverseLoop_coincident _ _ _ _ _ _ _ _ _ _ (by rw [inverseSinSigma_antipodal]; exact hz)
  refine ⟨?_, ?_, ?_⟩
  · ((try unfold GEOtoRADTrace); try simp only [hns, if_false, hloop])
  · ((try unfold GEOtoRAD); try simp only [hns, if_false, hloop])
    norm_num
  · rintro ⟨k, hk⟩
    have hft := fullTurn_pos angleUnit
    have h1 : (2 * (k : ℝ) - 1) * fullTurn angleUnit = 0 := by linarith
    rcases mul_eq_zero.1 h1 with h | h
    · have h2 : (2 * k - 1 : ℤ) = 0 := by exact_mod_cast h
      omega
    · exact absurd h (ne_of_gt hft)

/-- Witness for C27: WGS-84 with exact comparisons; the start point
`(30°, 10°)` and its antipode `(-30°, 190°)`. -/
theorem coincident_return_at_antipodes_witness :
    GEOtoRADTrace 0 WGS84 TAngleUnit.AU_Degree 30 10 (-30)
        (10 + fullTurn TAngleUnit.AU_Degree / 2) = some (InverseExit.coincident 1) ∧
    GEOtoRAD 0 WGS84 TRangeUnit.RU_Kilometer TAngleUnit.AU_Degree 30 10 (-30)
        (10 + fullTurn TAngleUnit.AU_Degree / 2) = { R := 0, Az := 0, AzEnd := 0 } ∧
    ¬ ∃ k : ℤ, (10 + fullTurn TAngleUnit.AU_Degree / 2) - 10 =
      k * fullTurn TAngleUnit.AU_Degree :=
  coincident_return_at_antipodes 0 le_rfl WGS84
    (by ((try unfold WGS84); (try unfold CEllipsoid.B); (try unfold CEllipsoid.A); (try unfold Compare.AreEqualAbs); norm_num))
    TRangeUnit.RU_Kilometer TAngleUnit.AU_Degree 30 10

/-! ## Composite routes and the surface of the ellipsoid -/

/-- C28: for an ellipsoid with `0 < b ≤ a` (and `a * a` not zero for the
comparison tolerance), every geodetic point and anchor and every unit choice,
`GEOtoECEF` returns a point `p`, `GEOtoENU` returns a vector, and `ECEFtoENU`
applied to `p` with the same anchor and units returns the same vector. -/
theorem GEOtoENU_two_step (eps : ℝ) (ellipsoid : CEllipsoid) (hb : 0 < ellipsoid.b)
    (hba : ellipsoid.b ≤ ellipsoid.a) (heps : eps < ellipsoid.a * ellipsoid.a)
    (rangeUnit : TRangeUnit) (angleUnit : TAngleUnit) (lat lon h lat0 lon0 h0 : ℝ) :
    ∃ p e, GEOtoECEF eps ellipsoid rangeUnit angleUnit lat lon h = some p ∧
      GEOtoENU eps ellipsoid rangeUnit angleUnit lat lon h lat0 lon0 h0 = some e ∧
      ECEFtoENU eps ellipsoid rangeUnit angleUnit p.X p.Y p.Z lat0 lon0 h0 = some e := by
  have GEOtoECEF_isSome := aux_5
  have toMeter_meter := aux_2
  have fromMeter_meter := aux_7
  have toRadian_radian := aux_4
  have GEOtoECEF_units := aux_21
  obtain ⟨r, hr⟩ := GEOtoECEF_isSome eps ellipsoid hb hba heps TRangeUnit.RU_Meter
    TAngleUnit.AU_Radian (toRadian angleUnit lat) (toRadian angleUnit lon) (toMeter rangeUnit h)
  obtain ⟨r0, hr0⟩ := GEOtoECEF_isSome eps ellipsoid hb hba heps TRangeUnit.RU_Meter
    TAngleUnit.AU_Radian (toRadian angleUnit lat0) (toRadian angleUnit lon0)
    (toMeter rangeUnit h0)
  obtain ⟨p, hp, hx, hy, hz⟩ := GEOtoECEF_units eps ellipsoid rangeUnit angleUnit lat lon h r hr
  have hE : ∃ e, GEOtoENU eps ellipsoid rangeUnit angleUnit lat lon h lat0 lon0 h0 = some e := by
    ((try unfold GEOtoENU); try simp only [hr, hr0])
    exact ⟨_, rfl⟩
  obtain ⟨e, he⟩ := hE
  refine ⟨p, e, hp, he, ?_⟩
  rw [← he]
  ((try unfold GEOtoENU); (try unfold ECEFtoENUV); (try unfold ECEFtoENU); try simp only [hr, hr0, hx, hy, hz, toRadian_radian, toMeter_meter,
    fromMeter_meter])

/-- Witness for C28: WGS-84 with exact comparisons, kilometres and degrees. -/
theorem GEOtoENU_two_step_witness :
    ∃ p e, GEOtoECEF 0 WGS84 TRangeUnit.RU_Kilometer TAngleUnit.AU_Degree 55 37 1 = some p ∧
      GEOtoENU 0 WGS84 TRangeUnit.RU_Kilometer TAngleUnit.AU_Degree 55 37 1 56 38 2 = some e ∧
      ECEFtoENU 0 WGS84 TRangeUnit.RU_Kilometer TAngleUnit.AU_Degree p.X p.Y p.Z 56 38 2 =
        some e :=
  GEOtoENU_two_step 0 WGS84 (by ((try unfold WGS84); norm_num)) (by ((try unfold WGS84); norm_num)) (by ((try unfold WGS84); norm_num))
    TRangeUnit.RU_Kilometer TAngleUnit.AU_Degree 55 37 1 56 38 2

/-- C29: for an ellipsoid with `0 < b ≤ a` (and `a * a` not zero for the
comparison tolerance), every latitude and longitude and every unit choice,
`GEOtoECEF` with height `0` returns a point `(x, y, z)` which, taken in metres as
the semi-axes are, satisfies `x^2/a^2 + y^2/a^2 + z^2/b^2 = 1`. -/
theorem GEOtoECEF_on_surface (eps : ℝ) (ellipsoid : CEllipsoid) (hb : 0 < ellipsoid.b)
    (hba : ellipsoid.b ≤ ellipsoid.a) (heps : eps < ellipsoid.a * ellipsoid.a)
    (rangeUnit : TRangeUnit) (angleUnit : TAngleUnit) (lat lon : ℝ) :
    ∃ p, GEOtoECEF eps ellipsoid rangeUnit angleUnit lat lon 0 = some p ∧
      toMeter rangeUnit p.X ^ 2 / ellipsoid.A ^ 2 + toMeter rangeUnit p.Y ^ 2 / ellipsoid.A ^ 2 +
        toMeter rangeUnit p.Z ^ 2 / ellipsoid.B ^ 2 = 1 := by
  have GEOtoECEF_closed := aux_16
  have GEOtoECEF_units := aux_21
  have surface_equation (a b s c sl cl : ℝ) (hb : 0 < b) (hba : b ≤ a)
      (hsc : s ^ 2 + c ^ 2 = 1) (hl : sl ^ 2 + cl ^ 2 = 1) :
      (a / Real.sqrt (1 - (1 - b ^ 2 / a ^ 2) * s ^ 2) * c * cl) ^ 2 / a ^ 2 +
        (a / Real.sqrt (1 - (1 - b ^ 2 / a ^ 2) * s ^ 2) * c * sl) ^ 2 / a ^ 2 +
        (a / Real.sqrt (1 - (1 - b ^ 2 / a ^ 2) * s ^ 2) * (1 - (1 - b ^ 2 / a ^ 2)) * s) ^ 2 /
          b ^ 2 = 1 := by
    clear heps
    have ha : 0 < a := lt_of_lt_of_le hb hba
    have hq0 : 0 < b ^ 2 / a ^ 2 := by positivity
    have hq1 : b ^ 2 / a ^ 2 ≤ 1 := by
      rw [div_le_one (by positivity)]
      nlinarith
    have hs1 : s ^ 2 ≤ 1 := by linarith [sq_nonneg c]
    have hg : 0 < 1 - (1 - b ^ 2 / a ^ 2) * s ^ 2 := by nlinarith [sq_nonneg s]
    have hsq : Real.sqrt (1 - (1 - b ^ 2 / a ^ 2) * s ^ 2) ^ 2 =
        1 - (1 - b ^ 2 / a ^ 2) * s ^ 2 := Real.sq_sqrt hg.le
    have hne : Real.sqrt (1 - (1 - b ^ 2 / a ^ 2) * s ^ 2) ≠ 0 := (Real.sqrt_pos.2 hg).ne'
    have hc2 : c ^ 2 = 1 - s ^ 2 := by linarith
    have hcl2 : cl ^ 2 = 1 - sl ^ 2 := by linarith
    have hane : a ≠ 0 := ha.ne'
    have hbne : b ≠ 0 := hb.ne'
    simp only [div_pow, mul_pow, hsq, hc2, hcl2]
    have hg' : a ^ 2 - (a ^ 2 - b ^ 2) * s ^ 2 ≠ 0 := by
      have : a ^ 2 - (a ^ 2 - b ^ 2) * s ^ 2 = a ^ 2 * (1 - (1 - b ^ 2 / a ^ 2) * s ^ 2) := by
        field_simp
      rw [this]
      positivity
    field_simp
    ring
  have h0 : toMeter rangeUnit 0 = 0 := by cases rangeUnit <;> simp [toMeter]
  have hr := GEOtoECEF_closed eps ellipsoid hb hba heps (toRadian angleUnit lat)
    (toRadian angleUnit lon) 0
  rw [← h0] at hr
  obtain ⟨p, hp, hx, hy, hz⟩ := GEOtoECEF_units eps ellipsoid rangeUnit angleUnit lat lon 0 _ hr
  refine ⟨p, hp, ?_⟩
  rw [hx, hy, hz]
  ((try unfold CEllipsoid.B); (try unfold CEllipsoid.A); try simp only [h0, add_zero])
  exact surface_equation ellipsoid.a ellipsoid.b _ _ _ _ hb hba
    (Real.sin_sq_add_cos_sq _) (Real.sin_sq_add_cos_sq _)

/-- Witness for C29: WGS-84 with exact comparisons, kilometres and degrees. -/
theorem GEOtoECEF_on_surface_witness :
    ∃ p, GEOtoECEF 0 WGS84 TRangeUnit.RU_Kilometer TAngleUnit.AU_Degree 55 37 0 = some p ∧
      toMeter TRangeUnit.RU_Kilometer p.X ^ 2 / WGS84.A ^ 2 +
        toMeter TRangeUnit.RU_Kilometer p.Y ^ 2 / WGS84.A ^ 2 +
        toMeter TRangeUnit.RU_Kilometer p.Z ^ 2 / WGS84.B ^ 2 = 1 :=
  GEOtoECEF_on_surface 0 WGS84 (by ((try unfold WGS84); norm_num)) (by ((try unfold WGS84); norm_num))
    (by ((try unfold WGS84); norm_num)) TRangeUnit.RU_Kilometer TAngleUnit.AU_Degree 55 37

/-- C30: for an ellipsoid with `0 < b ≤ a` (with `a * a` not zero for the
comparison tolerance, and the tolerance so small that the test `a == b` holds
only for `a = b`) and every two geodetic points in Radian/Meter units, both
`GEOtoECEF` calls return a point and `ECEF_offset` is their componentwise
difference, second minus first. -/
theorem ECEF_offset_eq_difference (eps : ℝ) (ellipsoid : CEllipsoid) (hb : 0 < ellipsoid.b)
    (hba : ellipsoid.b ≤ ellipsoid.a) (heps : eps < ellipsoid.a * ellipsoid.a)
    (htol : AreEqualAbs eps ellipsoid.A ellipsoid.B → ellipsoid.a = ellipsoid.b)
    (lat1 lon1 h1 lat2 lon2 h2 : ℝ) :
    ∃ p1 p2,
      GEOtoECEF eps ellipsoid TRangeUnit.RU_Meter TAngleUnit.AU_Radian lat1 lon1 h1 = some p1 ∧
      GEOtoECEF eps ellipsoid TRangeUnit.RU_Meter TAngleUnit.AU_Radian lat2 lon2 h2 = some p2 ∧
      ECEF_offset eps ellipsoid TRangeUnit.RU_Meter TAngleUnit.AU_Radian
        lat1 lon1 h1 lat2 lon2 h2 =
        { X := p2.X - p1.X, Y := p2.Y - p1.Y, Z := p2.Z - p1.Z } := by
  have GEOtoECEF_closed := aux_16
  have eccentricity_range := aux_28
  have fromMeter_meter := aux_7
  have EccentricityFirst_sq (ellipsoid : CEllipsoid) (hb : 0 < ellipsoid.b)
      (hba : ellipsoid.b ≤ ellipsoid.a) :
      ellipsoid.EccentricityFirst ^ 2 = 1 - ellipsoid.b ^ 2 / ellipsoid.a ^ 2 := by
    clear heps htol h1 h2
    have h := (eccentricity_range ellipsoid hb hba).1
    unfold CEllipsoid.EccentricityFirst
    rw [Real.sq_sqrt h]
    ((try unfold CEllipsoid.EccentricityFirstSquared); try simp only [sq])
  refine ⟨_, _, GEOtoECEF_closed eps ellipsoid hb hba heps lat1 lon1 h1,
    GEOtoECEF_closed eps ellipsoid hb hba heps lat2 lon2 h2, ?_⟩
  have ha : 0 < ellipsoid.a := lt_of_lt_of_le hb hba
  by_cases hs : AreEqualAbs eps ellipsoid.a ellipsoid.b
  · have hab := htol hs
    have hq : ellipsoid.b ^ 2 / ellipsoid.a ^ 2 = 1 := by
      rw [hab]
      exact div_self (by positivity)
    ((try unfold ECEF_offset); (try unfold CEllipsoid.B); (try unfold CEllipsoid.A); try simp only [hs, if_true, fromMeter_meter, hq, sub_self, zero_mul,
      sub_zero, Real.sqrt_one, div_one, mul_one, XYZ.mk.injEq])
    refine ⟨?_, ?_, ?_⟩ <;> ring
  · have he := EccentricityFirst_sq ellipsoid hb hba
    ((try unfold ECEF_offset); (try unfold CEllipsoid.B); (try unfold CEllipsoid.A); try simp only [hs, if_false, fromMeter_meter, he,
      XYZ.mk.injEq])
    have e1 : (1.0 : ℝ) - (1 - ellipsoid.b ^ 2 / ellipsoid.a ^ 2) * Real.sin lat1 * Real.sin lat1
        = 1 - (1 - ellipsoid.b ^ 2 / ellipsoid.a ^ 2) * Real.sin lat1 ^ 2 := by
      norm_num
      ring
    have e2 : (1.0 : ℝ) - (1 - ellipsoid.b ^ 2 / ellipsoid.a ^ 2) * Real.sin lat2 * Real.sin lat2
        = 1 - (1 - ellipsoid.b ^ 2 / ellipsoid.a ^ 2) * Real.sin lat2 ^ 2 := by
      norm_num
      ring
    rw [e1, e2]
    refine ⟨?_, ?_, ?_⟩ <;> norm_num <;> ring

/-- Witness for C30: WGS-84 with exact comparisons. -/
theorem ECEF_offset_eq_difference_witness :
    ∃ p1 p2,
      GEOtoECEF 0 WGS84 TRangeUnit.RU_Meter TAngleUnit.AU_Radian 0.5 1 100 = some p1 ∧
      GEOtoECEF 0 WGS84 TRangeUnit.RU_Meter TAngleUnit.AU_Radian 0.6 1.1 200 = some p2 ∧
      ECEF_offset 0 WGS84 TRangeUnit.RU_Meter TAngleUnit.AU_Radian 0.5 1 100 0.6 1.1 200 =
        { X := p2.X - p1.X, Y := p2.Y - p1.Y, Z := p2.Z - p1.Z } :=
  ECEF_offset_eq_difference 0 WGS84 (by ((try unfold WGS84); norm_num)) (by ((try unfold WGS84); norm_num))
    (by ((try unfold WGS84); norm_num))
    (by ((try unfold WGS84); (try unfold CEllipsoid.B); (try unfold CEllipsoid.A); (try unfold Compare.AreEqualAbs); norm_num))
    0.5 1 100 0.6 1.1 200

/-! ## The iteration cap of the direct solver -/

/-- C21: the loop of `RADtoGEO` evaluates the update of `sigma` at least once
and at most 1001 times (not 1000), or the spherical branch is taken and there is
no loop; and 1001 evaluations occur: on the ellipsoid with `a = 21`, `b = 11`
(inverse flattening `2.1`), from the point `(0, 0)` with distance `0.01` m and
azimuth `0`, in Radian/Meter units, the loop is left by the cap in pass 1001. -/
theorem direct_solver_cap_is_1001 :
    (∀ (eps : ℝ) (ellipsoid : CEllipsoid) (rangeUnit : TRangeUnit) (angleUnit : TAngleUnit)
      (latStart lonStart d az : ℝ),
      RADtoGEOTrace eps ellipsoid rangeUnit angleUnit latStart lonStart d az = none ∨
      ∃ n, RADtoGEOTrace eps ellipsoid rangeUnit angleUnit latStart lonStart d az = some n ∧
        1 ≤ n ∧ n ≤ 1001) ∧
    RADtoGEOTrace 0 (CEllipsoid.ctor 0 "oblate" 21 11 (DoubleArg.finite 2.1) false)
      TRangeUnit.RU_Meter TAngleUnit.AU_Radian 0 0 0.01 0 = some 1001 := by
  have toMeter_meter := aux_2
  have toRadian_radian := aux_4
  have directLoop_passes_le (B sigma1 sOverbA : ℝ) :
      ∀ (n iterations : ℕ) (sigma prevSigma : ℝ), iterations + n = 1000 →
        iterations + 1 ≤ (directLoop B sigma1 sOverbA sigma prevSigma iterations).2 ∧
        (directLoop B sigma1 sOverbA sigma prevSigma iterations).2 ≤ 1001 := by
    intro n
    induction n with
    | zero =>
      intro iterations sigma prevSigma h
      have hk : iterations = 1000 := by omega
      subst hk
      rw [directLoop]
      split_ifs with h1 h2
      · simp
      · simp
      · exact absurd (by omega) h2
    | succ n ih =>
      intro iterations sigma prevSigma h
      rw [directLoop]
      split_ifs with h1 h2
      · simp only [le_refl, true_and]
        omega
      · simp only [le_refl, true_and]
        omega
      · have := ih (iterations + 1) (sOverbA + directDeltaSigma B sigma1 sigma)
          (sOverbA + directDeltaSigma B sigma1 sigma) (by omega)
        constructor
        · omega
        · exact this.2
  have sin_six_mul (x : ℝ) :
      Real.sin (6 * x) = 2 * Real.sin x * Real.cos x *
        (16 * Real.cos x ^ 4 - 16 * Real.cos x ^ 2 + 3) := by
    have h := Real.sin_sq_add_cos_sq x
    rw [show 6 * x = 3 * (2 * x) by ring, Real.sin_three_mul, Real.sin_two_mul]
    linear_combination (-32 * Real.sin x * Real.cos x ^ 3) * h
  have sin_four_mul (x : ℝ) :
      Real.sin (4 * x) = 4 * Real.sin x * Real.cos x * (2 * Real.cos x ^ 2 - 1) := by
    rw [show 4 * x = 2 * (2 * x) by ring, Real.sin_two_mul, Real.sin_two_mul, Real.cos_two_mul]
    ring
  -- With `sigma1 = 0` the value `deltaSigma` of eq. 6 is a sum of three sines.
  have directDeltaSigma_series (B sigma : ℝ) :
      directDeltaSigma B 0 sigma = B / 2 * Real.sin (2 * sigma) +
        B ^ 2 / 16 * Real.sin (4 * sigma) + B ^ 3 / 48 * Real.sin (6 * sigma) := by
    have h := Real.sin_sq_add_cos_sq sigma
    rw [sin_six_mul, sin_four_mul, Real.sin_two_mul]
    ((try unfold directDeltaSigma); try simp only)
    norm_num
    linear_combination (-(B ^ 3 / 6) * Real.sin sigma * Real.cos sigma *
      (-3 + 4 * Real.cos sigma ^ 2)) * h
  have sin_sub_sin_bounds (a b δ : ℝ) (hb : 0 ≤ b) (hab : b ≤ a) (ha : a ≤ δ) (hδ : δ ≤ 1) :
      (1 - δ ^ 2) * (a - b) ≤ Real.sin a - Real.sin b ∧ Real.sin a - Real.sin b ≤ a - b := by
    have hs : Real.sin a - Real.sin b = 2 * Real.sin ((a - b) / 2) * Real.cos ((a + b) / 2) :=
      Real.sin_sub_sin a b
    have ht0 : 0 ≤ (a - b) / 2 := by linarith
    have ht1 : (a - b) / 2 ≤ δ / 2 := by linarith
    have hu0 : 0 ≤ (a + b) / 2 := by linarith
    have hu1 : (a + b) / 2 ≤ δ := by linarith
    have hδ0 : 0 ≤ δ := by linarith
    have hsin_le : Real.sin ((a - b) / 2) ≤ (a - b) / 2 := Real.sin_le ht0
    have hsin_nn : 0 ≤ Real.sin ((a - b) / 2) :=
      Real.sin_nonneg_of_nonneg_of_le_pi ht0 (by linarith [Real.pi_gt_three])
    have hcos_le : Real.cos ((a + b) / 2) ≤ 1 := Real.cos_le_one _
    have hcos_ge : 1 - ((a + b) / 2) ^ 2 / 2 ≤ Real.cos ((a + b) / 2) :=
      Real.one_sub_sq_div_two_le_cos
    have hcos_ge' : 1 - δ ^ 2 / 2 ≤ Real.cos ((a + b) / 2) := by
      have : ((a + b) / 2) ^ 2 ≤ δ ^ 2 := by nlinarith
      linarith
    have hsin_ge : (a - b) / 2 * (1 - δ ^ 2 / 16) ≤ Real.sin ((a - b) / 2) := by
      rcases eq_or_lt_of_le ht0 with h | h
      · rw [← h]; simp
      · have := Real.sin_gt_sub_cube h (by linarith)
        have h3 : ((a - b) / 2) ^ 3 ≤ (a - b) / 2 * (δ ^ 2 / 4) := by
          have : ((a - b) / 2) ^ 2 ≤ (δ / 2) ^ 2 := by nlinarith
          nlinarith
        linarith
    have hc0 : 0 ≤ 1 - δ ^ 2 / 2 := by nlinarith
    constructor
    · rw [hs]
      have h1 : (a - b) / 2 * (1 - δ ^ 2 / 16) * (1 - δ ^ 2 / 2) ≤
          Real.sin ((a - b) / 2) * Real.cos ((a + b) / 2) :=
        mul_le_mul hsin_ge hcos_ge' hc0 hsin_nn
      have h2 : (1 - δ ^ 2) ≤ (1 - δ ^ 2 / 16) * (1 - δ ^ 2 / 2) := by nlinarith [sq_nonneg δ]
      have h3 := mul_le_mul_of_nonneg_left h2 ht0
      linarith
    · rw [hs]
      have := mul_le_mul hsin_le hcos_le (by linarith) ht0
      linarith
  have directDeltaSigma_zero (B : ℝ) : directDeltaSigma B 0 0 = 0 := by
    ((try unfold directDeltaSigma); simp)
  -- Slope of `deltaSigma` (with `sigma1 = 0`) between two arguments in `[0, c]`,
  -- for a negative `B`.
  have directDeltaSigma_slope (B c x y : ℝ) (hB : B ≤ 0) (hx : 0 ≤ x) (hxy : x ≤ y)
      (hy : y ≤ c) (hc : 6 * c ≤ 1) :
      (B + B ^ 2 / 4 * (1 - (6 * c) ^ 2) + B ^ 3 / 8) * (y - x) ≤
        directDeltaSigma B 0 y - directDeltaSigma B 0 x ∧
      directDeltaSigma B 0 y - directDeltaSigma B 0 x ≤
        (B * (1 - (6 * c) ^ 2) + B ^ 2 / 4 + B ^ 3 / 8 * (1 - (6 * c) ^ 2)) * (y - x) := by
    have h2 := sin_sub_sin_bounds (2 * y) (2 * x) (6 * c) (by linarith) (by linarith)
      (by linarith) hc
    have h4 := sin_sub_sin_bounds (4 * y) (4 * x) (6 * c) (by linarith) (by linarith)
      (by linarith) hc
    have h6 := sin_sub_sin_bounds (6 * y) (6 * x) (6 * c) (by linarith) (by linarith)
      (by linarith) hc
    have hB1 : B / 2 ≤ 0 := by linarith
    have hB2 : 0 ≤ B ^ 2 / 16 := by positivity
    have hB3 : B ^ 3 / 48 ≤ 0 := by
      have : B ^ 3 = B * B ^ 2 := by ring
      have : B * B ^ 2 ≤ 0 := mul_nonpos_of_nonpos_of_nonneg hB (sq_nonneg B)
      linarith
    rw [directDeltaSigma_series, directDeltaSigma_series]
    have a1 := mul_le_mul_of_nonpos_left h2.1 hB1
    have a2 := mul_le_mul_of_nonpos_left h2.2 hB1
    have b1 := mul_le_mul_of_nonneg_left h4.1 hB2
    have b2 := mul_le_mul_of_nonneg_left h4.2 hB2
    have c1 := mul_le_mul_of_nonpos_left h6.1 hB3
    have c2 := mul_le_mul_of_nonpos_left h6.2 hB3
    constructor
    · linarith
    · linarith
  -- When `deltaSigma` (with `sigma1 = 0`) has slope between `-1` and `-m` on
  -- `[0, c]` and `m ^ 1001 * c` is not below the tolerance `1.0e-15`, the loop of
  -- `RADtoGEO` started inside `[0, c]` runs until the cap stops it in pass 1001.
  have directLoop_slow (B c m : ℝ) (hm0 : 0 ≤ m) (hm1 : m ≤ 1) (hc : 0 ≤ c)
      (hslope : ∀ x y, 0 ≤ x → x ≤ y → y ≤ c →
        -(y - x) ≤ directDeltaSigma B 0 y - directDeltaSigma B 0 x ∧
        directDeltaSigma B 0 y - directDeltaSigma B 0 x ≤ -(m * (y - x)))
      (hbig : (1.0e-15 : ℝ) ≤ m ^ 1001 * c) :
      ∀ (n k : ℕ) (sigma : ℝ), k + n = 1000 → 0 ≤ sigma → sigma ≤ c →
        m ^ (k + 1) * c ≤ |c + directDeltaSigma B 0 sigma - sigma| →
        (directLoop B 0 c sigma sigma k).2 = 1001 := by
    have hpow : ∀ k : ℕ, k ≤ 1000 → m ^ 1001 * c ≤ m ^ (k + 1) * c := by
      intro k hk
      exact mul_le_mul_of_nonneg_right (pow_le_pow_of_le_one hm0 hm1 (by omega)) hc
    have hstep : ∀ sigma : ℝ, 0 ≤ sigma → sigma ≤ c →
        0 ≤ c + directDeltaSigma B 0 sigma ∧ c + directDeltaSigma B 0 sigma ≤ c := by
      intro sigma h0 h1
      have h := hslope 0 sigma le_rfl h0 h1
      rw [directDeltaSigma_zero] at h
      have : 0 ≤ m * sigma := mul_nonneg hm0 h0
      constructor <;> linarith [h.1, h.2]
    have hexp : ∀ x y : ℝ, 0 ≤ x → x ≤ c → 0 ≤ y → y ≤ c →
        m * |y - x| ≤ |directDeltaSigma B 0 y - directDeltaSigma B 0 x| := by
      intro x y hx0 hx1 hy0 hy1
      rcases le_total x y with h | h
      · have hs := hslope x y hx0 h hy1
        rw [abs_of_nonneg (by linarith : 0 ≤ y - x), abs_of_nonpos (by
          have : 0 ≤ m * (y - x) := mul_nonneg hm0 (by linarith)
          linarith [hs.2])]
        linarith [hs.2]
      · have hs := hslope y x hy0 h hx1
        rw [abs_of_nonpos (by linarith : y - x ≤ 0), abs_of_nonneg (by
          have : 0 ≤ m * (x - y) := mul_nonneg hm0 (by linarith)
          linarith [hs.2])]
        have : m * -(y - x) = m * (x - y) := by ring
        linarith [hs.2]
    intro n
    induction n with
    | zero =>
      intro k sigma hk h0 h1 hd
      have hk' : k = 1000 := by omega
      subst hk'
      have hnot : ¬ |c + directDeltaSigma B 0 sigma - sigma| < 1.0e-15 := by
        have := hpow 1000 le_rfl
        exact not_lt.2 (by linarith)
      rw [directLoop]
      simp only [hnot, if_false]
      split_ifs with h2
      · rfl
      · exact absurd (by omega) h2
    | succ n ih =>
      intro k sigma hk h0 h1 hd
      have hnot : ¬ |c + directDeltaSigma B 0 sigma - sigma| < 1.0e-15 := by
        have := hpow k (by omega)
        exact not_lt.2 (by linarith)
      have h2 : ¬ k + 1 > 1000 := by omega
      rw [directLoop]
      simp only [hnot, if_false, h2, dite_false]
      have hs := hstep sigma h0 h1
      apply ih (k + 1) _ (by omega) hs.1 hs.2
      have he := hexp sigma (c + directDeltaSigma B 0 sigma) h0 h1 hs.1 hs.2
      have e1 : c + directDeltaSigma B 0 (c + directDeltaSigma B 0 sigma) -
          (c + directDeltaSigma B 0 sigma) =
          directDeltaSigma B 0 (c + directDeltaSigma B 0 sigma) - directDeltaSigma B 0 sigma := by
        ring
      rw [e1]
      have e2 : m ^ (k + 1 + 1) * c = m * (m ^ (k + 1) * c) := by ring
      rw [e2]
      exact le_trans (mul_le_mul_of_nonneg_left hd hm0) he
  have RADtoGEOLoop_oblate (f : ℝ) :
      RADtoGEOLoop 21 11 f 0 0.01 0 =
        directLoop (-240431920 / 214358881) 0 (19487171 / 25124696100)
          (19487171 / 25124696100) (19487171 / 25124696100) 0 := by
    have h1 : atan2 0 1 = 0 := by
      ((try unfold atan2); simp [Complex.arg_eq_zero_iff])
    ((try unfold RADtoGEOLoop); try simp only [Real.tan_zero, Real.cos_zero, Real.sin_zero, mul_zero, add_zero,
      Real.sqrt_one, h1])
    norm_num
  have directLoop_oblate :
      (directLoop (-240431920 / 214358881) 0 (19487171 / 25124696100)
        (19487171 / 25124696100) (19487171 / 25124696100) 0).2 = 1001 := by
    have hslope : ∀ x y : ℝ, 0 ≤ x → x ≤ y → y ≤ 19487171 / 25124696100 →
        -(y - x) ≤ directDeltaSigma (-240431920 / 214358881) 0 y -
          directDeltaSigma (-240431920 / 214358881) 0 x ∧
        directDeltaSigma (-240431920 / 214358881) 0 y -
          directDeltaSigma (-240431920 / 214358881) 0 x ≤ -(49 / 50 * (y - x)) := by
      intro x y hx hxy hy
      have h := directDeltaSigma_slope (-240431920 / 214358881) (19487171 / 25124696100) x y
        (by norm_num) hx hxy hy (by norm_num)
      have hd : 0 ≤ y - x := by linarith
      have l1 : (-1 : ℝ) ≤ -240431920 / 214358881 + (-240431920 / 214358881) ^ 2 / 4 *
          (1 - (6 * (19487171 / 25124696100)) ^ 2) + (-240431920 / 214358881) ^ 3 / 8 := by
        norm_num
      have l2 : (-240431920 / 214358881 : ℝ) * (1 - (6 * (19487171 / 25124696100)) ^ 2) +
          (-240431920 / 214358881) ^ 2 / 4 + (-240431920 / 214358881) ^ 3 / 8 *
          (1 - (6 * (19487171 / 25124696100)) ^ 2) ≤ -(49 / 50) := by
        norm_num
      have m1 := mul_le_mul_of_nonneg_right l1 hd
      have m2 := mul_le_mul_of_nonneg_right l2 hd
      constructor
      · linarith [h.1]
      · linarith [h.2]
    have hbig : (1.0e-15 : ℝ) ≤ (49 / 50 : ℝ) ^ 1001 * (19487171 / 25124696100) := by
      norm_num
    refine directLoop_slow _ _ (49 / 50) (by norm_num) (by norm_num) (by norm_num) hslope hbig
      1000 0 _ (by norm_num) (by norm_num) le_rfl ?_
    have h := (hslope 0 (19487171 / 25124696100) le_rfl (by norm_num) le_rfl).2
    rw [directDeltaSigma_zero] at h
    rw [add_sub_cancel_left, abs_of_nonpos (by linarith)]
    linarith
  constructor
  · intro eps ellipsoid rangeUnit angleUnit latStart lonStart d az
    unfold RADtoGEOTrace
    split_ifs with hs
    · exact Or.inl rfl
    · refine Or.inr ⟨_, rfl, ?_⟩
      unfold RADtoGEOLoop
      have h := directLoop_passes_le
      exact h _ _ _ 1000 0 _ _ rfl
  · have hns : ¬ AreEqualAbs 0
        (CEllipsoid.ctor 0 "oblate" 21 11 (DoubleArg.finite 2.1) false).A
        (CEllipsoid.ctor 0 "oblate" 21 11 (DoubleArg.finite 2.1) false).B := by
      ((try unfold CEllipsoid.B); (try unfold CEllipsoid.A); (try unfold CEllipsoid.ctor); (try unfold Compare.AreEqualAbs); norm_num)
    have ha : (CEllipsoid.ctor 0 "oblate" 21 11 (DoubleArg.finite 2.1) false).A = 21 := by
      ((try unfold CEllipsoid.A); (try unfold CEllipsoid.ctor); norm_num)
    have hb : (CEllipsoid.ctor 0 "oblate" 21 11 (DoubleArg.finite 2.1) false).B = 11 := by
      ((try unfold CEllipsoid.B); (try unfold CEllipsoid.ctor); norm_num)
    unfold RADtoGEOTrace
    rw [if_neg hns, ha, hb, toRadian_radian, toMeter_meter, RADtoGEOLoop_oblate,
      directLoop_oblate]

/-! ## ECEF and AER -/

/-- C34: for an ellipsoid with `0 < b ≤ a` (and `a * a` not zero for the
comparison tolerance), every anchor, every ECEF point and every unit choice,
`ECEFtoAER` returns a triple and `AERtoECEF` applied to it with the same anchor
and units returns exactly the point; this includes the ECEF position of the
anchor itself, which `GEOtoECEF` returns. -/
theorem ECEF_AER_roundtrip (eps : ℝ) (ellipsoid : CEllipsoid) (hb : 0 < ellipsoid.b)
    (hba : ellipsoid.b ≤ ellipsoid.a) (heps : eps < ellipsoid.a * ellipsoid.a)
    (rangeUnit : TRangeUnit) (angleUnit : TAngleUnit) (x y z lat0 lon0 h0 : ℝ) :
    (∃ r, ECEFtoAER eps ellipsoid rangeUnit angleUnit x y z lat0 lon0 h0 = some r ∧
      AERtoECEF eps ellipsoid rangeUnit angleUnit r.A r.E r.R lat0 lon0 h0 =
        some { X := x, Y := y, Z := z }) ∧
    (∃ p0 r0, GEOtoECEF eps ellipsoid rangeUnit angleUnit lat0 lon0 h0 = some p0 ∧
      ECEFtoAER eps ellipsoid rangeUnit angleUnit p0.X p0.Y p0.Z lat0 lon0 h0 = some r0 ∧
      AERtoECEF eps ellipsoid rangeUnit angleUnit r0.A r0.E r0.R lat0 lon0 h0 = some p0) := by
  have GEOtoECEF_isSome := aux_5
  have hypot_comm := aux_26.1
  have hypot_mul_sin_atan2 := aux_6.2.2
  have hypot_mul_cos_atan2 := aux_13.1
  have sin_AngleTo360 := aux_13.2.1
  have cos_AngleTo360 := aux_13.2.2
  have toRadian_fromRadian := aux_18
  have toMeter_fromMeter := aux_8
  have fromMeter_toMeter := aux_26.2
  have toMeter_meter := aux_2
  have fromMeter_meter := aux_7
  have toRadian_radian := aux_4
  have AERtoENU_ENUtoAER (rangeUnit : TRangeUnit) (angleUnit : TAngleUnit) (e n u : ℝ) :
      AERtoENU rangeUnit angleUnit (ENUtoAER rangeUnit angleUnit e n u).A
        (ENUtoAER rangeUnit angleUnit e n u).E
        (ENUtoAER rangeUnit angleUnit e n u).R = { E := e, N := n, U := u } := by
    clear hb hba heps h0
    ((try unfold AERtoENU); (try unfold ENUtoAER); try simp only [toRadian_fromRadian, toMeter_fromMeter, sin_AngleTo360,
      cos_AngleTo360, hypot_mul_sin_atan2, hypot_mul_cos_atan2, fromMeter_toMeter])
    rw [hypot_comm (toMeter rangeUnit e), hypot_mul_sin_atan2, hypot_mul_cos_atan2,
      fromMeter_toMeter, fromMeter_toMeter]
  have ECEF_AER_roundtrip_core (eps : ℝ) (ellipsoid : CEllipsoid) (hb : 0 < ellipsoid.b)
      (hba : ellipsoid.b ≤ ellipsoid.a) (heps : eps < ellipsoid.a * ellipsoid.a)
      (rangeUnit : TRangeUnit) (angleUnit : TAngleUnit) (x y z lat0 lon0 h0 : ℝ) :
      ∃ r, ECEFtoAER eps ellipsoid rangeUnit angleUnit x y z lat0 lon0 h0 = some r ∧
        AERtoECEF eps ellipsoid rangeUnit angleUnit r.A r.E r.R lat0 lon0 h0 =
          some { X := x, Y := y, Z := z } := by
    obtain ⟨p0, hp0⟩ := GEOtoECEF_isSome eps ellipsoid hb hba heps TRangeUnit.RU_Meter
      TAngleUnit.AU_Radian (toRadian angleUnit lat0) (toRadian angleUnit lon0)
      (toMeter rangeUnit h0)
    have hs := Real.sin_sq_add_cos_sq (toRadian angleUnit lat0)
    have hl := Real.sin_sq_add_cos_sq (toRadian angleUnit lon0)
    ((try unfold ECEFtoAER); (try unfold ECEFtoENU); try simp only [toRadian_radian, toMeter_meter, fromMeter_meter, hp0])
    refine ⟨_, rfl, ?_⟩
    ((try unfold AERtoECEF); try simp only [hp0, toRadian_fromRadian, toMeter_fromMeter])
    have h := AERtoENU_ENUtoAER TRangeUnit.RU_Meter TAngleUnit.AU_Radian
    ((try unfold ENUtoUVW); try simp only [h, toRadian_radian, toMeter_meter, fromMeter_meter, Option.some.injEq,
      XYZ.mk.injEq])
    have hx : x = fromMeter rangeUnit (toMeter rangeUnit x) := (fromMeter_toMeter _ _).symm
    have hy : y = fromMeter rangeUnit (toMeter rangeUnit y) := (fromMeter_toMeter _ _).symm
    have hz : z = fromMeter rangeUnit (toMeter rangeUnit z) := (fromMeter_toMeter _ _).symm
    refine ⟨?_, ?_, ?_⟩
    · conv_rhs => rw [hx]
      congr 1
      linear_combination (Real.cos (toRadian angleUnit lon0) *
        (Real.cos (toRadian angleUnit lon0) * (toMeter rangeUnit x - p0.X) +
          Real.sin (toRadian angleUnit lon0) * (toMeter rangeUnit y - p0.Y))) * hs +
        (toMeter rangeUnit x - p0.X) * hl
    · conv_rhs => rw [hy]
      congr 1
      linear_combination (Real.sin (toRadian angleUnit lon0) *
        (Real.cos (toRadian angleUnit lon0) * (toMeter rangeUnit x - p0.X) +
          Real.sin (toRadian angleUnit lon0) * (toMeter rangeUnit y - p0.Y))) * hs +
        (toMeter rangeUnit y - p0.Y) * hl
    · conv_rhs => rw [hz]
      congr 1
      linear_combination (toMeter rangeUnit z - p0.Z) * hs
  refine ⟨ECEF_AER_roundtrip_core eps ellipsoid hb hba heps rangeUnit angleUnit x y z
    lat0 lon0 h0, ?_⟩
  obtain ⟨p0, hp0⟩ := GEOtoECEF_isSome eps ellipsoid hb hba heps rangeUnit angleUnit
    lat0 lon0 h0
  obtain ⟨r0, hr0, hback⟩ := ECEF_AER_roundtrip_core eps ellipsoid hb hba heps rangeUnit
    angleUnit p0.X p0.Y p0.Z lat0 lon0 h0
  exact ⟨p0, r0, hp0, hr0, hback⟩

/-- Witness for C34: WGS-84 with exact comparisons, kilometres and degrees. -/
theorem ECEF_AER_roundtrip_witness :
    (∃ r, ECEFtoAER 0 WGS84 TRangeUnit.RU_Kilometer TAngleUnit.AU_Degree 4000 3000 5000
        55 37 1 = some r ∧
      AERtoECEF 0 WGS84 TRangeUnit.RU_Kilometer TAngleUnit.AU_Degree r.A r.E r.R 55 37 1 =
        some { X := 4000, Y := 3000, Z := 5000 }) ∧
    (∃ p0 r0, GEOtoECEF 0 WGS84 TRangeUnit.RU_Kilometer TAngleUnit.AU_Degree 55 37 1 =
        some p0 ∧
      ECEFtoAER 0 WGS84 TRangeUnit.RU_Kilometer TAngleUnit.AU_Degree p0.X p0.Y p0.Z 55 37 1 =
        some r0 ∧
      AERtoECEF 0 WGS84 TRangeUnit.RU_Kilometer TAngleUnit.AU_Degree r0.A r0.E r0.R 55 37 1 =
        some p0) :=
  ECEF_AER_roundtrip 0 WGS84 (by ((try unfold WGS84); norm_num)) (by ((try unfold WGS84); norm_num))
    (by ((try unfold WGS84); norm_num)) TRangeUnit.RU_Kilometer TAngleUnit.AU_Degree 4000 3000 5000 55 37 1

/-! ## The spherical branch: direct then inverse, and the two bearings -/

/-- C35: on the spherical branch (`a == b` for the comparison tolerance), for
two points with latitudes strictly between -90 and 90 degrees that are neither
the same point nor antipodal, in every unit, the `azEnd` returned by `GEOtoRAD`
from A to B and the `az` returned by `GEOtoRAD` from B to A differ by exactly
half a turn (both lie in `[0, 360)` degrees, so the difference is 180 or -180). -/
theorem sphere_back_bearing (eps : ℝ) (ellipsoid : CEllipsoid)
    (hs : AreEqualAbs eps ellipsoid.A ellipsoid.B) (rangeUnit : TRangeUnit)
    (angleUnit : TAngleUnit) (latA lonA latB lonB : ℝ)
    (hA0 : -(Real.pi / 2) < toRadian angleUnit latA) (hA1 : toRadian angleUnit latA < Real.pi / 2)
    (hB0 : -(Real.pi / 2) < toRadian angleUnit latB) (hB1 : toRadian angleUnit latB < Real.pi / 2)
    (hdist : ¬ (latA = latB ∧
      Real.cos (toRadian angleUnit lonB - toRadian angleUnit lonA) = 1))
    (hanti : ¬ (latB = -latA ∧
      Real.cos (toRadian angleUnit lonB - toRadian angleUnit lonA) = -1)) :
    (GEOtoRAD eps ellipsoid rangeUnit angleUnit latA lonA latB lonB).AzEnd -
      (GEOtoRAD eps ellipsoid rangeUnit angleUnit latB lonB latA lonA).Az =
        fullTurn angleUnit / 2 ∨
    (GEOtoRAD eps ellipsoid rangeUnit angleUnit latA lonA latB lonB).AzEnd -
      (GEOtoRAD eps ellipsoid rangeUnit angleUnit latB lonB latA lonA).Az =
        -(fullTurn angleUnit / 2) := by
  have AngleTo360_nonneg := aux_17.1
  have AngleTo360_lt := aux_17.2
  have hypot_eq_zero_iff := aux_6.2.1
  have hypot_mul_sin_atan2 := aux_6.2.2
  have hypot_mul_cos_atan2 := aux_13.1
  have sin_AngleTo360 := aux_13.2.1
  have cos_AngleTo360 := aux_13.2.2
  have fromRadian_toRadian := aux_27
  have toRadian_neg := aux_29
  have fromRadian_pi := aux_31
  have hypot_pos_of_ne (x y : ℝ) (h : ¬ (x = 0 ∧ y = 0)) : 0 < hypot x y := by
    clear hs hA0 hA1 hB0 hB1 hdist hanti
    have h0 : 0 ≤ hypot x y := Real.sqrt_nonneg _
    rcases eq_or_lt_of_le h0 with he | hl
    · exact absurd ((hypot_eq_zero_iff x y).1 he.symm) h
    · exact hl
  have hypot_neg_neg (x y : ℝ) : hypot (-x) (-y) = hypot x y := by
    clear hs hA0 hA1 hB0 hB1 hdist hanti
    simp only [hypot, neg_mul_neg]
  have eq_pi_of_cos_eq_neg_one (t : ℝ) (h0 : -(2 * Real.pi) < t) (h1 : t < 2 * Real.pi)
      (h : Real.cos t = -1) : t = Real.pi ∨ t = -Real.pi := by
    clear hs hA0 hA1 hB0 hB1 hdist hanti
    have hc : Real.cos (t - Real.pi) = 1 := by
      rw [Real.cos_sub_pi, h, neg_neg]
    obtain ⟨k, hk⟩ := (Real.cos_eq_one_iff _).1 hc
    have hpi := Real.pi_pos
    have hk1 : (k : ℝ) * (2 * Real.pi) < 1 * (2 * Real.pi) := by linarith
    have hk2 : (-2 : ℝ) * (2 * Real.pi) < k * (2 * Real.pi) := by linarith
    have hk1' : (k : ℝ) < 1 := lt_of_mul_lt_mul_right hk1 (by positivity)
    have hk2' : (-2 : ℝ) < k := lt_of_mul_lt_mul_right hk2 (by positivity)
    have hk3 : k < 1 := by exact_mod_cast hk1'
    have hk4 : -2 < k := by exact_mod_cast hk2'
    have hk5 : k = 0 ∨ k = -1 := by omega
    rcases hk5 with hk0 | hk0
    · left
      rw [hk0] at hk
      push_cast at hk
      linarith
    · right
      rw [hk0] at hk
      push_cast at hk
      linarith
  -- The wrapped angles of a non-zero point and of its opposite point differ by
  -- half a turn.
  have AngleTo360_atan2_neg (x y : ℝ) (h : ¬ (x = 0 ∧ y = 0)) :
      AngleTo360 (atan2 y x) TAngleUnit.AU_Radian -
          AngleTo360 (atan2 (-y) (-x)) TAngleUnit.AU_Radian = Real.pi ∨
      AngleTo360 (atan2 y x) TAngleUnit.AU_Radian -
          AngleTo360 (atan2 (-y) (-x)) TAngleUnit.AU_Radian = -Real.pi := by
    clear hs hA0 hA1 hB0 hB1 hdist hanti
    have hr := hypot_pos_of_ne x y h
    have c1 := hypot_mul_cos_atan2 y x
    have s1 := hypot_mul_sin_atan2 y x
    have c2 := hypot_mul_cos_atan2 (-y) (-x)
    have s2 := hypot_mul_sin_atan2 (-y) (-x)
    rw [hypot_neg_neg] at c2 s2
    have hc : Real.cos (atan2 (-y) (-x)) = -Real.cos (atan2 y x) := by
      have : hypot x y * Real.cos (atan2 (-y) (-x)) = hypot x y * -Real.cos (atan2 y x) := by
        rw [c2, mul_neg, c1]
      exact mul_left_cancel₀ hr.ne' this
    have hs : Real.sin (atan2 (-y) (-x)) = -Real.sin (atan2 y x) := by
      have : hypot x y * Real.sin (atan2 (-y) (-x)) = hypot x y * -Real.sin (atan2 y x) := by
        rw [s2, mul_neg, s1]
      exact mul_left_cancel₀ hr.ne' this
    have n1 := AngleTo360_nonneg (atan2 y x) TAngleUnit.AU_Radian
    have n2 := AngleTo360_lt (atan2 y x) TAngleUnit.AU_Radian
    have n3 := AngleTo360_nonneg (atan2 (-y) (-x)) TAngleUnit.AU_Radian
    have n4 := AngleTo360_lt (atan2 (-y) (-x)) TAngleUnit.AU_Radian
    simp only [fullTurn] at n2 n4
    apply eq_pi_of_cos_eq_neg_one _ (by linarith) (by linarith)
    rw [Real.cos_sub, sin_AngleTo360, cos_AngleTo360, sin_AngleTo360, cos_AngleTo360, hc, hs]
    have := Real.sin_sq_add_cos_sq (atan2 y x)
    linarith
  have fromRadian_sub (au : TAngleUnit) (x y : ℝ) :
      fromRadian au x - fromRadian au y = fromRadian au (x - y) := by
    clear hs hA0 hA1 hB0 hB1 hdist hanti
    cases au
    · rfl
    · simp only [fromRadian]
      ring
  have fromRadian_neg (au : TAngleUnit) (x : ℝ) : fromRadian au (-x) = -fromRadian au x := by
    clear hs hA0 hA1 hB0 hB1 hdist hanti
    cases au <;> simp [fromRadian]
  have toRadian_injective (au : TAngleUnit) (x y : ℝ) (h : toRadian au x = toRadian au y) :
      x = y := by
    clear hs hA0 hA1 hB0 hB1 hdist hanti
    rw [← fromRadian_toRadian au x, ← fromRadian_toRadian au y, h]
  have sphere_bearings_core (a latA lonA latB lonB : ℝ)
      (hA0 : -(Real.pi / 2) < latA) (hA1 : latA < Real.pi / 2)
      (hB0 : -(Real.pi / 2) < latB) (hB1 : latB < Real.pi / 2)
      (hdist : ¬ (latA = latB ∧ Real.cos (lonB - lonA) = 1))
      (hanti : ¬ (latB = -latA ∧ Real.cos (lonB - lonA) = -1)) :
      (GEOtoRADSphere a latA lonA latB lonB).AzEnd - (GEOtoRADSphere a latB lonB latA lonA).Az =
        Real.pi ∨
      (GEOtoRADSphere a latA lonA latB lonB).AzEnd - (GEOtoRADSphere a latB lonB latA lonA).Az =
        -Real.pi := by
    clear hs
    have hcA : 0 < Real.cos latA := Real.cos_pos_of_mem_Ioo ⟨hA0, hA1⟩
    have hne : ¬ (Real.cos latA * Real.sin latB * Real.cos (lonB - lonA) -
        Real.sin latA * Real.cos latB = 0 ∧ Real.cos latA * Real.sin (lonB - lonA) = 0) := by
      rintro ⟨hx, hy⟩
      have hsin : Real.sin (lonB - lonA) = 0 := by
        rcases mul_eq_zero.1 hy with h | h
        · exact absurd h hcA.ne'
        · exact h
      have hcos : Real.cos (lonB - lonA) ^ 2 = 1 := by
        have := Real.sin_sq_add_cos_sq (lonB - lonA)
        rw [hsin] at this
        linarith
      have hcos2 : Real.cos (lonB - lonA) = 1 ∨ Real.cos (lonB - lonA) = -1 := by
        have h3 : (Real.cos (lonB - lonA) - 1) * (Real.cos (lonB - lonA) + 1) = 0 := by
          linear_combination hcos
        rcases mul_eq_zero.1 h3 with h | h
        · left
          linarith
        · right
          linarith
      rcases hcos2 with h | h
      · rw [h] at hx
        have hs : Real.sin (latB - latA) = 0 := by
          rw [Real.sin_sub]
          linarith
        have := (Real.sin_eq_zero_iff_of_lt_of_lt (by linarith) (by linarith)).1 hs
        exact hdist ⟨by linarith, h⟩
      · rw [h] at hx
        have hs : Real.sin (latB + latA) = 0 := by
          rw [Real.sin_add]
          linarith
        have := (Real.sin_eq_zero_iff_of_lt_of_lt (by linarith) (by linarith)).1 hs
        exact hanti ⟨by linarith, h⟩
    have h := AngleTo360_atan2_neg _ _ hne
    have e1 : Real.cos latA * Real.sin (lonA - lonB) = -(Real.cos latA * Real.sin (lonB - lonA)) := by
      rw [← neg_sub lonB lonA, Real.sin_neg]
      ring
    have e2 : Real.cos latB * Real.sin latA - Real.sin latB * Real.cos latA * Real.cos (lonA - lonB) =
        -(Real.cos latA * Real.sin latB * Real.cos (lonB - lonA) -
          Real.sin latA * Real.cos latB) := by
      rw [← neg_sub lonB lonA, Real.cos_neg]
      ring
    ((try unfold GEOtoRADSphere); try simp only [e1, e2])
    exact h
  have h := sphere_bearings_core ellipsoid.a (toRadian angleUnit latA) (toRadian angleUnit lonA)
    (toRadian angleUnit latB) (toRadian angleUnit lonB) hA0 hA1 hB0 hB1
    (fun hh => hdist ⟨toRadian_injective _ _ _ hh.1, hh.2⟩)
    (fun hh => hanti ⟨toRadian_injective _ _ _ (by rw [hh.1, toRadian_neg]), hh.2⟩)
  have hs' : AreEqualAbs eps ellipsoid.a ellipsoid.b := hs
  ((try unfold GEOtoRAD); (try unfold CEllipsoid.B); (try unfold CEllipsoid.A); try simp only [hs', if_true, fromRadian_sub])
  rcases h with h | h
  · left
    rw [h, fromRadian_pi]
  · right
    rw [h, fromRadian_neg, fromRadian_pi]

/-- Witness for C35: the unit sphere, degrees, from `(10°, 20°)` to `(30°, 20°)`
(same meridian, so the difference of the longitudes has cosine 1). -/
theorem sphere_back_bearing_witness :
    (GEOtoRAD 0 { name := "unit sphere", a := 1, b := 1, f := 0, invf := DoubleArg.posInf }
        TRangeUnit.RU_Meter TAngleUnit.AU_Degree 10 20 30 20).AzEnd -
      (GEOtoRAD 0 { name := "unit sphere", a := 1, b := 1, f := 0, invf := DoubleArg.posInf }
        TRangeUnit.RU_Meter TAngleUnit.AU_Degree 30 20 10 20).Az =
        fullTurn TAngleUnit.AU_Degree / 2 ∨
    (GEOtoRAD 0 { name := "unit sphere", a := 1, b := 1, f := 0, invf := DoubleArg.posInf }
        TRangeUnit.RU_Meter TAngleUnit.AU_Degree 10 20 30 20).AzEnd -
      (GEOtoRAD 0 { name := "unit sphere", a := 1, b := 1, f := 0, invf := DoubleArg.posInf }
        TRangeUnit.RU_Meter TAngleUnit.AU_Degree 30 20 10 20).Az =
        -(fullTurn TAngleUnit.AU_Degree / 2) :=
  sphere_back_bearing 0
    { name := "unit sphere", a := 1, b := 1, f := 0, invf := DoubleArg.posInf }
    (by ((try unfold CEllipsoid.B); (try unfold CEllipsoid.A); (try unfold Compare.AreEqualAbs); norm_num))
    TRangeUnit.RU_Meter TAngleUnit.AU_Degree 10 20 30 20
    (by have := Real.pi_pos; simp only [toRadian, DgToRdD]; linarith)
    (by have := Real.pi_pos; simp only [toRadian, DgToRdD]; linarith)
    (by have := Real.pi_pos; simp only [toRadian, DgToRdD]; linarith)
    (by have := Real.pi_pos; simp only [toRadian, DgToRdD]; linarith)
    (by norm_num)
    (by simp only [sub_self, Real.cos_zero]; norm_num)

/-! ## Exchanging the two points of the inverse problem -/

/-- C32, as amended: on a non-spherical ellipsoid with `0 < b ≤ a`, `a² ≤ 2 b²`
and flattening `f < 1`, for two points of equal longitude whose latitudes lie
strictly between -90 and 90 degrees and whose reduced latitudes the co-incident
points test tells apart (for the exact test: distinct latitudes), `GEOtoRAD`
leaves its loop by the loop condition after exactly one pass with `lambda = 0`,
returns `az = azEnd = 0` when the end point is north of the start point and
`az = azEnd = 180` degrees when it is south of it, and returns `d > 0`. -/
theorem GEOtoRAD_meridian (eps : ℝ) (heps : 0 ≤ eps) (ellipsoid : CEllipsoid)
    (hns : ¬ AreEqualAbs eps ellipsoid.A ellipsoid.B) (hb : 0 < ellipsoid.b)
    (hba : ellipsoid.b ≤ ellipsoid.a)
    (hecc : ellipsoid.a * ellipsoid.a ≤ 2 * (ellipsoid.b * ellipsoid.b))
    (hf : ellipsoid.F < 1) (rangeUnit : TRangeUnit) (angleUnit : TAngleUnit)
    (lat1 lat2 lon : ℝ)
    (h10 : -(Real.pi / 2) < toRadian angleUnit lat1) (h11 : toRadian angleUnit lat1 < Real.pi / 2)
    (h20 : -(Real.pi / 2) < toRadian angleUnit lat2) (h21 : toRadian angleUnit lat2 < Real.pi / 2)
    (hz : eps < |Real.sin (reducedLat ellipsoid.F (toRadian angleUnit lat2) -
      reducedLat ellipsoid.F (toRadian angleUnit lat1))|) :
    (∃ v, GEOtoRADTrace eps ellipsoid angleUnit lat1 lon lat2 lon =
      some (InverseExit.finished v 1) ∧ v.lambda = 0) ∧
    (lat1 < lat2 →
      (GEOtoRAD eps ellipsoid rangeUnit angleUnit lat1 lon lat2 lon).Az = 0 ∧
      (GEOtoRAD eps ellipsoid rangeUnit angleUnit lat1 lon lat2 lon).AzEnd = 0) ∧
    (lat2 < lat1 →
      (GEOtoRAD eps ellipsoid rangeUnit angleUnit lat1 lon lat2 lon).Az =
        fullTurn angleUnit / 2 ∧
      (GEOtoRAD eps ellipsoid rangeUnit angleUnit lat1 lon lat2 lon).AzEnd =
        fullTurn angleUnit / 2) ∧
    0 < (GEOtoRAD eps ellipsoid rangeUnit angleUnit lat1 lon lat2 lon).R := by
  have AngleTo360_of_mem := aux_12
  have atan2_zero_nonneg := aux_9
  have fromRadian_pi := aux_31
  have inversePass_meridian := aux_23.1
  have inverseSinSigma_meridian := aux_23.2.2.1
  have toRadian_lt := aux_24.2.2.1
  have vincenty_AB_range := aux_25
  have lt_atan2_of_unit := aux_34
  have GEOtoRADLoop_meridian := aux_23.2.2.2
  have sin_reducedLat_sub_pos := aux_24.2.2.2
  have atan2_zero_neg (x : ℝ) (hx : x < 0) : atan2 0 x = Real.pi := by
    clear heps hns hb hba hecc hf h10 h11 h20 h21 hz
    unfold atan2
    rw [Complex.arg_eq_pi_iff]
    exact ⟨hx, rfl⟩
  have abs_poly_bounds (y m : ℝ) (hy0 : 0 ≤ y) (hy1 : y ≤ 1) (hm : |m| ≤ 1) :
      |(-1.0 : ℝ) + 2.0 * m * m| ≤ 1 ∧ |(-3.0 : ℝ) + 4.0 * y * y| ≤ 3 ∧
      |(-3.0 : ℝ) + 4.0 * m * m| ≤ 3 := by
    clear heps hns hb hba hecc hf h10 h11 h20 h21 hz
    have hm2 : m * m ≤ 1 := by
      have h := abs_le.1 hm
      have h1 : 0 ≤ (1 - m) * (1 + m) := mul_nonneg (by linarith [h.2]) (by linarith [h.1])
      linarith
    have hm0 : 0 ≤ m * m := mul_self_nonneg m
    have hy2 : y * y ≤ 1 := by
      have h1 : 0 ≤ (1 - y) * (1 + y) := mul_nonneg (by linarith) (by linarith)
      linarith
    have hy20 : 0 ≤ y * y := mul_self_nonneg y
    have e1 : (-1.0 : ℝ) + 2.0 * m * m = -1 + 2 * (m * m) := by norm_num; ring
    have e2 : (-3.0 : ℝ) + 4.0 * y * y = -3 + 4 * (y * y) := by norm_num; ring
    have e3 : (-3.0 : ℝ) + 4.0 * m * m = -3 + 4 * (m * m) := by norm_num; ring
    rw [e1, e2, e3, abs_le, abs_le, abs_le]
    refine ⟨⟨?_, ?_⟩, ⟨?_, ?_⟩, ⟨?_, ?_⟩⟩ <;> linarith
  have deltaSigma_inner_le (B x y m : ℝ) (hB0 : 0 ≤ B) (hB1 : B ≤ 1 / 3) (hx : |x| ≤ 1)
      (hy0 : 0 ≤ y) (hy1 : y ≤ 1) (hm : |m| ≤ 1) :
      x * (-1.0 + 2.0 * m * m) -
        (B / 6.0) * m * (-3.0 + 4.0 * y * y) * (-3.0 + 4.0 * m * m) ≤ 3 / 2 := by
    clear heps hns hb hba hecc hf h10 h11 h20 h21 hz
    obtain ⟨a1, a2, a3⟩ := abs_poly_bounds y m hy0 hy1 hm
    have t1 : |x * (-1.0 + 2.0 * m * m)| ≤ 1 := by
      rw [abs_mul]
      calc |x| * |(-1.0 : ℝ) + 2.0 * m * m| ≤ 1 * 1 :=
            mul_le_mul hx a1 (abs_nonneg _) (by norm_num)
        _ = 1 := by norm_num
    have t2 : |m * (-3.0 + 4.0 * y * y) * (-3.0 + 4.0 * m * m)| ≤ 9 := by
      rw [abs_mul, abs_mul]
      calc |m| * |(-3.0 : ℝ) + 4.0 * y * y| * |(-3.0 : ℝ) + 4.0 * m * m| ≤ 1 * 3 * 3 :=
            mul_le_mul (mul_le_mul hm a2 (abs_nonneg _) (by norm_num)) a3 (abs_nonneg _)
              (by norm_num)
        _ = 9 := by norm_num
    have u1 := (abs_le.1 t1).2
    have u2 := (abs_le.1 t2).1
    have e : (B / 6.0) * m * (-3.0 + 4.0 * y * y) * (-3.0 + 4.0 * m * m) =
        (B / 6) * (m * (-3.0 + 4.0 * y * y) * (-3.0 + 4.0 * m * m)) := by
      norm_num
      ring
    rw [e]
    have hB6 : 0 ≤ B / 6 := by positivity
    have h3 := mul_le_mul_of_nonneg_left u2 hB6
    have h4 : B / 6 * -9 ≥ -(1 / 2) := by linarith
    linarith
  have deltaSigma_le_half (B x y m : ℝ) (hB0 : 0 ≤ B) (hB1 : B ≤ 1 / 3) (hx : |x| ≤ 1)
      (hy0 : 0 ≤ y) (hy1 : y ≤ 1) (hm : |m| ≤ 1) :
      B * y * (m + (B / 4.0) * (x * (-1.0 + 2.0 * m * m) -
        (B / 6.0) * m * (-3.0 + 4.0 * y * y) * (-3.0 + 4.0 * m * m))) ≤ y / 2 := by
    clear heps hns hb hba hecc hf h10 h11 h20 h21 hz
    have hin := deltaSigma_inner_le B x y m hB0 hB1 hx hy0 hy1 hm
    have u3 := (abs_le.1 hm).2
    have hB4 : (0 : ℝ) ≤ B / 4.0 := by positivity
    have hB4' : B / 4.0 ≤ 1 / 12 := by
      norm_num
      linarith
    have h5 := mul_le_mul_of_nonneg_left hin hB4
    have h6 : B / 4.0 * (3 / 2) ≤ 1 / 12 * (3 / 2) := mul_le_mul_of_nonneg_right hB4' (by norm_num)
    have hfac : m + (B / 4.0) * (x * (-1.0 + 2.0 * m * m) -
        (B / 6.0) * m * (-3.0 + 4.0 * y * y) * (-3.0 + 4.0 * m * m)) ≤ 9 / 8 := by
      linarith
    have hBy : 0 ≤ B * y := mul_nonneg hB0 hy0
    have h1 := mul_le_mul_of_nonneg_left hfac hBy
    have h2 : B * y ≤ 1 / 3 * y := mul_le_mul_of_nonneg_right hB1 hy0
    linarith
  have meridian_distance_pos (a b f U1 U2 : ℝ) (hb : 0 < b) (hba : b ≤ a)
      (hecc : a * a ≤ 2 * (b * b)) (hy : 0 < |Real.sin (U2 - U1)|) :
      0 < (GEOtoRADFinish a b (Real.sin U1) (Real.cos U1) (Real.sin U2) (Real.cos U2)
        (inversePass f 0 (Real.sin U1) (Real.cos U1) (Real.sin U2) (Real.cos U2) 0)).R := by
    clear heps hns hf h10 h11 h20 h21 hz
    rw [inversePass_meridian, inverseSinSigma_meridian]
    have hx : Real.sin U1 * Real.sin U2 + Real.cos U1 * Real.cos U2 = Real.cos (U2 - U1) := by
      rw [Real.cos_sub]
      ring
    have hm : Real.cos (U2 - U1) - 2.0 * Real.sin U1 * Real.sin U2 = Real.cos (U1 + U2) := by
      rw [Real.cos_add, Real.cos_sub]
      norm_num
      ring
    ((try unfold GEOtoRADFinish); try simp only [hx, hm, one_mul])
    have hbb : 0 < b * b := mul_pos hb hb
    have hu0 : 0 ≤ (a * a - b * b) / (b * b) := by
      apply div_nonneg _ hbb.le
      nlinarith
    have hu1 : (a * a - b * b) / (b * b) ≤ 1 := by
      rw [div_le_one hbb]
      linarith
    obtain ⟨hA, hB0, hB1⟩ := vincenty_AB_range _ hu0 hu1
    have hy1 : |Real.sin (U2 - U1)| ≤ 1 := Real.abs_sin_le_one _
    have hunit : Real.cos (U2 - U1) * Real.cos (U2 - U1) +
        |Real.sin (U2 - U1)| * |Real.sin (U2 - U1)| = 1 := by
      rw [abs_mul_abs_self]
      have := Real.sin_sq_add_cos_sq (U2 - U1)
      linarith
    have hsig := lt_atan2_of_unit _ _ hy hunit
    have hds := deltaSigma_le_half _ (Real.cos (U2 - U1)) _ (Real.cos (U1 + U2)) hB0 hB1
      (Real.abs_cos_le_one _) hy.le hy1 (Real.abs_cos_le_one _)
    apply mul_pos (mul_pos hb hA)
    linarith
  have meridian_bearing_north (s1 c1 s2 c2 : ℝ) (h : 0 < c1 * s2 - s1 * c2) :
      AngleTo360 (atan2 (c2 * 0) (c1 * s2 - s1 * c2 * 1)) TAngleUnit.AU_Radian = 0 ∧
      AngleTo360 (atan2 (c1 * 0) (-s1 * c2 + c1 * s2 * 1)) TAngleUnit.AU_Radian = 0 := by
    clear heps hns hb hba hecc hf h10 h11 h20 h21 hz
    have e1 : -s1 * c2 + c1 * s2 * 1 = c1 * s2 - s1 * c2 := by ring
    have h0 : AngleTo360 0 TAngleUnit.AU_Radian = 0 := by ((try unfold AngleTo360); simp)
    rw [e1, mul_zero, mul_zero, mul_one, atan2_zero_nonneg _ h.le, h0]
    exact ⟨rfl, rfl⟩
  have meridian_bearing_south (s1 c1 s2 c2 : ℝ) (h : c1 * s2 - s1 * c2 < 0) :
      AngleTo360 (atan2 (c2 * 0) (c1 * s2 - s1 * c2 * 1)) TAngleUnit.AU_Radian = Real.pi ∧
      AngleTo360 (atan2 (c1 * 0) (-s1 * c2 + c1 * s2 * 1)) TAngleUnit.AU_Radian = Real.pi := by
    clear heps hns hb hba hecc hf h10 h11 h20 h21 hz
    have e1 : -s1 * c2 + c1 * s2 * 1 = c1 * s2 - s1 * c2 := by ring
    have hpi := Real.pi_pos
    have h0 : AngleTo360 Real.pi TAngleUnit.AU_Radian = Real.pi :=
      AngleTo360_of_mem _ _ hpi.le (by simp only [fullTurn]; linarith)
    rw [e1, mul_zero, mul_zero, mul_one, atan2_zero_neg _ h, h0]
    exact ⟨rfl, rfl⟩
  have fromMeter_pos (ru : TRangeUnit) (x : ℝ) (h : 0 < x) : 0 < fromMeter ru x := by
    clear heps hns hb hba hecc hf h10 h11 h20 h21 hz
    cases ru
    · exact h
    · simp only [fromMeter]
      positivity
  have fromRadian_zero (au : TAngleUnit) : fromRadian au 0 = 0 := by
    clear heps hns hb hba hecc hf h10 h11 h20 h21 hz
    cases au <;> simp [fromRadian]
  have hloop := GEOtoRADLoop_meridian eps ellipsoid.F (toRadian angleUnit lat1)
    (toRadian angleUnit lat2) (toRadian angleUnit lon) hz
  have hsub : Real.cos (reducedLat ellipsoid.F (toRadian angleUnit lat1)) *
      Real.sin (reducedLat ellipsoid.F (toRadian angleUnit lat2)) -
      Real.sin (reducedLat ellipsoid.F (toRadian angleUnit lat1)) *
      Real.cos (reducedLat ellipsoid.F (toRadian angleUnit lat2)) =
      Real.sin (reducedLat ellipsoid.F (toRadian angleUnit lat2) -
        reducedLat ellipsoid.F (toRadian angleUnit lat1)) := by
    rw [Real.sin_sub]
    ring
  refine ⟨⟨inversePass ellipsoid.F 0 (Real.sin (reducedLat ellipsoid.F (toRadian angleUnit lat1)))
    (Real.cos (reducedLat ellipsoid.F (toRadian angleUnit lat1)))
    (Real.sin (reducedLat ellipsoid.F (toRadian angleUnit lat2)))
    (Real.cos (reducedLat ellipsoid.F (toRadian angleUnit lat2))) 0, ?_, ?_⟩, ?_, ?_, ?_⟩
  · ((try unfold GEOtoRADTrace); try simp only [hns, if_false, hloop])
  · rw [inversePass_meridian]
  · intro h12
    have hpos := sin_reducedLat_sub_pos ellipsoid.F _ _ hf h10 (toRadian_lt angleUnit _ _ h12) h21
    rw [← hsub] at hpos
    obtain ⟨b1, b2⟩ := meridian_bearing_north _ _ _ _ hpos
    ((try unfold GEOtoRAD); (try unfold GEOtoRADFinish); try simp only [hns, if_false, hloop, inversePass_meridian, b1, b2,
      fromRadian_zero])
    exact ⟨trivial, trivial⟩
  · intro h21'
    have hpos := sin_reducedLat_sub_pos ellipsoid.F _ _ hf h20 (toRadian_lt angleUnit _ _ h21') h11
    have hneg : Real.cos (reducedLat ellipsoid.F (toRadian angleUnit lat1)) *
        Real.sin (reducedLat ellipsoid.F (toRadian angleUnit lat2)) -
        Real.sin (reducedLat ellipsoid.F (toRadian angleUnit lat1)) *
        Real.cos (reducedLat ellipsoid.F (toRadian angleUnit lat2)) < 0 := by
      rw [hsub, ← neg_sub, Real.sin_neg]
      linarith
    obtain ⟨b1, b2⟩ := meridian_bearing_south _ _ _ _ hneg
    ((try unfold GEOtoRAD); (try unfold GEOtoRADFinish); try simp only [hns, if_false, hloop, inversePass_meridian, b1, b2,
      fromRadian_pi])
    exact ⟨trivial, trivial⟩
  · have hd := meridian_distance_pos ellipsoid.a ellipsoid.b ellipsoid.F
      (reducedLat ellipsoid.F (toRadian angleUnit lat1))
      (reducedLat ellipsoid.F (toRadian angleUnit lat2)) hb hba hecc (lt_of_le_of_lt heps hz)
    ((try unfold GEOtoRAD); try simp only [hns, if_false, hloop])
    exact fromMeter_pos _ _ hd

/-- Witness for C32 as amended: WGS-84 with exact comparisons, degrees and
kilometres, the points `(10°, 37°)` and `(20°, 37°)`. -/
theorem GEOtoRAD_meridian_witness :
    (∃ v, GEOtoRADTrace 0 WGS84 TAngleUnit.AU_Degree 10 37 20 37 =
      some (InverseExit.finished v 1) ∧ v.lambda = 0) ∧
    ((10 : ℝ) < 20 →
      (GEOtoRAD 0 WGS84 TRangeUnit.RU_Kilometer TAngleUnit.AU_Degree 10 37 20 37).Az = 0 ∧
      (GEOtoRAD 0 WGS84 TRangeUnit.RU_Kilometer TAngleUnit.AU_Degree 10 37 20 37).AzEnd = 0) ∧
    ((20 : ℝ) < 10 →
      (GEOtoRAD 0 WGS84 TRangeUnit.RU_Kilometer TAngleUnit.AU_Degree 10 37 20 37).Az =
        fullTurn TAngleUnit.AU_Degree / 2 ∧
      (GEOtoRAD 0 WGS84 TRangeUnit.RU_Kilometer TAngleUnit.AU_Degree 10 37 20 37).AzEnd =
        fullTurn TAngleUnit.AU_Degree / 2) ∧
    0 < (GEOtoRAD 0 WGS84 TRangeUnit.RU_Kilometer TAngleUnit.AU_Degree 10 37 20 37).R := by
  have toRadian_lt := aux_24.2.2.1
  have sin_reducedLat_sub_pos := aux_24.2.2.2
  exact GEOtoRAD_meridian 0 le_rfl WGS84
      (by ((try unfold WGS84); (try unfold CEllipsoid.B); (try unfold CEllipsoid.A); (try unfold Compare.AreEqualAbs); norm_num))
      (by ((try unfold WGS84); norm_num)) (by ((try unfold WGS84); norm_num)) (by ((try unfold WGS84); norm_num))
      (by ((try unfold WGS84); (try unfold CEllipsoid.F); norm_num))
      TRangeUnit.RU_Kilometer TAngleUnit.AU_Degree 10 20 37
      (by have := Real.pi_pos; simp only [toRadian, DgToRdD]; linarith)
      (by have := Real.pi_pos; simp only [toRadian, DgToRdD]; linarith)
      (by have := Real.pi_pos; simp only [toRadian, DgToRdD]; linarith)
      (by have := Real.pi_pos; simp only [toRadian, DgToRdD]; linarith)
      (abs_pos.2 (ne_of_gt (sin_reducedLat_sub_pos _ _ _ (by ((try unfold WGS84); (try unfold CEllipsoid.F); norm_num))
        (by have := Real.pi_pos; simp only [toRadian, DgToRdD]; linarith)
        (toRadian_lt _ _ _ (by norm_num))
        (by have := Real.pi_pos; simp only [toRadian, DgToRdD]; linarith))))

/-- Counterexample for C32: two ellipsoids that the constructor builds, both
non-spherical with `0 < b ≤ a`.  On the first (`a = 12`, `b = 5`, inverse
flattening `12/7` authoritative, so `f = 7/12 = 1 - b/a`) `GEOtoRAD` from
`(0°, 0°)` to `(45°, 0°)` returns a negative distance.  On the second (`a = 2`,
`b = 1`, inverse flattening `1` with the semi-minor axis authoritative, so
`f = 1`) `GEOtoRAD` from `(45°, 0°)` to `(0°, 0°)` takes the co-incident points
return: `d = 0` and `az = 0`, not 180 degrees. -/
theorem GEOtoRAD_meridian_counterexample :
    (¬ AreEqualAbs 0 (CEllipsoid.ctor 0 "oblate" 12 0 (DoubleArg.finite (12 / 7)) true).A
        (CEllipsoid.ctor 0 "oblate" 12 0 (DoubleArg.finite (12 / 7)) true).B ∧
      (CEllipsoid.ctor 0 "oblate" 12 0 (DoubleArg.finite (12 / 7)) true).A = 12 ∧
      (CEllipsoid.ctor 0 "oblate" 12 0 (DoubleArg.finite (12 / 7)) true).B = 5 ∧
      (GEOtoRAD 0 (CEllipsoid.ctor 0 "oblate" 12 0 (DoubleArg.finite (12 / 7)) true)
        TRangeUnit.RU_Meter TAngleUnit.AU_Degree 0 0 45 0).R < 0) ∧
    (¬ AreEqualAbs 0 (CEllipsoid.ctor 0 "flat" 2 1 (DoubleArg.finite 1) false).A
        (CEllipsoid.ctor 0 "flat" 2 1 (DoubleArg.finite 1) false).B ∧
      (CEllipsoid.ctor 0 "flat" 2 1 (DoubleArg.finite 1) false).A = 2 ∧
      (CEllipsoid.ctor 0 "flat" 2 1 (DoubleArg.finite 1) false).B = 1 ∧
      GEOtoRAD 0 (CEllipsoid.ctor 0 "flat" 2 1 (DoubleArg.finite 1) false)
        TRangeUnit.RU_Meter TAngleUnit.AU_Degree 45 0 0 0 = { R := 0, Az := 0, AzEnd := 0 }) := by
  have reducedLat_zero := aux_10
  have fromMeter_meter := aux_7
  have inverseLoop_coincident := aux_30
  have inversePass_meridian := aux_23.1
  have inverseSinSigma_meridian := aux_23.2.2.1
  have lt_atan2_of_unit := aux_34
  have GEOtoRADLoop_meridian := aux_23.2.2.2
  have sin_cos_arctan_five_twelfths :
      Real.sin (Real.arctan (5 / 12)) = 5 / 13 ∧ Real.cos (Real.arctan (5 / 12)) = 12 / 13 := by
    have hs : Real.sqrt (1 + (5 / 12 : ℝ) ^ 2) = 13 / 12 := by
      rw [show (1 : ℝ) + (5 / 12) ^ 2 = (13 / 12) ^ 2 by norm_num]
      exact Real.sqrt_sq (by norm_num)
    rw [Real.sin_arctan, Real.cos_arctan, hs]
    constructor <;> norm_num
  have oblate_meridian_distance_neg :
      (GEOtoRADFinish 12 5 0 1 (5 / 13) (12 / 13) (inversePass (7 / 12) 0 0 1 (5 / 13) (12 / 13) 0)).R
        < 0 := by
    have hss : inverseSinSigma 0 1 (5 / 13) (12 / 13) 0 = 5 / 13 := by
      ((try unfold inverseSinSigma); try simp only [Real.sin_zero, Real.cos_zero, mul_zero, mul_one, zero_mul, sub_zero,
        zero_add])
      rw [show (1 : ℝ) * (5 / 13) * (1 * (5 / 13)) = (5 / 13) ^ 2 by ring]
      exact Real.sqrt_sq (by norm_num)
    have hsig := lt_atan2_of_unit (12 / 13) (5 / 13) (by norm_num) (by norm_num)
    rw [inversePass_meridian, hss]
    ((try unfold GEOtoRADFinish); try simp only)
    norm_num
    linarith
  have hA : (CEllipsoid.ctor 0 "oblate" 12 0 (DoubleArg.finite (12 / 7)) true).A = 12 := by
    ((try unfold CEllipsoid.A); (try unfold CEllipsoid.ctor); norm_num [DoubleArg.IsZeroAbs, Compare.IsZeroAbs,
      DoubleArg.isinf])
  have hB : (CEllipsoid.ctor 0 "oblate" 12 0 (DoubleArg.finite (12 / 7)) true).B = 5 := by
    ((try unfold CEllipsoid.B); (try unfold CEllipsoid.ctor); norm_num [DoubleArg.IsZeroAbs, Compare.IsZeroAbs,
      DoubleArg.isinf, DoubleArg.recip])
  have hF : (CEllipsoid.ctor 0 "oblate" 12 0 (DoubleArg.finite (12 / 7)) true).F = 7 / 12 := by
    ((try unfold CEllipsoid.F); (try unfold CEllipsoid.ctor); norm_num [DoubleArg.IsZeroAbs, Compare.IsZeroAbs,
      DoubleArg.isinf, DoubleArg.recip])
  have hA2 : (CEllipsoid.ctor 0 "flat" 2 1 (DoubleArg.finite 1) false).A = 2 := by
    ((try unfold CEllipsoid.A); (try unfold CEllipsoid.ctor); norm_num)
  have hB2 : (CEllipsoid.ctor 0 "flat" 2 1 (DoubleArg.finite 1) false).B = 1 := by
    ((try unfold CEllipsoid.B); (try unfold CEllipsoid.ctor); norm_num)
  have hF2 : (CEllipsoid.ctor 0 "flat" 2 1 (DoubleArg.finite 1) false).F = 1 := by
    ((try unfold CEllipsoid.F); (try unfold CEllipsoid.ctor); norm_num [DoubleArg.recip])
  have hns : ¬ AreEqualAbs 0 (12 : ℝ) 5 := by ((try unfold Compare.AreEqualAbs); norm_num)
  have hns2 : ¬ AreEqualAbs 0 (2 : ℝ) 1 := by ((try unfold Compare.AreEqualAbs); norm_num)
  have h45 : toRadian TAngleUnit.AU_Degree 45 = Real.pi / 4 := by
    simp only [toRadian, DgToRdD]
    ring
  have h0 : toRadian TAngleUnit.AU_Degree 0 = 0 := by simp [toRadian]
  have hU2 : reducedLat (7 / 12) (Real.pi / 4) = Real.arctan (5 / 12) := by
    ((try unfold reducedLat); try simp only [Real.tan_pi_div_four])
    norm_num
  obtain ⟨hs, hc⟩ := sin_cos_arctan_five_twelfths
  refine ⟨⟨by rw [hA, hB]; exact hns, hA, hB, ?_⟩, ⟨by rw [hA2, hB2]; exact hns2, hA2, hB2, ?_⟩⟩
  · have hz : (0 : ℝ) < |Real.sin (reducedLat (7 / 12) (Real.pi / 4) - reducedLat (7 / 12) 0)| := by
      rw [hU2, reducedLat_zero, sub_zero, hs]
      norm_num
    have hloop := GEOtoRADLoop_meridian 0 (7 / 12) 0 (Real.pi / 4) 0 hz
    ((try unfold GEOtoRAD); try simp only [hA, hB, hF, hns, if_false, h45, h0, hloop, fromMeter_meter, hU2,
      reducedLat_zero, hs, hc, Real.sin_zero, Real.cos_zero])
    exact oblate_meridian_distance_neg
  · have hU : ∀ x : ℝ, reducedLat 1 x = 0 := by
      intro x
      ((try unfold reducedLat); try simp only)
      norm_num
    have hz : IsZeroAbs 0 (inverseSinSigma (Real.sin 0) (Real.cos 0) (Real.sin 0) (Real.cos 0)
        (0 - 0)) := by
      rw [sub_self, inverseSinSigma_meridian]
      ((try unfold Compare.IsZeroAbs); simp)
    have hloop : GEOtoRADLoop 0 1 (Real.pi / 4) 0 0 0 = InverseExit.coincident 1 := by
      ((try unfold GEOtoRADLoop); try simp only [hU])
      exact inverseLoop_coincident _ _ _ _ _ _ _ _ _ _ hz
    ((try unfold GEOtoRAD); try simp only [hA2, hB2, hF2, hns2, if_false, h45, h0, hloop])
    norm_num

/-! ## The direct problem at distance zero: the result -/

/-- C33, as amended: for every ellipsoid with `0 < b ≤ a`, `a² ≤ 2 b²` and
flattening `f < 1`, every start point with latitude strictly between -90 and 90
degrees, every azimuth and every unit choice, `RADtoGEO` with `d = 0` returns
`latEnd = latStart`, `lonEnd = lonStart` and `azEnd` equal to `az` wrapped into
`[0, 360)` degrees; on the ellipsoidal branch the loop is left in its first pass
(on the spherical branch there is no loop).  Neither branch divides by zero: the
divisor `a` of the spherical branch is positive, and so is the divisor `b * A` of
the ellipsoidal branch for every value `uSq` between `0` and `(a² - b²) / b²`. -/
theorem RADtoGEO_zero_distance (eps : ℝ) (ellipsoid : CEllipsoid)
    (hb : 0 < ellipsoid.B) (hba : ellipsoid.B ≤ ellipsoid.A)
    (hab : ellipsoid.A * ellipsoid.A ≤ 2 * (ellipsoid.B * ellipsoid.B))
    (hf : ellipsoid.F < 1)
    (rangeUnit : TRangeUnit) (angleUnit : TAngleUnit) (lat lon az : ℝ)
    (h0 : -(Real.pi / 2) < toRadian angleUnit lat) (h1 : toRadian angleUnit lat < Real.pi / 2) :
    RADtoGEO eps ellipsoid rangeUnit angleUnit lat lon 0 az =
      { latEnd := lat, lonEnd := lon, azEnd := AngleTo360 az angleUnit } ∧
    (RADtoGEOTrace eps ellipsoid rangeUnit angleUnit lat lon 0 az = none ∨
      RADtoGEOTrace eps ellipsoid rangeUnit angleUnit lat lon 0 az = some 1) ∧
    0 < ellipsoid.A ∧
    ∀ uSq : ℝ, 0 ≤ uSq →
      uSq ≤ (ellipsoid.A * ellipsoid.A - ellipsoid.B * ellipsoid.B) /
        (ellipsoid.B * ellipsoid.B) →
      0 < ellipsoid.B * (1.0 + (uSq / 16384.0) *
        (4096.0 + uSq * (-768.0 + uSq * (320.0 - 175.0 * uSq)))) := by
  have fromRadian_toRadian := aux_27
  have atan2_zero_nonneg := aux_9
  have directLoop_zero := aux_32
  have atan2_scaled_mem := aux_33
  have vincenty_AB_range := aux_25
  have atan2_scaled (r t : ℝ) (hr : 0 < r) :
      ∃ k : ℤ, atan2 (r * Real.sin t) (r * Real.cos t) = t + k * (2 * Real.pi) := by
    clear hb hba hab hf h0 h1
    have hmk : (⟨r * Real.cos t, r * Real.sin t⟩ : ℂ) =
        (r : ℂ) * (Complex.cos t + Complex.sin t * Complex.I) := by
      apply Complex.ext
      · simp [Complex.cos_ofReal_re, Complex.sin_ofReal_im]
      · simp [Complex.cos_ofReal_im, Complex.sin_ofReal_re]
    have h := Complex.arg_mul_cos_add_sin_mul_I_sub hr t
    refine ⟨⌊(Real.pi - t) / (2 * Real.pi)⌋, ?_⟩
    unfold atan2
    rw [hmk]
    linarith
  have AngleTo360_add_turns (x : ℝ) (k : ℤ) :
      AngleTo360 (x + k * (2 * Real.pi)) TAngleUnit.AU_Radian =
        AngleTo360 x TAngleUnit.AU_Radian := by
    clear hb hba hab hf h0 h1
    have hp : (2 * Real.pi) ≠ 0 := by positivity
    ((try unfold AngleTo360); try simp only [fullTurn])
    rw [add_div, mul_div_assoc, div_self hp, mul_one, Int.floor_add_int]
    push_cast
    ring
  have AngleTo360_atan2_scaled (r t : ℝ) (hr : 0 < r) :
      AngleTo360 (atan2 (r * Real.sin t) (r * Real.cos t)) TAngleUnit.AU_Radian =
        AngleTo360 t TAngleUnit.AU_Radian := by
    clear hb hba hab hf h0 h1
    obtain ⟨k, hk⟩ := atan2_scaled r t hr
    rw [hk, AngleTo360_add_turns]
  have fromRadian_AngleTo360 (au : TAngleUnit) (x : ℝ) :
      fromRadian au (AngleTo360 (toRadian au x) TAngleUnit.AU_Radian) = AngleTo360 x au := by
    clear hb hba hab hf h0 h1
    cases au
    · rfl
    · have hp := Real.pi_pos
      have h : x * (Real.pi / 180) / (2 * Real.pi) = x / 360 := by
        field_simp
        ring
      ((try unfold AngleTo360); try simp only [fromRadian, toRadian, fullTurn, DgToRdD, RdToDgD, h])
      field_simp
      ring
  have RADtoGEOEllipsoid_zero (a b f lat lon az : ℝ) (hf : f < 1)
      (h0 : -(Real.pi / 2) < lat) (h1 : lat < Real.pi / 2) :
      RADtoGEOEllipsoid a b f lat lon 0 az =
        { latEnd := lat, lonEnd := lon, azEnd := AngleTo360 az TAngleUnit.AU_Radian } := by
    clear hb hba hab
    ((try unfold RADtoGEOEllipsoid); try simp only [zero_div, directLoop_zero, Real.sin_zero, Real.cos_zero, mul_zero,
      mul_one, zero_mul, add_zero, zero_sub, sub_zero, zero_add])
    set tu := (1.0 - f) * Real.tan lat with htu
    set cu := 1.0 / Real.sqrt (1.0 + tu * tu) with hcu_def
    have hc : 0 < Real.cos lat := Real.cos_pos_of_mem_Ioo ⟨h0, h1⟩
    have hq : (0 : ℝ) < 1.0 + tu * tu := by
      norm_num
      linarith [mul_self_nonneg tu]
    have hcu : 0 < cu := by
      rw [hcu_def]
      exact div_pos (by norm_num) (Real.sqrt_pos.2 hq)
    have hf1 : (0 : ℝ) < 1.0 - f := by
      norm_num
      linarith
    have hpi := Real.pi_pos
    have e := Real.sin_sq_add_cos_sq az
    have hsq : Real.sqrt (cu * Real.sin az * (cu * Real.sin az) +
        (-(cu * Real.cos az)) * (-(cu * Real.cos az))) = cu := by
      have : cu * Real.sin az * (cu * Real.sin az) +
          (-(cu * Real.cos az)) * (-(cu * Real.cos az)) = cu ^ 2 := by
        linear_combination cu ^ 2 * e
      rw [this, Real.sqrt_sq hcu.le]
    have hlat : atan2 (tu * cu) ((1.0 - f) * cu) = lat := by
      have hr : 0 < (1.0 - f) * cu / Real.cos lat := by positivity
      have h2 := atan2_scaled_mem _ lat hr (by linarith) (by linarith)
      have e1 : (1.0 - f) * cu / Real.cos lat * Real.sin lat = tu * cu := by
        rw [htu, Real.tan_eq_sin_div_cos]
        field_simp
        ring
      have e2 : (1.0 - f) * cu / Real.cos lat * Real.cos lat = (1.0 - f) * cu := by
        field_simp
      rw [e1, e2] at h2
      exact h2
    rw [hsq, hlat, atan2_zero_nonneg _ hcu.le, neg_neg, AngleTo360_atan2_scaled cu az hcu, add_zero]
  have RADtoGEOSphere_zero (a lat lon az : ℝ)
      (h0 : -(Real.pi / 2) < lat) (h1 : lat < Real.pi / 2) :
      RADtoGEOSphere a lat lon 0 az =
        { latEnd := lat, lonEnd := lon, azEnd := AngleTo360 az TAngleUnit.AU_Radian } := by
    clear hb hba hab hf
    have hc : 0 < Real.cos lat := Real.cos_pos_of_mem_Ioo ⟨h0, h1⟩
    ((try unfold RADtoGEOSphere); try simp only [zero_div, Real.sin_zero, Real.cos_zero, mul_zero, mul_one, zero_mul,
      add_zero, sub_zero, Real.arcsin_sin h0.le h1.le, atan2_zero_nonneg _ hc.le,
      AngleTo360_atan2_scaled _ az hc])
  have toMeter_zero (ru : TRangeUnit) : toMeter ru 0 = 0 := by
    clear hb hba hab hf h0 h1
    cases ru <;> simp [toMeter]
  refine ⟨?_, ?_, lt_of_lt_of_le hb hba, ?_⟩
  rotate_left 2
  · intro uSq hu0 hu1
    have hbb : 0 < ellipsoid.B * ellipsoid.B := mul_pos hb hb
    have hu2 : uSq ≤ 1 := by
      refine le_trans hu1 ?_
      rw [div_le_one hbb]
      linarith
    have hA := (vincenty_AB_range uSq hu0 hu2).1
    refine mul_pos hb ?_
    have e : (1.0 : ℝ) + (uSq / 16384.0) *
        (4096.0 + uSq * (-768.0 + uSq * (320.0 - 175.0 * uSq))) =
        1 + uSq / 16384.0 * (4096.0 + uSq * (-768.0 + uSq * (320.0 - 175.0 * uSq))) := by
      norm_num
    rw [e]
    linarith
  · by_cases hs : AreEqualAbs eps ellipsoid.A ellipsoid.B
    · ((try unfold RADtoGEO); try simp only [hs, if_true, toMeter_zero, RADtoGEOSphere_zero _ _ _ _ h0 h1,
        fromRadian_toRadian, fromRadian_AngleTo360])
    · ((try unfold RADtoGEO); try simp only [hs, if_false, toMeter_zero,
        RADtoGEOEllipsoid_zero _ _ _ _ _ _ hf h0 h1, fromRadian_toRadian, fromRadian_AngleTo360])
  · by_cases hs : AreEqualAbs eps ellipsoid.A ellipsoid.B
    · left
      ((try unfold RADtoGEOTrace); try simp only [hs, if_true])
    · right
      ((try unfold RADtoGEOTrace); (try unfold RADtoGEOLoop); try simp only [hs, if_false, toMeter_zero, zero_div,
        directLoop_zero])

/-- Witness for C33 as amended: WGS-84 with exact comparisons, degrees and
kilometres, from `(55°, 37°)` with azimuth `400°`. -/
theorem RADtoGEO_zero_distance_witness :
    RADtoGEO 0 WGS84 TRangeUnit.RU_Kilometer TAngleUnit.AU_Degree 55 37 0 400 =
      { latEnd := 55, lonEnd := 37, azEnd := AngleTo360 400 TAngleUnit.AU_Degree } ∧
    (RADtoGEOTrace 0 WGS84 TRangeUnit.RU_Kilometer TAngleUnit.AU_Degree 55 37 0 400 = none ∨
      RADtoGEOTrace 0 WGS84 TRangeUnit.RU_Kilometer TAngleUnit.AU_Degree 55 37 0 400 = some 1) ∧
    0 < WGS84.A ∧
    ∀ uSq : ℝ, 0 ≤ uSq →
      uSq ≤ (WGS84.A * WGS84.A - WGS84.B * WGS84.B) / (WGS84.B * WGS84.B) →
      0 < WGS84.B * (1.0 + (uSq / 16384.0) *
        (4096.0 + uSq * (-768.0 + uSq * (320.0 - 175.0 * uSq)))) :=
  RADtoGEO_zero_distance 0 WGS84 (by ((try unfold WGS84); (try unfold CEllipsoid.B); norm_num))
    (by ((try unfold WGS84); (try unfold CEllipsoid.B); (try unfold CEllipsoid.A); norm_num))
    (by ((try unfold WGS84); (try unfold CEllipsoid.B); (try unfold CEllipsoid.A); norm_num))
    (by ((try unfold WGS84); (try unfold CEllipsoid.F); norm_num))
    TRangeUnit.RU_Kilometer TAngleUnit.AU_Degree 55 37 400
    (by have := Real.pi_pos; simp only [toRadian, DgToRdD]; linarith)
    (by have := Real.pi_pos; simp only [toRadian, DgToRdD]; linarith)

/-- Counterexample for C33: the ellipsoid that the constructor builds from the
axes `a = 2`, `b = 1` and the inverse flattening `1` (semi-minor axis
authoritative) has `0 < b ≤ a` and flattening `f = 1`; on it `RADtoGEO` from the
latitude `0.5` rad with `d = 0` returns the latitude `0`, not `0.5`. -/
theorem RADtoGEO_zero_distance_counterexample :
    0 < (CEllipsoid.ctor 0 "flat" 2 1 (DoubleArg.finite 1) false).B ∧
    (CEllipsoid.ctor 0 "flat" 2 1 (DoubleArg.finite 1) false).B ≤
      (CEllipsoid.ctor 0 "flat" 2 1 (DoubleArg.finite 1) false).A ∧
    -(Real.pi / 2) < (0.5 : ℝ) ∧ (0.5 : ℝ) < Real.pi / 2 ∧
    (RADtoGEO 0 (CEllipsoid.ctor 0 "flat" 2 1 (DoubleArg.finite 1) false)
      TRangeUnit.RU_Meter TAngleUnit.AU_Radian 0.5 0 0 0).latEnd = 0 ∧
    (RADtoGEO 0 (CEllipsoid.ctor 0 "flat" 2 1 (DoubleArg.finite 1) false)
      TRangeUnit.RU_Meter TAngleUnit.AU_Radian 0.5 0 0 0).latEnd ≠ 0.5 := by
  have atan2_zero_nonneg := aux_9
  have toMeter_meter := aux_2
  have toRadian_radian := aux_4
  have fromRadian_radian := aux_20
  have directLoop_zero := aux_32
  have hpi := Real.pi_gt_three
  have hA : (CEllipsoid.ctor 0 "flat" 2 1 (DoubleArg.finite 1) false).A = 2 := by
    ((try unfold CEllipsoid.A); (try unfold CEllipsoid.ctor); norm_num)
  have hB : (CEllipsoid.ctor 0 "flat" 2 1 (DoubleArg.finite 1) false).B = 1 := by
    ((try unfold CEllipsoid.B); (try unfold CEllipsoid.ctor); norm_num)
  have hF : (CEllipsoid.ctor 0 "flat" 2 1 (DoubleArg.finite 1) false).F = 1 := by
    ((try unfold CEllipsoid.F); (try unfold CEllipsoid.ctor); norm_num [DoubleArg.recip])
  have hns : ¬ AreEqualAbs 0 (2 : ℝ) 1 := by ((try unfold Compare.AreEqualAbs); norm_num)
  have hlat : (RADtoGEO 0 (CEllipsoid.ctor 0 "flat" 2 1 (DoubleArg.finite 1) false)
      TRangeUnit.RU_Meter TAngleUnit.AU_Radian 0.5 0 0 0).latEnd = 0 := by
    ((try unfold RADtoGEO); (try unfold RADtoGEOEllipsoid); try simp only [hA, hB, hF, hns, if_false, toMeter_meter, toRadian_radian,
      fromRadian_radian])
    have h10 : (1.0 : ℝ) - 1 = 0 := by norm_num
    simp only [h10, zero_mul, zero_div, directLoop_zero, Real.sin_zero, mul_zero, add_zero]
    exact atan2_zero_nonneg 0 le_rfl
  refine ⟨by rw [hB]; norm_num, by rw [hA, hB]; norm_num, by linarith, by norm_num; linarith,
    hlat, ?_⟩
  rw [hlat]
  norm_num

/-! ## Rounding to binary64 -/

/-- C37: in binary64 arithmetic `CosAngleBetweenVectors` is not always a valid
cosine.  For the equal vectors `(1, 1, 1)` and `(1, 1, 1)` the rounded norms are
`1.7320508075688772`, their rounded product is `2.9999999999999996`, and the
function returns `1 + 2^-52 = 1.0000000000000002`, which is larger than `1`, so
`AngleBetweenVectors` returns not-a-number there.  The value is symmetric in the
two vectors for all arguments. -/
theorem CosAngleBetweenVectors_above_one :
    CosAngleBetweenVectors 1 1 1 1 1 1 = some (1 + 1 / 2 ^ 52) ∧
    AngleBetweenVectors 1 1 1 1 1 1 = none ∧
    ∀ x1 y1 z1 x2 y2 z2 : ℝ, CosAngleBetweenVectors x1 y1 z1 x2 y2 z2 =
      CosAngleBetweenVectors x2 y2 z2 x1 y1 z1 := by
  have Binary64_rnd_eq_of_near := aux_35.2.2.1
  have Binary64_rnd_one := aux_35.2.2.2
  have Binary64_rnd_two : Binary64.rnd 2 = 2 := by
    have h := Binary64_rnd_eq_of_near 2 1 (2 ^ 52) (by norm_num) (by norm_num) (by norm_num)
    rw [h]
    norm_num
  have Binary64_rnd_three : Binary64.rnd 3 = 3 := by
    have h := Binary64_rnd_eq_of_near 3 1 (3 * 2 ^ 51) (by norm_num) (by norm_num) (by norm_num)
    rw [h]
    norm_num
  have Binary64_sqrt_three : Binary64.sqrt 3 = 7800463371553962 / 2 ^ 52 := by
    have lo : (7800463371553962 - 1 / 2) / 2 ^ 52 < Real.sqrt 3 := by
      rw [Real.lt_sqrt (by norm_num)]
      norm_num
    have hi : Real.sqrt 3 < (7800463371553962 + 1 / 2) / 2 ^ 52 := by
      rw [Real.sqrt_lt' (by norm_num)]
      norm_num
    have hpos : (0 : ℝ) ≤ Real.sqrt 3 := Real.sqrt_nonneg 3
    have g1 : (2 : ℝ) ^ (0 : ℤ) ≤ |Real.sqrt 3| := by
      rw [abs_of_nonneg hpos, zpow_zero]
      linarith
    have g2 : |Real.sqrt 3| < (2 : ℝ) ^ ((0 : ℤ) + 1) := by
      rw [abs_of_nonneg hpos, zero_add, zpow_one]
      linarith
    have g3 : |Real.sqrt 3 / (2 : ℝ) ^ ((0 : ℤ) - 52) - (7800463371553962 : ℤ)| < 1 / 2 := by
      have e : Real.sqrt 3 / (2 : ℝ) ^ ((0 : ℤ) - 52) = Real.sqrt 3 * 2 ^ 52 := by
        rw [show ((0 : ℤ) - 52) = -52 by norm_num, zpow_neg, div_inv_eq_mul]
        norm_num
      rw [e, abs_lt]
      push_cast
      constructor <;> linarith
    unfold Binary64.sqrt
    rw [Binary64_rnd_eq_of_near (Real.sqrt 3) 0 7800463371553962 g1 g2 g3]
    norm_num [zpow_neg]
  have hden : Binary64.mul (7800463371553962 / 2 ^ 52) (7800463371553962 / 2 ^ 52) =
      6755399441055743 / 2 ^ 51 := by
    unfold Binary64.mul
    rw [Binary64_rnd_eq_of_near _ 1 6755399441055743
      (by rw [abs_of_pos (by norm_num)]; norm_num)
      (by rw [abs_of_pos (by norm_num)]; norm_num)
      (by norm_num [zpow_neg, abs_lt])]
    norm_num [zpow_neg]
  have hquot : Binary64.rnd (3 / (6755399441055743 / 2 ^ 51)) = 1 + 1 / 2 ^ 52 := by
    rw [Binary64_rnd_eq_of_near _ 0 4503599627370497
      (by rw [abs_of_pos (by norm_num)]; norm_num)
      (by rw [abs_of_pos (by norm_num)]; norm_num)
      (by norm_num [zpow_neg, abs_lt])]
    norm_num [zpow_neg]
  have hc : CosAngleBetweenVectors 1 1 1 1 1 1 = some (1 + 1 / 2 ^ 52) := by
    ((try unfold CosAngleBetweenVectors); (try unfold Binary64.mul); (try unfold Binary64.add); try simp only [mul_one, Binary64_rnd_one])
    norm_num only [Binary64_rnd_two, Binary64_rnd_three]
    rw [Binary64_sqrt_three]
    have hm := hden
    unfold Binary64.mul at hm
    ((try unfold Binary64.div); try simp only [hm])
    rw [if_neg (by norm_num), hquot]
    norm_num
  refine ⟨hc, ?_, ?_⟩
  · rw [AngleBetweenVectors, hc, Option.some_bind]
    unfold Binary64.acos
    rw [if_pos (Or.inr (by norm_num))]
  · intro x1 y1 z1 x2 y2 z2
    ((try unfold CosAngleBetweenVectors); (try unfold Binary64.mul); (try unfold Binary64.add); try simp only)
    rw [mul_comm x2 x1, mul_comm y2 y1, mul_comm z2 z1, mul_comm (Binary64.sqrt _)]

end Geodesy
end SPML
